import Mathlib

/-!
# uwvm2: the global-section decoder of the WebAssembly binary-format parser

Shallow embedding of `handle_binfmt_ver1_extensible_section_define` for
`global_section_storage_t`
(`src/uwvm2/parser/wasm/standard/wasm1/features/global_section.h`).

* A `::std::byte const*` is a natural-number address, the null pointer being `0`.
* The input buffer is a function from addresses to byte values.
* `wasm_u32` values are natural numbers, reduced modulo `2 ^ 32` where the source
  converts to or increments a `wasm_u32`.
* The `err` reference parameter and the module storage are passed explicitly and
  returned together with the way the call ended (normal return, or the
  `::fast_io::parse_code` thrown by `throw_wasm_parse_code`).
* The two `for`/`while` loops recurse on a step budget; `fuel_exhausted` is returned
  when the budget runs out (lemmas below show that the budget of the top-level
  function is never exhausted when the callees keep the cursor inside the section).
-/

namespace uwvm2

/-- The bytes of the input buffer, by address. -/
abbrev Memory := Nat → Nat

/-- The value `numeric_limits<wasm_u32>::max()`. -/
def wasm_u32_max : Nat := 0xFFFFFFFF

/-- Number of values of a `wasm_u32`: conversions and increments reduce modulo this. -/
def wasm_u32_size : Nat := 0x100000000

/-- The codes of `::fast_io::parse_code` that the decoder handles. -/
inductive parse_code where
  | ok
  | end_of_file
  | invalid
  | overflow
  deriving DecidableEq, Repr

/-- The members of `wasm_parse_error_code` assigned in `global_section.h`, plus
`callee`, standing for any code assigned by the entry-type decoder. -/
inductive wasm_parse_error_code where
  | ok
  | duplicate_section
  | invalid_global_count
  | size_exceeds_the_maximum_value_of_size_t
  | imp_def_num_exceed_u32max
  | global_section_resolved_exceeded_the_actual_number
  | global_init_terminator_not_found
  | global_section_resolved_not_match_the_actual_number
  | callee (code : Nat)
  deriving DecidableEq, Repr

/-- The union `err_selectable`, as the member that was written last. -/
inductive err_selectable_t where
  | unset
  | u8 (v : Nat)
  | u32 (v : Nat)
  | u64 (v : Nat)
  | u32arr (a0 a1 : Nat)
  | imp_def_num_exceed_u32max (type defined imported : Nat)
  deriving DecidableEq, Repr

/-- The record `::uwvm2::parser::wasm::base::error_impl`. -/
structure error_impl where
  err_curr : Nat
  err_selectable : err_selectable_t
  err_code : wasm_parse_error_code
  deriving DecidableEq, Repr

/-- The type `section_span_view`: begin and end of the raw bytes of a section. -/
structure section_span_view where
  sec_begin : Nat
  sec_end : Nat
  deriving DecidableEq, Repr

/-- The type `global_type`: value-type tag and mutability. -/
structure global_type where
  type : Nat
  is_mutable : Bool
  deriving DecidableEq, Repr

/-- The span of an initializer expression (`local_global.expr`). -/
structure wasm_const_expr where
  begin : Nat
  end_ : Nat
  deriving DecidableEq, Repr

/-- The type `final_local_global_type`: one stored global entry. -/
structure final_local_global_type where
  global : global_type
  expr : wasm_const_expr
  deriving DecidableEq, Repr

/-- The type `global_section_storage_t`. -/
structure global_section_storage_t where
  sec_span : section_span_view
  local_globals : List final_local_global_type
  deriving DecidableEq, Repr

/-- The constant `global_section_storage_t::section_id` (`section_id::global_sec`). -/
def global_section_id : Nat := 6

/-- The part of `import_section_storage_t` that the decoder reads: `importdesc`, the
imports by kind (function, table, memory, global), each a vector of entries. -/
structure import_section_storage_t where
  importdesc : List (List Nat)
  deriving DecidableEq, Repr

/-- The sections of `wasm_binfmt_ver1_module_extensible_storage_t` that the decoder
touches. -/
structure module_storage_t where
  importsec : import_section_storage_t
  globalsec : global_section_storage_t
  deriving DecidableEq, Repr

/-- What `::fast_io::parse_by_scan(first, last, leb128_get(x))` yields: the iterator
after the number, the parse code, and the value written to `x`. -/
structure leb128_result where
  iter : Nat
  code : parse_code
  value : Nat
  deriving DecidableEq, Repr

/-- The LEB128 reader, a callee that is not part of `global_section.h`. -/
abbrev leb128_reader := Memory → Nat → Nat → leb128_result

/-- How a call of the entry-type decoder ends: it returns the cursor after the type
descriptor, having written `global_r`, or it throws after filling `err`. -/
inductive scan_result where
  | ok (global_r : global_type) (next : Nat)
  | throws (err : error_impl) (code : parse_code)
  deriving DecidableEq, Repr

/-- The function `scan_global_type(global_r, section_curr, section_end, err)`, a
callee that is not part of `global_section.h`. -/
abbrev global_type_scanner := Memory → Nat → Nat → error_impl → scan_result

/-- How a call of the section decoder ends. -/
inductive outcome where
  | returned
  | thrown (code : parse_code)
  | fuel_exhausted
  deriving DecidableEq, Repr

/-- State after a call of the section decoder. -/
structure call_result where
  module_storage : module_storage_t
  err : error_impl
  out : outcome
  deriving DecidableEq, Repr

/-- The function `global_section_global_handler`: forwards to `scan_global_type`. -/
def global_section_global_handler (scan_global_type : global_type_scanner)
    (mem : Memory) (section_curr section_end : Nat) (err : error_impl) : scan_result :=
  scan_global_type mem section_curr section_end err

/-- Result of the inner `for(;; ++section_curr)` loop. -/
inductive terminator_scan where
  | found (section_curr : Nat)
  | not_found (section_curr : Nat)
  | fuel_exhausted
  deriving DecidableEq, Repr

/-- The inner loop `for(;; ++section_curr)`: stops with `not_found` when the cursor
equals `section_end`, with `found` at a byte equal to `0x0B`. -/
def find_terminator (mem : Memory) (section_end : Nat) : Nat → Nat → terminator_scan
  | 0, _ => terminator_scan.fuel_exhausted
  | fuel + 1, section_curr =>
    if section_curr = section_end then terminator_scan.not_found section_curr
    else if mem section_curr = 0x0B then terminator_scan.found section_curr
    else find_terminator mem section_end fuel (section_curr + 1)

/-- The loop `while(section_curr != section_end)` together with the check after it.
`inner` is the step budget handed to each run of the inner loop. -/
def global_loop (scan_global_type : global_type_scanner) (mem : Memory)
    (section_end : Nat) (global_count : Nat) (inner : Nat) (importsec : import_section_storage_t) :
    Nat → Nat → Nat → global_section_storage_t → error_impl → call_result
  | 0, _, _, globalsec, err => ⟨⟨importsec, globalsec⟩, err, outcome.fuel_exhausted⟩
  | fuel + 1, section_curr, global_counter, globalsec, err =>
    if section_curr = section_end then
      -- check global counter match
      if global_counter ≠ global_count then
        ⟨⟨importsec, globalsec⟩,
          { err_curr := section_curr,
            err_selectable := err_selectable_t.u32arr global_counter global_count,
            err_code := wasm_parse_error_code.global_section_resolved_not_match_the_actual_number },
          outcome.thrown parse_code.invalid⟩
      else ⟨⟨importsec, globalsec⟩, err, outcome.returned⟩
    else
      -- ++global_counter on a wasm_u32
      let global_counter := (global_counter + 1) % wasm_u32_size
      if global_counter > global_count then
        ⟨⟨importsec, globalsec⟩,
          { err_curr := section_curr,
            err_selectable := err_selectable_t.u32 global_count,
            err_code := wasm_parse_error_code.global_section_resolved_exceeded_the_actual_number },
          outcome.thrown parse_code.invalid⟩
      else
        match global_section_global_handler scan_global_type mem section_curr section_end err with
        | scan_result.throws err1 code => ⟨⟨importsec, globalsec⟩, err1, outcome.thrown code⟩
        | scan_result.ok global_r section_curr1 =>
          -- local_global.expr.begin = section_curr
          match find_terminator mem section_end inner section_curr1 with
          | terminator_scan.fuel_exhausted => ⟨⟨importsec, globalsec⟩, err, outcome.fuel_exhausted⟩
          | terminator_scan.not_found section_curr2 =>
            ⟨⟨importsec, globalsec⟩,
              { err with
                err_curr := section_curr2,
                err_code := wasm_parse_error_code.global_init_terminator_not_found },
              outcome.thrown parse_code.invalid⟩
          | terminator_scan.found section_curr2 =>
            -- ++section_curr; local_global.expr.end = section_curr; push_back_unchecked
            let local_global : final_local_global_type :=
              ⟨global_r, ⟨section_curr1, section_curr2 + 1⟩⟩
            global_loop scan_global_type mem section_end global_count inner importsec fuel
              (section_curr2 + 1) global_counter
              { globalsec with local_globals := globalsec.local_globals ++ [local_global] } err

/-- The value `imported_global_size`: `importdesc.index_unchecked(3).size()` converted
to `wasm_u32`. -/
def imported_global_size (importsec : import_section_storage_t) : Nat :=
  (importsec.importdesc.getD 3 []).length % wasm_u32_size

/-- The function `handle_binfmt_ver1_extensible_section_define` for
`global_section_storage_t`. `size_t_max` is `numeric_limits<size_t>::max()` of the
target; `parse_leb128` and `scan_global_type` are the callees defined elsewhere. -/
def handle_binfmt_ver1_extensible_section_define (size_t_max : Nat)
    (parse_leb128 : leb128_reader) (scan_global_type : global_type_scanner) (mem : Memory)
    (module_storage : module_storage_t) (section_begin section_end : Nat)
    (err : error_impl) (sec_id_module_ptr : Nat) : call_result :=
  let globalsec := module_storage.globalsec
  let importsec := module_storage.importsec
  let imported_global_size := imported_global_size importsec
  -- check duplicate
  if globalsec.sec_span.sec_begin ≠ 0 then
    ⟨module_storage,
      { err_curr := sec_id_module_ptr,
        err_selectable := err_selectable_t.u8 global_section_id,
        err_code := wasm_parse_error_code.duplicate_section },
      outcome.thrown parse_code.invalid⟩
  else
    let globalsec : global_section_storage_t :=
      { globalsec with sec_span := ⟨section_begin, section_end⟩ }
    let section_curr := section_begin
    let r := parse_leb128 mem section_curr section_end
    let global_count := r.value
    if r.code ≠ parse_code.ok then
      ⟨⟨importsec, globalsec⟩,
        { err with
          err_curr := section_curr,
          err_code := wasm_parse_error_code.invalid_global_count },
        outcome.thrown r.code⟩
    else if size_t_max < wasm_u32_max ∧ global_count > size_t_max then
      ⟨⟨importsec, globalsec⟩,
        { err_curr := section_curr,
          err_selectable := err_selectable_t.u64 global_count,
          err_code := wasm_parse_error_code.size_exceeds_the_maximum_value_of_size_t },
        outcome.thrown parse_code.invalid⟩
    else if global_count > wasm_u32_max - imported_global_size then
      ⟨⟨importsec, globalsec⟩,
        { err_curr := section_curr,
          err_selectable :=
            err_selectable_t.imp_def_num_exceed_u32max 0x03 global_count imported_global_size,
          err_code := wasm_parse_error_code.imp_def_num_exceed_u32max },
        outcome.thrown parse_code.invalid⟩
    else
      -- reserve(global_count) changes the capacity only
      global_loop scan_global_type mem section_end global_count
        (section_end - section_begin + 1) importsec
        (section_end - section_begin + 1) r.iter 0 globalsec err

/-- Modelled from the spec: the LEB128 reader of fast_io
(`parse_by_scan` with `leb128_get` on a `wasm_u32`), which is not among the sources.
Spec 4.1 and glossary: groups of seven bits, least significant group first, a
continuation bit per byte; the read fails with UnexpectedEndOfInput
(`end_of_file`) if no terminating byte is found within the bytes before `last` and
the maximum encoded width of a 32-bit value (`width` bytes left), and with
IntegerTooLarge (`overflow`) if the decoded value does not fit 32 bits; otherwise
it yields the value and the position one past the terminating byte. -/
def leb128_scan (mem : Memory) (last : Nat) : Nat → Nat → Nat → Nat → leb128_result
  | 0, pos, _, _ => ⟨pos, parse_code.end_of_file, 0⟩
  | width + 1, pos, shift, acc =>
    if pos = last then ⟨pos, parse_code.end_of_file, 0⟩
    else
      let acc1 := acc + (mem pos % 128) * 2 ^ shift
      if mem pos / 128 % 2 = 0 then
        if acc1 ≤ wasm_u32_max then ⟨pos + 1, parse_code.ok, acc1⟩
        else ⟨pos, parse_code.overflow, 0⟩
      else leb128_scan mem last width (pos + 1) (shift + 7) acc1

/-- Modelled from the spec: `read_leb128_u32(pos, end)` of spec 4.1, the reader that
the decoder calls for the entry count; a 32-bit value takes at most five bytes. -/
def read_leb128_u32 : leb128_reader :=
  fun mem first last => leb128_scan mem last 5 first 0 0

/-- Modelled from the spec: `scan_global_type`, which is not among the sources.
Spec 4.4 step 7 and 4.1: the entry-type decoder of a global reads a value-type tag
and a mutability tag, both of fixed size (one byte), each by a byte-tag read that
fails with UnexpectedEndOfInput if the position equals the end; the spec names no
further validation of the two tags. The tag `0x7F` is `i32`, mutability `0x00` is
immutable. -/
def scan_global_type : global_type_scanner :=
  fun mem section_curr section_end err =>
    if section_curr = section_end then
      scan_result.throws
        { err with err_curr := section_curr, err_code := wasm_parse_error_code.callee 0 }
        parse_code.end_of_file
    else if section_curr + 1 = section_end then
      scan_result.throws
        { err with err_curr := section_curr + 1, err_code := wasm_parse_error_code.callee 0 }
        parse_code.end_of_file
    else
      scan_result.ok ⟨mem section_curr, decide (mem (section_curr + 1) ≠ 0)⟩ (section_curr + 2)

/-- The value-type tag of `i32`. -/
def value_type_i32 : Nat := 0x7F

/-- A buffer holding `bytes` from address `base` on (zero elsewhere). -/
def memory_of (base : Nat) (bytes : List Nat) : Memory :=
  fun a => if a < base then 0 else bytes.getD (a - base) 0

/-- A zero-initialised `error_impl`. -/
def error_impl.zero : error_impl :=
  ⟨0, err_selectable_t.unset, wasm_parse_error_code.ok⟩

/-- A freshly constructed module storage whose import section holds `imports` by kind. -/
def module_storage_t.fresh (imports : List (List Nat)) : module_storage_t :=
  ⟨⟨imports⟩, ⟨⟨0, 0⟩, []⟩⟩


/-! ## Contracts of the callees and vocabulary of the statements -/

/-- The buffer `mem` holds `bytes` from address `base` on. -/
def holds_bytes (mem : Memory) (base : Nat) (bytes : List Nat) : Prop :=
  ∀ i, i < bytes.length → mem (base + i) = bytes.getD i 0

/-- Contract of the entry-type decoder: called inside the section, it returns a
cursor between its input cursor and `section_end`. -/
def scanner_in_bounds (scan : global_type_scanner) : Prop :=
  ∀ mem section_curr section_end err global_r next, section_curr < section_end →
    scan mem section_curr section_end err = scan_result.ok global_r next →
    section_curr ≤ next ∧ next ≤ section_end

/-- The error codes thrown by the entry-type decoder are its own, none of those that
`global_section.h` assigns. -/
def scanner_codes (scan : global_type_scanner) : Prop :=
  ∀ mem section_curr section_end err err1 code,
    scan mem section_curr section_end err = scan_result.throws err1 code →
    ∃ n, err1.err_code = wasm_parse_error_code.callee n

/-- Contract of the LEB128 reader: a successful read ends between `first` and `last`
and yields a 32-bit value. -/
def reader_in_bounds (parse_leb128 : leb128_reader) : Prop :=
  ∀ mem first last, first ≤ last → (parse_leb128 mem first last).code = parse_code.ok →
    first ≤ (parse_leb128 mem first last).iter ∧ (parse_leb128 mem first last).iter ≤ last ∧
      (parse_leb128 mem first last).value ≤ wasm_u32_max

/-- One entry read at `section_curr` the way an iteration of the loop reads it: the
type descriptor, then the initializer expression up to and including the first
`0x0B`. Yields the entry and the cursor after it. -/
def entry_at (scan : global_type_scanner) (mem : Memory) (section_end : Nat) (err : error_impl)
    (section_curr : Nat) : Option (final_local_global_type × Nat) :=
  match global_section_global_handler scan mem section_curr section_end err with
  | scan_result.ok global_r section_curr1 =>
    match find_terminator mem section_end (section_end - section_curr1 + 1) section_curr1 with
    | terminator_scan.found section_curr2 =>
      some (⟨global_r, ⟨section_curr1, section_curr2 + 1⟩⟩, section_curr2 + 1)
    | _ => none
  | _ => none

/-- The bytes from `section_curr` on decode into exactly `k` complete entries: the
entries and the cursor after the last of them. -/
def entries_from (scan : global_type_scanner) (mem : Memory) (section_end : Nat)
    (err : error_impl) : Nat → Nat → Option (List final_local_global_type × Nat)
  | 0, section_curr => some ([], section_curr)
  | k + 1, section_curr =>
    if section_curr = section_end then none
    else
      match entry_at scan mem section_end err section_curr with
      | some (local_global, next) =>
        match entries_from scan mem section_end err k next with
        | some (rest, last) => some (local_global :: rest, last)
        | none => none
      | none => none

/-- The error codes that the entry loop can leave in `err` when it throws. -/
def loop_code (c : wasm_parse_error_code) : Prop :=
  c = wasm_parse_error_code.global_section_resolved_not_match_the_actual_number ∨
  c = wasm_parse_error_code.global_section_resolved_exceeded_the_actual_number ∨
  c = wasm_parse_error_code.global_init_terminator_not_found ∨
  ∃ n, c = wasm_parse_error_code.callee n

/-- The two buffers hold the same bytes at the addresses from `first` up to `last`
(`last` excluded). -/
def agree_on (mem1 mem2 : Memory) (first last : Nat) : Prop :=
  ∀ a, first ≤ a → a < last → mem1 a = mem2 a

/-- Contract of the LEB128 reader: its result depends on the buffer only through the
bytes between `first` and `last`, for `first ≤ last`. -/
def reader_local (parse_leb128 : leb128_reader) : Prop :=
  ∀ mem1 mem2 first last, first ≤ last → agree_on mem1 mem2 first last →
    parse_leb128 mem1 first last = parse_leb128 mem2 first last

/-- Contract of the entry-type decoder: its result depends on the buffer only through
the bytes between `section_curr` and `section_end`, when called inside the section. -/
def scanner_local (scan : global_type_scanner) : Prop :=
  ∀ mem1 mem2 section_curr section_end err, section_curr < section_end →
    agree_on mem1 mem2 section_curr section_end →
    scan mem1 section_curr section_end err = scan mem2 section_curr section_end err

/-- The continuation bit (bit 7) of a LEB128 byte is set. -/
def leb128_continues (b : Nat) : Prop :=
  b / 128 % 2 = 1

instance leb128_continues_decidable (b : Nat) : Decidable (leb128_continues b) :=
  inferInstanceAs (Decidable (b / 128 % 2 = 1))

/-- The value encoded by the bytes at `first`, ..., `first + t`: the sum of their
seven-bit groups, the group of the byte at `first + i` weighing `128 ^ i` (least
significant group first). -/
def leb128_groups (mem : Memory) (first t : Nat) : Nat :=
  Finset.sum (Finset.range (t + 1)) (fun i => mem (first + i) % 128 * 128 ^ i)

/-- Contract of the LEB128 reader: a successful read consumes at least one byte. -/
def reader_advances (parse_leb128 : leb128_reader) : Prop :=
  ∀ mem first last, first ≤ last → (parse_leb128 mem first last).code = parse_code.ok →
    first < (parse_leb128 mem first last).iter

/-- The appends of the loop, in order: for each `push_back_unchecked`, the number of
entries that `local_globals` holds just before it (`stored`) and the value of
`global_counter` at that moment. The control flow is that of `global_loop`. -/
def global_loop_pushes (scan_global_type : global_type_scanner) (mem : Memory)
    (section_end : Nat) (global_count : Nat) (inner : Nat) :
    Nat → Nat → Nat → Nat → error_impl → List (Nat × Nat)
  | 0, _, _, _, _ => []
  | fuel + 1, section_curr, global_counter, stored, err =>
    if section_curr = section_end then []
    else
      let global_counter := (global_counter + 1) % wasm_u32_size
      if global_counter > global_count then []
      else
        match global_section_global_handler scan_global_type mem section_curr section_end err with
        | scan_result.throws _ _ => []
        | scan_result.ok _ section_curr1 =>
          match find_terminator mem section_end inner section_curr1 with
          | terminator_scan.found section_curr2 =>
            (stored, global_counter) ::
              global_loop_pushes scan_global_type mem section_end global_count inner fuel
                (section_curr2 + 1) global_counter (stored + 1) err
          | _ => []

/-- The appends of a call of the decoder: none before the loop is reached, then those
of the loop as the decoder starts it. -/
def global_section_pushes (size_t_max : Nat) (parse_leb128 : leb128_reader)
    (scan_global_type : global_type_scanner) (mem : Memory) (module_storage : module_storage_t)
    (section_begin section_end : Nat) (err : error_impl) : List (Nat × Nat) :=
  let r := parse_leb128 mem section_begin section_end
  if module_storage.globalsec.sec_span.sec_begin ≠ 0 then []
  else if r.code ≠ parse_code.ok then []
  else if size_t_max < wasm_u32_max ∧ r.value > size_t_max then []
  else if r.value > wasm_u32_max - imported_global_size module_storage.importsec then []
  else
    global_loop_pushes scan_global_type mem section_end r.value
      (section_end - section_begin + 1) (section_end - section_begin + 1) r.iter 0
      module_storage.globalsec.local_globals.length err

end uwvm2

/-! # boost::source_location

Shallow embedding of `source_location::to_string`
(`third-parties/boost_unordered/include/boost/assert/source_location.hpp`). A
`std::string` and the characters of a C string before its NUL are lists of
characters; `std::uint_least32_t` and `unsigned long` values are natural numbers. -/

namespace boost

/-- The class `source_location`: file and function name (C strings), line and
column (`std::uint_least32_t`). -/
structure source_location where
  file_ : List Char
  function_ : List Char
  line_ : Nat
  column_ : Nat
  deriving DecidableEq, Repr

/-- The member `file_name()`. -/
def source_location.file_name (loc : source_location) : List Char :=
  loc.file_

/-- The member `function_name()`. -/
def source_location.function_name (loc : source_location) : List Char :=
  loc.function_

/-- The member `line()`. -/
def source_location.line (loc : source_location) : Nat :=
  loc.line_

/-- The member `column()`. -/
def source_location.column (loc : source_location) : Nat :=
  loc.column_

/-- What the conversion `%lu` prints: the decimal digits of the argument. -/
def decimal (arg : Nat) : List Char :=
  Nat.toDigits 10 arg

/-- The macro `BOOST_ASSERT_SNPRINTF(buffer, ":%lu", arg)` on `char buffer[16]`,
followed by the reading of `buffer` as a C string: `snprintf` stores at most
`sizeof(buffer) - 1` characters of the formatted text and the NUL. -/
def BOOST_ASSERT_SNPRINTF (arg : Nat) : List Char :=
  (':' :: decimal arg).take 15

/-- The apostrophe, appended by `r += '\''`. -/
def apostrophe : Char :=
  Char.ofNat 39

/-- The member `to_string()`. -/
def source_location.to_string (loc : source_location) : List Char :=
  let ln := loc.line
  if ln = 0 then "(unknown source location)".toList
  else
    let r := loc.file_name
    let r := r ++ BOOST_ASSERT_SNPRINTF ln
    let co := loc.column
    let r := if co ≠ 0 then r ++ BOOST_ASSERT_SNPRINTF co else r
    let fn := loc.function_name
    if fn ≠ [] then
      let r := r ++ (" in function ".toList ++ [apostrophe])
      let r := r ++ fn
      r ++ [apostrophe]
    else r

end boost

namespace uwvm2

/-! ## The inner loop -/

theorem find_terminator_found (mem : Memory) (section_end : Nat) :
    ∀ (fuel : Nat) (section_curr p : Nat),
      find_terminator mem section_end fuel section_curr = terminator_scan.found p →
      section_curr ≤ p ∧ mem p = 0x0B ∧ p ≠ section_end ∧
        (∀ q, section_curr ≤ q → q < p → mem q ≠ 0x0B) ∧
        (section_curr ≤ section_end → p < section_end) := by
  intro fuel
  induction fuel with
  | zero => intro cur p h; simp [find_terminator] at h
  | succ fuel ih =>
    intro cur p h
    unfold find_terminator at h
    by_cases hce : cur = section_end
    · simp [hce] at h
    · by_cases hb : mem cur = 0x0B
      · simp only [hce, hb, if_true, if_false] at h
        have hp : cur = p := by injection h
        subst hp
        refine ⟨le_refl _, hb, hce, ?_, ?_⟩
        · intro q h1 h2; omega
        · intro h1; omega
      · simp only [hce, hb, if_false] at h
        obtain ⟨h1, h2, h3, h4, h5⟩ := ih (cur + 1) p h
        refine ⟨by omega, h2, h3, ?_, ?_⟩
        · intro q hq1 hq2
          by_cases hq : q = cur
          · subst hq; exact hb
          · exact h4 q (by omega) hq2
        · intro hle; exact h5 (by omega)

theorem find_terminator_not_found (mem : Memory) (section_end : Nat) :
    ∀ (fuel : Nat) (section_curr p : Nat),
      find_terminator mem section_end fuel section_curr = terminator_scan.not_found p →
      p = section_end ∧ section_curr ≤ section_end ∧
        (∀ q, section_curr ≤ q → q < section_end → mem q ≠ 0x0B) := by
  intro fuel
  induction fuel with
  | zero => intro cur p h; simp [find_terminator] at h
  | succ fuel ih =>
    intro cur p h
    unfold find_terminator at h
    by_cases hce : cur = section_end
    · simp only [hce, if_true] at h
      have hp : section_end = p := by injection h
      refine ⟨hp.symm, by omega, ?_⟩
      intro q h1 h2; omega
    · by_cases hb : mem cur = 0x0B
      · simp [hce, hb] at h
      · simp only [hce, hb, if_false] at h
        obtain ⟨h1, h2, h3⟩ := ih (cur + 1) p h
        refine ⟨h1, by omega, ?_⟩
        intro q hq1 hq2
        by_cases hq : q = cur
        · subst hq; exact hb
        · exact h3 q (by omega) hq2

theorem find_terminator_fuel (mem : Memory) (section_end : Nat) :
    ∀ (fuel : Nat) (section_curr : Nat), section_curr ≤ section_end →
      section_end - section_curr < fuel →
      find_terminator mem section_end fuel section_curr ≠ terminator_scan.fuel_exhausted := by
  intro fuel
  induction fuel with
  | zero => intro cur _ h; omega
  | succ fuel ih =>
    intro cur hle hf
    unfold find_terminator
    by_cases hce : cur = section_end
    · simp [hce]
    · by_cases hb : mem cur = 0x0B
      · simp [hce, hb]
      · simp only [hce, hb, if_false]
        exact ih (cur + 1) (by omega) (by omega)

theorem find_terminator_budget (mem : Memory) (section_end : Nat) :
    ∀ (fuel1 fuel2 : Nat) (section_curr : Nat), section_curr ≤ section_end →
      section_end - section_curr < fuel1 → section_end - section_curr < fuel2 →
      find_terminator mem section_end fuel1 section_curr =
        find_terminator mem section_end fuel2 section_curr := by
  intro fuel1
  induction fuel1 with
  | zero => intro fuel2 cur _ h; omega
  | succ fuel1 ih =>
    intro fuel2 cur hle hf1 hf2
    cases fuel2 with
    | zero => omega
    | succ fuel2 =>
      unfold find_terminator
      by_cases hce : cur = section_end
      · simp [hce]
      · by_cases hb : mem cur = 0x0B
        · simp [hce, hb]
        · simp only [hce, hb, if_false]
          exact ih fuel2 (cur + 1) (by omega) (by omega) (by omega)

theorem find_terminator_absent (mem : Memory) (section_end : Nat) :
    ∀ (fuel : Nat) (section_curr : Nat), section_curr ≤ section_end →
      section_end - section_curr < fuel →
      (∀ q, section_curr ≤ q → q < section_end → mem q ≠ 0x0B) →
      find_terminator mem section_end fuel section_curr =
        terminator_scan.not_found section_end := by
  intro fuel
  induction fuel with
  | zero => intro cur _ h; omega
  | succ fuel ih =>
    intro cur hle hf hno
    unfold find_terminator
    by_cases hce : cur = section_end
    · simp [hce]
    · have hb : mem cur ≠ 0x0B := hno cur (le_refl _) (by omega)
      simp only [hce, hb, if_false]
      exact ih (cur + 1) (by omega) (by omega) (fun q h1 h2 => hno q (by omega) h2)

/-! ## The entry loop -/

theorem global_loop_frame (scan : global_type_scanner) (mem : Memory) (section_end : Nat)
    (global_count inner : Nat) (importsec : import_section_storage_t) :
    ∀ (fuel section_curr global_counter : Nat) (globalsec : global_section_storage_t)
      (err : error_impl),
      (global_loop scan mem section_end global_count inner importsec fuel section_curr
          global_counter globalsec err).module_storage.importsec = importsec ∧
      (global_loop scan mem section_end global_count inner importsec fuel section_curr
          global_counter globalsec err).module_storage.globalsec.sec_span = globalsec.sec_span ∧
      ∃ es, (global_loop scan mem section_end global_count inner importsec fuel section_curr
          global_counter globalsec err).module_storage.globalsec.local_globals =
            globalsec.local_globals ++ es := by
  intro fuel
  induction fuel with
  | zero => intro cur counter gs err; exact ⟨rfl, rfl, [], by simp [global_loop]⟩
  | succ fuel ih =>
    intro cur counter gs err
    unfold global_loop
    by_cases hce : cur = section_end
    · by_cases hcc : counter = global_count
      · simp [hce, hcc]
      · simp [hce, hcc]
    · simp only [hce, if_false]
      by_cases hex : (counter + 1) % wasm_u32_size > global_count
      · simp [hex]
      · simp only [hex, if_false]
        cases hs : global_section_global_handler scan mem cur section_end err with
        | throws err1 code => simp
        | ok g p1 =>
          simp only []
          cases ht : find_terminator mem section_end inner p1 with
          | fuel_exhausted => simp
          | not_found p2 => simp
          | found p2 =>
            simp only []
            obtain ⟨h1, h2, es, h3⟩ := ih (p2 + 1) ((counter + 1) % wasm_u32_size)
              { gs with local_globals := gs.local_globals ++ [⟨g, ⟨p1, p2 + 1⟩⟩] } err
            refine ⟨h1, h2, ⟨g, ⟨p1, p2 + 1⟩⟩ :: es, ?_⟩
            rw [h3]; simp

theorem global_loop_codes (scan : global_type_scanner) (hcodes : scanner_codes scan)
    (mem : Memory) (section_end : Nat) (global_count inner : Nat)
    (importsec : import_section_storage_t) :
    ∀ (fuel section_curr global_counter : Nat) (globalsec : global_section_storage_t)
      (err : error_impl) (code : parse_code),
      (global_loop scan mem section_end global_count inner importsec fuel section_curr
          global_counter globalsec err).out = outcome.thrown code →
      loop_code (global_loop scan mem section_end global_count inner importsec fuel section_curr
          global_counter globalsec err).err.err_code := by
  intro fuel
  induction fuel with
  | zero => intro cur counter gs err code h; simp [global_loop] at h
  | succ fuel ih =>
    intro cur counter gs err code
    unfold global_loop
    by_cases hce : cur = section_end
    · by_cases hcc : counter = global_count
      · simp [hce, hcc]
      · simp [hce, hcc, loop_code]
    · simp only [hce, if_false]
      by_cases hex : (counter + 1) % wasm_u32_size > global_count
      · simp [hex, loop_code]
      · simp only [hex, if_false]
        cases hs : global_section_global_handler scan mem cur section_end err with
        | throws err1 code1 =>
          intro _
          obtain ⟨n, hn⟩ := hcodes mem cur section_end err err1 code1 hs
          exact Or.inr (Or.inr (Or.inr ⟨n, hn⟩))
        | ok g p1 =>
          simp only []
          cases ht : find_terminator mem section_end inner p1 with
          | fuel_exhausted => simp
          | not_found p2 => simp [loop_code]
          | found p2 =>
            simp only []
            exact ih (p2 + 1) ((counter + 1) % wasm_u32_size) _ err code

theorem global_loop_count (scan : global_type_scanner) (hscan : scanner_in_bounds scan)
    (mem : Memory) (section_end : Nat) (global_count inner : Nat)
    (importsec : import_section_storage_t) :
    ∀ (fuel section_curr global_counter : Nat) (globalsec : global_section_storage_t)
      (err : error_impl), section_curr ≤ section_end →
      global_counter + (section_end - section_curr) < wasm_u32_size →
      (global_loop scan mem section_end global_count inner importsec fuel section_curr
          global_counter globalsec err).out = outcome.returned →
      (global_loop scan mem section_end global_count inner importsec fuel section_curr
          global_counter globalsec err).module_storage.globalsec.local_globals.length +
          global_counter = globalsec.local_globals.length + global_count := by
  intro fuel
  induction fuel with
  | zero => intro cur counter gs err _ _ h; simp [global_loop] at h
  | succ fuel ih =>
    intro cur counter gs err hle hno
    unfold global_loop
    by_cases hce : cur = section_end
    · by_cases hcc : counter = global_count
      · simp [hce, hcc]
      · simp [hce, hcc]
    · simp only [hce, if_false]
      have hlt : cur < section_end := by omega
      have hmod : (counter + 1) % wasm_u32_size = counter + 1 :=
        Nat.mod_eq_of_lt (by omega)
      by_cases hex : (counter + 1) % wasm_u32_size > global_count
      · simp [hex]
      · simp only [hex, if_false]
        cases hs : global_section_global_handler scan mem cur section_end err with
        | throws err1 code1 => simp
        | ok g p1 =>
          simp only []
          obtain ⟨hp1, hp1e⟩ := hscan mem cur section_end err g p1 hlt hs
          cases ht : find_terminator mem section_end inner p1 with
          | fuel_exhausted => simp
          | not_found p2 => simp
          | found p2 =>
            simp only []
            obtain ⟨h1, _, _, _, h5⟩ := find_terminator_found mem section_end inner p1 p2 ht
            have hp2 := h5 hp1e
            intro hret
            have := ih (p2 + 1) ((counter + 1) % wasm_u32_size)
              { gs with local_globals := gs.local_globals ++ [⟨g, ⟨p1, p2 + 1⟩⟩] } err
              (by omega) (by rw [hmod]; omega) hret
            rw [hmod] at this ⊢
            simp only [List.length_append, List.length_singleton] at this
            omega

theorem global_loop_fuel (scan : global_type_scanner) (hscan : scanner_in_bounds scan)
    (mem : Memory) (section_end : Nat) (global_count inner : Nat)
    (importsec : import_section_storage_t) :
    ∀ (fuel section_curr global_counter : Nat) (globalsec : global_section_storage_t)
      (err : error_impl), section_curr ≤ section_end →
      section_end - section_curr < fuel → section_end - section_curr < inner →
      (global_loop scan mem section_end global_count inner importsec fuel section_curr
          global_counter globalsec err).out ≠ outcome.fuel_exhausted := by
  intro fuel
  induction fuel with
  | zero => intro cur counter gs err _ h; omega
  | succ fuel ih =>
    intro cur counter gs err hle hf hi
    unfold global_loop
    by_cases hce : cur = section_end
    · by_cases hcc : counter = global_count
      · simp [hce, hcc]
      · simp [hce, hcc]
    · simp only [hce, if_false]
      have hlt : cur < section_end := by omega
      by_cases hex : (counter + 1) % wasm_u32_size > global_count
      · simp [hex]
      · simp only [hex, if_false]
        cases hs : global_section_global_handler scan mem cur section_end err with
        | throws err1 code1 => simp
        | ok g p1 =>
          simp only []
          obtain ⟨hp1, hp1e⟩ := hscan mem cur section_end err g p1 hlt hs
          cases ht : find_terminator mem section_end inner p1 with
          | fuel_exhausted =>
            exact absurd ht (find_terminator_fuel mem section_end inner p1 hp1e (by omega))
          | not_found p2 => simp
          | found p2 =>
            simp only []
            obtain ⟨h1, _, _, _, h5⟩ := find_terminator_found mem section_end inner p1 p2 ht
            have hp2 := h5 hp1e
            exact ih (p2 + 1) _ _ err (by omega) (by omega) (by omega)

theorem entry_at_some (scan : global_type_scanner) (mem : Memory) (section_end : Nat)
    (err : error_impl) (section_curr : Nat) (local_global : final_local_global_type)
    (next : Nat) (h : entry_at scan mem section_end err section_curr = some (local_global, next)) :
    ∃ global_r p1 p2,
      global_section_global_handler scan mem section_curr section_end err =
        scan_result.ok global_r p1 ∧
      find_terminator mem section_end (section_end - p1 + 1) p1 = terminator_scan.found p2 ∧
      local_global = ⟨global_r, ⟨p1, p2 + 1⟩⟩ ∧ next = p2 + 1 := by
  unfold entry_at at h
  cases hs : global_section_global_handler scan mem section_curr section_end err with
  | throws err1 code => simp [hs] at h
  | ok g p1 =>
    simp only [hs] at h
    cases ht : find_terminator mem section_end (section_end - p1 + 1) p1 with
    | fuel_exhausted => simp [ht] at h
    | not_found p2 => simp [ht] at h
    | found p2 =>
      simp only [ht, Option.some.injEq, Prod.mk.injEq] at h
      exact ⟨g, p1, p2, rfl, ht, h.1.symm, h.2.symm⟩

theorem entries_from_succ (scan : global_type_scanner) (mem : Memory) (section_end : Nat)
    (err : error_impl) (k section_curr : Nat) (es : List final_local_global_type) (last : Nat)
    (h : entries_from scan mem section_end err (k + 1) section_curr = some (es, last)) :
    section_curr ≠ section_end ∧
    ∃ local_global next rest,
      entry_at scan mem section_end err section_curr = some (local_global, next) ∧
      entries_from scan mem section_end err k next = some (rest, last) ∧
      es = local_global :: rest := by
  unfold entries_from at h
  by_cases hce : section_curr = section_end
  · simp [hce] at h
  · refine ⟨hce, ?_⟩
    simp only [hce, if_false] at h
    cases he : entry_at scan mem section_end err section_curr with
    | none => simp [he] at h
    | some en =>
      obtain ⟨e, next⟩ := en
      simp only [he] at h
      cases hr : entries_from scan mem section_end err k next with
      | none => simp [hr] at h
      | some rl =>
        obtain ⟨rest, l⟩ := rl
        simp only [hr, Option.some.injEq, Prod.mk.injEq] at h
        have hr : entries_from scan mem section_end err k next = some (rest, l) := hr
        exact ⟨e, next, rest, rfl, by rw [← h.2]; exact hr, h.1.symm⟩

/-- Running the loop over `k` complete entries: it stores them in order and stands at
the cursor after the last one with the counter advanced by `k`. -/
theorem global_loop_entries (scan : global_type_scanner) (hscan : scanner_in_bounds scan)
    (mem : Memory) (section_end : Nat) (global_count inner : Nat)
    (importsec : import_section_storage_t) (err : error_impl)
    (hcount : global_count ≤ wasm_u32_max) :
    ∀ (k fuel section_curr global_counter : Nat) (globalsec : global_section_storage_t)
      (es : List final_local_global_type) (last : Nat),
      section_curr ≤ section_end → section_end - section_curr < fuel →
      section_end - section_curr < inner → global_counter + k ≤ global_count →
      entries_from scan mem section_end err k section_curr = some (es, last) →
      ∃ fuel1, section_end - last < fuel1 ∧ section_curr ≤ last ∧ last ≤ section_end ∧
        global_loop scan mem section_end global_count inner importsec fuel section_curr
            global_counter globalsec err =
          global_loop scan mem section_end global_count inner importsec fuel1 last
            (global_counter + k)
            { globalsec with local_globals := globalsec.local_globals ++ es } err := by
  intro k
  induction k with
  | zero =>
    intro fuel cur counter gs es last hle hf _ _ h
    simp only [entries_from, Option.some.injEq, Prod.mk.injEq] at h
    obtain ⟨h1, h2⟩ := h
    subst h1; subst h2
    exact ⟨fuel, hf, le_refl _, hle, by simp⟩
  | succ k ih =>
    intro fuel cur counter gs es last hle hf hi hck h
    obtain ⟨hce, e, next, rest, he, hr, hes⟩ :=
      entries_from_succ scan mem section_end err k cur es last h
    obtain ⟨g, p1, p2, hs, ht, hedef, hnext⟩ :=
      entry_at_some scan mem section_end err cur e next he
    have hlt : cur < section_end := by omega
    obtain ⟨hp1, hp1e⟩ := hscan mem cur section_end err g p1 hlt hs
    have ht2 : find_terminator mem section_end inner p1 = terminator_scan.found p2 := by
      rw [find_terminator_budget mem section_end inner (section_end - p1 + 1) p1 hp1e
        (by omega) (by omega)]
      exact ht
    obtain ⟨_, _, _, _, h5⟩ := find_terminator_found mem section_end inner p1 p2 ht2
    have hp2 := h5 hp1e
    have hmod : (counter + 1) % wasm_u32_size = counter + 1 :=
      Nat.mod_eq_of_lt (by unfold wasm_u32_size; unfold wasm_u32_max at hcount; omega)
    have hex : ¬ (counter + 1) % wasm_u32_size > global_count := by rw [hmod]; omega
    cases fuel with
    | zero => omega
    | succ fuel =>
      subst hnext
      obtain ⟨fuel1, hf1, hl1, hl2, heq⟩ := ih fuel (p2 + 1) (counter + 1)
        { gs with local_globals := gs.local_globals ++ [e] } rest last
        (by omega) (by omega) (by omega) (by omega) hr
      refine ⟨fuel1, hf1, by omega, hl2, ?_⟩
      rw [global_loop]
      simp only [hce, if_false, hex, hs, ht2]
      rw [hmod, ← hedef, heq, hes]
      simp [Nat.add_assoc, Nat.add_comm 1 k]

/-! ## The callees as modelled from the spec keep their contracts -/

theorem scan_global_type_in_bounds : scanner_in_bounds scan_global_type := by
  intro mem cur e err g p hlt h
  unfold scan_global_type at h
  by_cases h1 : cur = e
  · simp [h1] at h
  · by_cases h2 : cur + 1 = e
    · simp [h1, h2] at h
    · simp only [h1, h2, if_false, scan_result.ok.injEq] at h
      omega

theorem scan_global_type_codes : scanner_codes scan_global_type := by
  intro mem cur e err err1 code h
  unfold scan_global_type at h
  by_cases h1 : cur = e
  · simp only [h1, if_true, scan_result.throws.injEq] at h
    exact ⟨0, by rw [← h.1]⟩
  · by_cases h2 : cur + 1 = e
    · simp only [h1, h2, if_true, if_false, scan_result.throws.injEq] at h
      exact ⟨0, by rw [← h.1]⟩
    · simp [h1, h2] at h

theorem leb128_scan_in_bounds (mem : Memory) (last : Nat) :
    ∀ (width pos shift acc : Nat), pos ≤ last →
      (leb128_scan mem last width pos shift acc).code = parse_code.ok →
      pos < (leb128_scan mem last width pos shift acc).iter ∧
        (leb128_scan mem last width pos shift acc).iter ≤ last ∧
        (leb128_scan mem last width pos shift acc).value ≤ wasm_u32_max := by
  intro width
  induction width with
  | zero => intro pos shift acc _ h; simp [leb128_scan] at h
  | succ width ih =>
    intro pos shift acc hle
    unfold leb128_scan
    by_cases h1 : pos = last
    · simp [h1]
    · simp only [h1, if_false]
      by_cases h2 : mem pos / 128 % 2 = 0
      · simp only [h2, if_true]
        by_cases h3 : acc + mem pos % 128 * 2 ^ shift ≤ wasm_u32_max
        · simp only [h3, if_true]
          intro _
          exact ⟨by omega, by omega, trivial⟩
        · simp [h3]
      · simp only [h2, if_false]
        intro h
        obtain ⟨a, b, c⟩ := ih (pos + 1) (shift + 7) _ (by omega) h
        exact ⟨by omega, b, c⟩

theorem read_leb128_u32_in_bounds : reader_in_bounds read_leb128_u32 := by
  intro mem first last hle h
  obtain ⟨a, b, c⟩ := leb128_scan_in_bounds mem last 5 first 0 0 hle h
  exact ⟨by unfold read_leb128_u32; omega, b, c⟩

/-! ## The final check of the loop -/

theorem global_loop_at_end (scan : global_type_scanner) (mem : Memory) (section_end : Nat)
    (global_count inner : Nat) (importsec : import_section_storage_t) (fuel global_counter : Nat)
    (globalsec : global_section_storage_t) (err : error_impl) :
    global_loop scan mem section_end global_count inner importsec (fuel + 1) section_end
        global_counter globalsec err =
      if global_counter ≠ global_count then
        ⟨⟨importsec, globalsec⟩,
          ⟨section_end, err_selectable_t.u32arr global_counter global_count,
            wasm_parse_error_code.global_section_resolved_not_match_the_actual_number⟩,
          outcome.thrown parse_code.invalid⟩
      else ⟨⟨importsec, globalsec⟩, err, outcome.returned⟩ := by
  rw [global_loop]
  simp only [if_true]

/-! ## The step budget is immaterial -/

/-- Any two budgets that exceed the distance to `section_end` give the same result. -/
theorem global_loop_budget (scan : global_type_scanner) (hscan : scanner_in_bounds scan)
    (mem : Memory) (section_end : Nat) (global_count : Nat)
    (importsec : import_section_storage_t) (inner1 inner2 : Nat) :
    ∀ (fuel1 fuel2 section_curr global_counter : Nat) (globalsec : global_section_storage_t)
      (err : error_impl), section_curr ≤ section_end →
      section_end - section_curr < fuel1 → section_end - section_curr < fuel2 →
      section_end - section_curr < inner1 → section_end - section_curr < inner2 →
      global_loop scan mem section_end global_count inner1 importsec fuel1 section_curr
          global_counter globalsec err =
        global_loop scan mem section_end global_count inner2 importsec fuel2 section_curr
          global_counter globalsec err := by
  intro fuel1
  induction fuel1 with
  | zero => intro fuel2 cur counter gs err _ h; omega
  | succ fuel1 ih =>
    intro fuel2 cur counter gs err hle hf1 hf2 hi1 hi2
    cases fuel2 with
    | zero => omega
    | succ fuel2 =>
      rw [global_loop, global_loop]
      by_cases hce : cur = section_end
      · rw [if_pos hce, if_pos hce]
      · rw [if_neg hce, if_neg hce]
        simp only []
        by_cases hex : (counter + 1) % wasm_u32_size > global_count
        · rw [if_pos hex, if_pos hex]
        · rw [if_neg hex, if_neg hex]
          cases hs : global_section_global_handler scan mem cur section_end err with
          | throws err1 code1 => rfl
          | ok g p1 =>
            simp only []
            obtain ⟨hp1, hp1e⟩ := hscan mem cur section_end err g p1 (by omega) hs
            rw [find_terminator_budget mem section_end inner1 inner2 p1 hp1e (by omega)
              (by omega)]
            cases ht : find_terminator mem section_end inner2 p1 with
            | fuel_exhausted => rfl
            | not_found p2 => rfl
            | found p2 =>
              simp only []
              obtain ⟨h1, _, _, _, h5⟩ := find_terminator_found mem section_end inner2 p1 p2 ht
              have hp2 := h5 hp1e
              exact ih fuel2 (p2 + 1) _ _ err (by omega) (by omega) (by omega) (by omega)
                (by omega)

/-- The budget that the decoder hands to its loops is never exhausted when the
callees keep the cursor inside the slice: the call returns or throws. -/
theorem handle_budget_suffices (size_t_max : Nat) (parse_leb128 : leb128_reader)
    (scan : global_type_scanner) (hreader : reader_in_bounds parse_leb128)
    (hscan : scanner_in_bounds scan) (mem : Memory) (module_storage : module_storage_t)
    (section_begin section_end : Nat) (err : error_impl) (sec_id_module_ptr : Nat)
    (hle : section_begin ≤ section_end) :
    (handle_binfmt_ver1_extensible_section_define size_t_max parse_leb128 scan mem
      module_storage section_begin section_end err sec_id_module_ptr).out ≠
        outcome.fuel_exhausted := by
  unfold handle_binfmt_ver1_extensible_section_define
  simp only []
  split
  · simp
  · split
    · simp
    · rename_i h1
      have hcode : (parse_leb128 mem section_begin section_end).code = parse_code.ok := by
        by_contra hne; exact h1 hne
      obtain ⟨hi1, hi2, _⟩ := hreader mem section_begin section_end hle hcode
      split
      · simp
      · split
        · simp
        · exact global_loop_fuel scan hscan mem section_end _ _ _ _ _ _ _ err hi2
            (by omega) (by omega)

/-! ## Frame lemmas of the decoder -/

theorem holds_bytes_memory_of (base : Nat) (bytes : List Nat) :
    holds_bytes (memory_of base bytes) base bytes := by
  intro i _
  simp [memory_of]

/-- The call on a section whose span is already set. -/
theorem handle_span_set (size_t_max : Nat) (parse_leb128 : leb128_reader)
    (scan : global_type_scanner) (mem : Memory) (module_storage : module_storage_t)
    (section_begin section_end : Nat) (err : error_impl) (sec_id_module_ptr : Nat)
    (hset : module_storage.globalsec.sec_span.sec_begin ≠ 0) :
    handle_binfmt_ver1_extensible_section_define size_t_max parse_leb128 scan mem
        module_storage section_begin section_end err sec_id_module_ptr =
      ⟨module_storage,
        ⟨sec_id_module_ptr, err_selectable_t.u8 global_section_id,
          wasm_parse_error_code.duplicate_section⟩,
        outcome.thrown parse_code.invalid⟩ := by
  unfold handle_binfmt_ver1_extensible_section_define
  rw [if_pos hset]

/-- The call on a section whose span is not yet set: the code after the duplicate
check. -/
theorem handle_span_unset (size_t_max : Nat) (parse_leb128 : leb128_reader)
    (scan : global_type_scanner) (mem : Memory) (module_storage : module_storage_t)
    (section_begin section_end : Nat) (err : error_impl) (sec_id_module_ptr : Nat)
    (hspan : module_storage.globalsec.sec_span.sec_begin = 0) :
    handle_binfmt_ver1_extensible_section_define size_t_max parse_leb128 scan mem
        module_storage section_begin section_end err sec_id_module_ptr =
      if (parse_leb128 mem section_begin section_end).code ≠ parse_code.ok then
        ⟨⟨module_storage.importsec,
            ⟨⟨section_begin, section_end⟩, module_storage.globalsec.local_globals⟩⟩,
          ⟨section_begin, err.err_selectable, wasm_parse_error_code.invalid_global_count⟩,
          outcome.thrown (parse_leb128 mem section_begin section_end).code⟩
      else if size_t_max < wasm_u32_max ∧
          (parse_leb128 mem section_begin section_end).value > size_t_max then
        ⟨⟨module_storage.importsec,
            ⟨⟨section_begin, section_end⟩, module_storage.globalsec.local_globals⟩⟩,
          ⟨section_begin,
            err_selectable_t.u64 (parse_leb128 mem section_begin section_end).value,
            wasm_parse_error_code.size_exceeds_the_maximum_value_of_size_t⟩,
          outcome.thrown parse_code.invalid⟩
      else if (parse_leb128 mem section_begin section_end).value >
          wasm_u32_max - imported_global_size module_storage.importsec then
        ⟨⟨module_storage.importsec,
            ⟨⟨section_begin, section_end⟩, module_storage.globalsec.local_globals⟩⟩,
          ⟨section_begin,
            err_selectable_t.imp_def_num_exceed_u32max 0x03
              (parse_leb128 mem section_begin section_end).value
              (imported_global_size module_storage.importsec),
            wasm_parse_error_code.imp_def_num_exceed_u32max⟩,
          outcome.thrown parse_code.invalid⟩
      else
        global_loop scan mem section_end (parse_leb128 mem section_begin section_end).value
          (section_end - section_begin + 1) module_storage.importsec
          (section_end - section_begin + 1) (parse_leb128 mem section_begin section_end).iter 0
          ⟨⟨section_begin, section_end⟩, module_storage.globalsec.local_globals⟩ err := by
  unfold handle_binfmt_ver1_extensible_section_define
  have hn : ¬ module_storage.globalsec.sec_span.sec_begin ≠ 0 := by simp [hspan]
  rw [if_neg hn]

/-- Whatever way a call ends, the span is set afterwards if it was set before or the
call was given a non-null `section_begin`. -/
theorem span_set_after_call (size_t_max : Nat) (parse_leb128 : leb128_reader)
    (scan : global_type_scanner) (mem : Memory) (module_storage : module_storage_t)
    (section_begin section_end : Nat) (err : error_impl) (sec_id_module_ptr : Nat)
    (h : module_storage.globalsec.sec_span.sec_begin ≠ 0 ∨ section_begin ≠ 0) :
    (handle_binfmt_ver1_extensible_section_define size_t_max parse_leb128 scan mem
      module_storage section_begin section_end err
      sec_id_module_ptr).module_storage.globalsec.sec_span.sec_begin ≠ 0 := by
  by_cases hset : module_storage.globalsec.sec_span.sec_begin ≠ 0
  · rw [handle_span_set _ _ _ _ _ _ _ _ _ hset]
    exact hset
  · have hb : section_begin ≠ 0 := h.resolve_left hset
    have hspan : module_storage.globalsec.sec_span.sec_begin = 0 := by
      by_contra hne; exact hset hne
    rw [handle_span_unset _ _ _ _ _ _ _ _ _ hspan]
    split
    · exact hb
    · split
      · exact hb
      · split
        · exact hb
        · rw [(global_loop_frame scan mem section_end _ _ _ _ _ _ _ err).2.1]
          exact hb

/-! ## Bytes outside the slice -/

theorem agree_on_sub (mem1 mem2 : Memory) (first first1 last : Nat)
    (h : agree_on mem1 mem2 first last) (hle : first ≤ first1) :
    agree_on mem1 mem2 first1 last :=
  fun a h1 h2 => h a (Nat.le_trans hle h1) h2

theorem find_terminator_agree (mem1 mem2 : Memory) (section_end : Nat) :
    ∀ (fuel section_curr : Nat), section_curr ≤ section_end →
      agree_on mem1 mem2 section_curr section_end →
      find_terminator mem1 section_end fuel section_curr =
        find_terminator mem2 section_end fuel section_curr := by
  intro fuel
  induction fuel with
  | zero => intro cur _ _; rfl
  | succ fuel ih =>
    intro cur hle hag
    rw [find_terminator, find_terminator]
    by_cases hce : cur = section_end
    · rw [if_pos hce, if_pos hce]
    · rw [if_neg hce, if_neg hce, hag cur (le_refl _) (by omega)]
      by_cases hb : mem2 cur = 0x0B
      · rw [if_pos hb, if_pos hb]
      · rw [if_neg hb, if_neg hb]
        exact ih (cur + 1) (by omega) (agree_on_sub mem1 mem2 cur (cur + 1) section_end hag
          (by omega))

/-- Two runs of the loop on buffers that agree inside the slice end the same way,
with the same `err` and the same entries. -/
theorem global_loop_agree (scan : global_type_scanner) (hscan : scanner_in_bounds scan)
    (hlocal : scanner_local scan) (mem1 mem2 : Memory) (section_end : Nat)
    (global_count inner : Nat) (importsec1 importsec2 : import_section_storage_t) :
    ∀ (fuel section_curr global_counter : Nat) (globalsec1 globalsec2 : global_section_storage_t)
      (err : error_impl), section_curr ≤ section_end →
      agree_on mem1 mem2 section_curr section_end →
      globalsec1.local_globals = globalsec2.local_globals →
      (global_loop scan mem1 section_end global_count inner importsec1 fuel section_curr
          global_counter globalsec1 err).out =
        (global_loop scan mem2 section_end global_count inner importsec2 fuel section_curr
          global_counter globalsec2 err).out ∧
      (global_loop scan mem1 section_end global_count inner importsec1 fuel section_curr
          global_counter globalsec1 err).err =
        (global_loop scan mem2 section_end global_count inner importsec2 fuel section_curr
          global_counter globalsec2 err).err ∧
      (global_loop scan mem1 section_end global_count inner importsec1 fuel section_curr
          global_counter globalsec1 err).module_storage.globalsec.local_globals =
        (global_loop scan mem2 section_end global_count inner importsec2 fuel section_curr
          global_counter globalsec2 err).module_storage.globalsec.local_globals := by
  intro fuel
  induction fuel with
  | zero => intro cur counter gs1 gs2 err _ _ hgs; exact ⟨rfl, rfl, hgs⟩
  | succ fuel ih =>
    intro cur counter gs1 gs2 err hle hag hgs
    rw [global_loop, global_loop]
    by_cases hce : cur = section_end
    · rw [if_pos hce, if_pos hce]
      by_cases hcc : counter ≠ global_count
      · rw [if_pos hcc, if_pos hcc]; exact ⟨rfl, rfl, hgs⟩
      · rw [if_neg hcc, if_neg hcc]; exact ⟨rfl, rfl, hgs⟩
    · rw [if_neg hce, if_neg hce]
      simp only []
      by_cases hex : (counter + 1) % wasm_u32_size > global_count
      · rw [if_pos hex, if_pos hex]; exact ⟨rfl, rfl, hgs⟩
      · rw [if_neg hex, if_neg hex]
        have hsame : global_section_global_handler scan mem1 cur section_end err =
            global_section_global_handler scan mem2 cur section_end err :=
          hlocal mem1 mem2 cur section_end err (by omega) hag
        rw [hsame]
        cases hs : global_section_global_handler scan mem2 cur section_end err with
        | throws err1 code1 => exact ⟨rfl, rfl, hgs⟩
        | ok g p1 =>
          simp only []
          obtain ⟨hp1, hp1e⟩ := hscan mem2 cur section_end err g p1 (by omega) hs
          rw [find_terminator_agree mem1 mem2 section_end inner p1 hp1e
            (agree_on_sub mem1 mem2 cur p1 section_end hag hp1)]
          cases ht : find_terminator mem2 section_end inner p1 with
          | fuel_exhausted => exact ⟨rfl, rfl, hgs⟩
          | not_found p2 => exact ⟨rfl, rfl, hgs⟩
          | found p2 =>
            simp only []
            obtain ⟨h1, _, _, _, h5⟩ := find_terminator_found mem2 section_end inner p1 p2 ht
            have hp2 := h5 hp1e
            exact ih (p2 + 1) _ _ _ err (by omega)
              (agree_on_sub mem1 mem2 cur (p2 + 1) section_end hag (by omega))
              (by simp [hgs])

/-- Every entry that the loop stores lies inside the slice: its expression begins at
or after the cursor the loop started from, is not empty and ends at or before
`section_end`. -/
theorem global_loop_stored_in_bounds (scan : global_type_scanner)
    (hscan : scanner_in_bounds scan) (mem : Memory) (section_end : Nat)
    (global_count inner : Nat) (importsec : import_section_storage_t) :
    ∀ (fuel section_curr global_counter : Nat) (globalsec : global_section_storage_t)
      (err : error_impl), section_curr ≤ section_end →
      ∃ es, (global_loop scan mem section_end global_count inner importsec fuel section_curr
          global_counter globalsec err).module_storage.globalsec.local_globals =
            globalsec.local_globals ++ es ∧
        ∀ x ∈ es, section_curr ≤ x.expr.begin ∧ x.expr.begin < x.expr.end_ ∧
          x.expr.end_ ≤ section_end ∧ mem (x.expr.end_ - 1) = 0x0B := by
  intro fuel
  induction fuel with
  | zero => intro cur counter gs err _; exact ⟨[], by simp [global_loop], by simp⟩
  | succ fuel ih =>
    intro cur counter gs err hle
    rw [global_loop]
    by_cases hce : cur = section_end
    · rw [if_pos hce]
      by_cases hcc : counter ≠ global_count
      · rw [if_pos hcc]; exact ⟨[], by simp, by simp⟩
      · rw [if_neg hcc]; exact ⟨[], by simp, by simp⟩
    · rw [if_neg hce]
      simp only []
      by_cases hex : (counter + 1) % wasm_u32_size > global_count
      · rw [if_pos hex]; exact ⟨[], by simp, by simp⟩
      · rw [if_neg hex]
        cases hs : global_section_global_handler scan mem cur section_end err with
        | throws err1 code1 => exact ⟨[], by simp, by simp⟩
        | ok g p1 =>
          simp only []
          obtain ⟨hp1, hp1e⟩ := hscan mem cur section_end err g p1 (by omega) hs
          cases ht : find_terminator mem section_end inner p1 with
          | fuel_exhausted => exact ⟨[], by simp, by simp⟩
          | not_found p2 => exact ⟨[], by simp, by simp⟩
          | found p2 =>
            simp only []
            obtain ⟨h1, h2, _, _, h5⟩ := find_terminator_found mem section_end inner p1 p2 ht
            have hp2 := h5 hp1e
            obtain ⟨es, hes, hall⟩ := ih (p2 + 1) ((counter + 1) % wasm_u32_size)
              { gs with local_globals := gs.local_globals ++ [⟨g, ⟨p1, p2 + 1⟩⟩] } err (by omega)
            refine ⟨⟨g, ⟨p1, p2 + 1⟩⟩ :: es, by rw [hes]; simp, ?_⟩
            intro x hx
            rcases List.mem_cons.mp hx with hx | hx
            · subst hx
              exact ⟨hp1, by simp; omega, by simp; omega, by simpa using h2⟩
            · obtain ⟨a1, a2, a3, a4⟩ := hall x hx
              exact ⟨by omega, a2, a3, a4⟩

theorem leb128_scan_local (mem1 mem2 : Memory) (last : Nat) :
    ∀ (width pos shift acc : Nat), pos ≤ last → agree_on mem1 mem2 pos last →
      leb128_scan mem1 last width pos shift acc = leb128_scan mem2 last width pos shift acc := by
  intro width
  induction width with
  | zero => intro pos shift acc _ _; rfl
  | succ width ih =>
    intro pos shift acc hle hag
    rw [leb128_scan, leb128_scan]
    by_cases h1 : pos = last
    · rw [if_pos h1, if_pos h1]
    · rw [if_neg h1, if_neg h1, hag pos (le_refl _) (by omega)]
      simp only []
      rw [ih (pos + 1) (shift + 7) _ (by omega)
        (agree_on_sub mem1 mem2 pos (pos + 1) last hag (by omega))]

theorem read_leb128_u32_local : reader_local read_leb128_u32 :=
  fun mem1 mem2 first last hle hag => leb128_scan_local mem1 mem2 last 5 first 0 0 hle hag

theorem scan_global_type_local : scanner_local scan_global_type := by
  intro mem1 mem2 cur e err hlt hag
  unfold scan_global_type
  by_cases h1 : cur = e
  · rw [if_pos h1, if_pos h1]
  · rw [if_neg h1, if_neg h1]
    by_cases h2 : cur + 1 = e
    · rw [if_pos h2, if_pos h2]
    · rw [if_neg h2, if_neg h2, hag cur (le_refl _) hlt, hag (cur + 1) (by omega) (by omega)]

/-! ## What the loop stores -/

/-- Every entry that the loop stores was read by the entry-type decoder at some
cursor before `section_end`; its expression begins where the type descriptor ended
and ends one past the first byte `0x0B` found from there on. -/
theorem global_loop_stored (scan : global_type_scanner) (mem : Memory) (section_end : Nat)
    (global_count inner : Nat) (importsec : import_section_storage_t) :
    ∀ (fuel section_curr global_counter : Nat) (globalsec : global_section_storage_t)
      (err : error_impl),
      ∃ es, (global_loop scan mem section_end global_count inner importsec fuel section_curr
          global_counter globalsec err).module_storage.globalsec.local_globals =
            globalsec.local_globals ++ es ∧
        ∀ x ∈ es, ∃ entry_begin terminator, entry_begin ≠ section_end ∧
          global_section_global_handler scan mem entry_begin section_end err =
            scan_result.ok x.global x.expr.begin ∧
          x.expr.begin ≤ terminator ∧ mem terminator = 0x0B ∧ terminator ≠ section_end ∧
          (∀ q, x.expr.begin ≤ q → q < terminator → mem q ≠ 0x0B) ∧
          x.expr.end_ = terminator + 1 := by
  intro fuel
  induction fuel with
  | zero => intro cur counter gs err; exact ⟨[], by simp [global_loop], by simp⟩
  | succ fuel ih =>
    intro cur counter gs err
    rw [global_loop]
    by_cases hce : cur = section_end
    · rw [if_pos hce]
      by_cases hcc : counter ≠ global_count
      · rw [if_pos hcc]; exact ⟨[], by simp, by simp⟩
      · rw [if_neg hcc]; exact ⟨[], by simp, by simp⟩
    · rw [if_neg hce]
      simp only []
      by_cases hex : (counter + 1) % wasm_u32_size > global_count
      · rw [if_pos hex]; exact ⟨[], by simp, by simp⟩
      · rw [if_neg hex]
        cases hs : global_section_global_handler scan mem cur section_end err with
        | throws err1 code1 => exact ⟨[], by simp, by simp⟩
        | ok g p1 =>
          simp only []
          cases ht : find_terminator mem section_end inner p1 with
          | fuel_exhausted => exact ⟨[], by simp, by simp⟩
          | not_found p2 => exact ⟨[], by simp, by simp⟩
          | found p2 =>
            simp only []
            obtain ⟨h1, h2, h3, h4, _⟩ := find_terminator_found mem section_end inner p1 p2 ht
            obtain ⟨es, hes, hall⟩ := ih (p2 + 1) ((counter + 1) % wasm_u32_size)
              { gs with local_globals := gs.local_globals ++ [⟨g, ⟨p1, p2 + 1⟩⟩] } err
            refine ⟨⟨g, ⟨p1, p2 + 1⟩⟩ :: es, by rw [hes]; simp, ?_⟩
            intro x hx
            rcases List.mem_cons.mp hx with hx | hx
            · subst hx
              exact ⟨cur, p2, hce, hs, h1, h2, h3, h4, rfl⟩
            · exact hall x hx

/-! ## The stored entries as a decoding of the slice -/

/-- The entries that a run of the loop stores are consecutive entries of the slice,
read from the cursor the run started at; a run that returns normally has read them
up to `section_end`. -/
theorem global_loop_decoded (scan : global_type_scanner) (hscan : scanner_in_bounds scan)
    (mem : Memory) (section_end : Nat) (global_count inner : Nat)
    (importsec : import_section_storage_t) :
    ∀ (fuel section_curr global_counter : Nat) (globalsec : global_section_storage_t)
      (err : error_impl), section_curr ≤ section_end → section_end - section_curr < inner →
      ∃ es last,
        entries_from scan mem section_end err es.length section_curr = some (es, last) ∧
        (global_loop scan mem section_end global_count inner importsec fuel section_curr
          global_counter globalsec err).module_storage.globalsec.local_globals =
            globalsec.local_globals ++ es ∧
        ((global_loop scan mem section_end global_count inner importsec fuel section_curr
          global_counter globalsec err).out = outcome.returned → last = section_end) := by
  intro fuel
  induction fuel with
  | zero =>
    intro cur counter gs err _ _
    exact ⟨[], cur, by simp [entries_from], by simp [global_loop], by simp [global_loop]⟩
  | succ fuel ih =>
    intro cur counter gs err hle hi
    rw [global_loop]
    by_cases hce : cur = section_end
    · rw [if_pos hce]
      by_cases hcc : counter ≠ global_count
      · rw [if_pos hcc]; exact ⟨[], cur, by simp [entries_from], by simp, by simp⟩
      · rw [if_neg hcc]; exact ⟨[], cur, by simp [entries_from], by simp, fun _ => hce⟩
    · rw [if_neg hce]
      simp only []
      by_cases hex : (counter + 1) % wasm_u32_size > global_count
      · rw [if_pos hex]; exact ⟨[], cur, by simp [entries_from], by simp, by simp⟩
      · rw [if_neg hex]
        cases hs : global_section_global_handler scan mem cur section_end err with
        | throws err1 code1 => exact ⟨[], cur, by simp [entries_from], by simp, by simp⟩
        | ok g p1 =>
          simp only []
          obtain ⟨hp1, hp1e⟩ := hscan mem cur section_end err g p1 (by omega) hs
          cases ht : find_terminator mem section_end inner p1 with
          | fuel_exhausted => exact ⟨[], cur, by simp [entries_from], by simp, by simp⟩
          | not_found p2 => exact ⟨[], cur, by simp [entries_from], by simp, by simp⟩
          | found p2 =>
            simp only []
            obtain ⟨h1, _, _, _, h5⟩ := find_terminator_found mem section_end inner p1 p2 ht
            have hp2 := h5 hp1e
            have ht2 : find_terminator mem section_end (section_end - p1 + 1) p1 =
                terminator_scan.found p2 := by
              rw [find_terminator_budget mem section_end (section_end - p1 + 1) inner p1 hp1e
                (by omega) (by omega)]
              exact ht
            have he : entry_at scan mem section_end err cur =
                some (⟨g, ⟨p1, p2 + 1⟩⟩, p2 + 1) := by
              unfold entry_at
              simp only [hs, ht2]
            obtain ⟨es, last, hes, hstore, hret⟩ := ih (p2 + 1) ((counter + 1) % wasm_u32_size)
              { gs with local_globals := gs.local_globals ++ [⟨g, ⟨p1, p2 + 1⟩⟩] } err
              (by omega) (by omega)
            refine ⟨⟨g, ⟨p1, p2 + 1⟩⟩ :: es, last, ?_, by rw [hstore]; simp, hret⟩
            rw [List.length_cons, entries_from, if_neg hce, he]
            simp only [hes]

/-- Consecutive entries of the slice lie one after the other: each expression ends
at or before the beginning of every later one, and all lie between the cursor they
were read from and the cursor after the last. -/
theorem entries_from_ordered (scan : global_type_scanner) (hscan : scanner_in_bounds scan)
    (mem : Memory) (section_end : Nat) (err : error_impl) :
    ∀ (k section_curr : Nat) (es : List final_local_global_type) (last : Nat),
      section_curr ≤ section_end →
      entries_from scan mem section_end err k section_curr = some (es, last) →
      es.length = k ∧ section_curr ≤ last ∧ last ≤ section_end ∧
      (∀ x ∈ es, section_curr ≤ x.expr.begin ∧ x.expr.begin < x.expr.end_ ∧
        x.expr.end_ ≤ last) ∧
      es.Pairwise (fun x y => x.expr.end_ ≤ y.expr.begin) ∧
      (es ≠ [] → (es.getLast?).map (fun x => x.expr.end_) = some last) := by
  intro k
  induction k with
  | zero =>
    intro cur es last hle h
    simp only [entries_from, Option.some.injEq, Prod.mk.injEq] at h
    obtain ⟨h1, h2⟩ := h
    subst h1; subst h2
    exact ⟨rfl, le_refl _, hle, by simp, List.Pairwise.nil, by simp⟩
  | succ k ih =>
    intro cur es last hle h
    obtain ⟨hce, e, next, rest, he, hr, hes⟩ :=
      entries_from_succ scan mem section_end err k cur es last h
    obtain ⟨g, p1, p2, hs, ht, hedef, hnext⟩ :=
      entry_at_some scan mem section_end err cur e next he
    obtain ⟨hp1, hp1e⟩ := hscan mem cur section_end err g p1 (by omega) hs
    obtain ⟨h1, _, _, _, h5⟩ :=
      find_terminator_found mem section_end (section_end - p1 + 1) p1 p2 ht
    have hp2 := h5 hp1e
    subst hnext
    obtain ⟨a1, a2, a3, a4, a5, a6⟩ := ih (p2 + 1) rest last (by omega) hr
    subst hes
    subst hedef
    refine ⟨by simp [a1], by omega, a3, ?_, ?_, ?_⟩
    · intro x hx
      rcases List.mem_cons.mp hx with hx | hx
      · subst hx
        exact ⟨hp1, by simp; omega, by simp; omega⟩
      · obtain ⟨b1, b2, b3⟩ := a4 x hx
        exact ⟨by omega, b2, b3⟩
    · refine List.Pairwise.cons ?_ a5
      intro y hy
      exact (a4 y hy).1
    · intro _
      cases rest with
      | nil =>
        have hk : k = 0 := by simpa using a1.symm
        subst hk
        simp only [entries_from, Option.some.injEq, Prod.mk.injEq] at hr
        simp [hr.2]
      | cons r rs =>
        have := a6 (by simp)
        simpa [List.getLast?_cons_cons] using this

/-- The inner loop stops at the first byte `0x0B` before `section_end`. -/
theorem find_terminator_first (mem : Memory) (section_end : Nat) :
    ∀ (fuel section_curr p : Nat), section_curr ≤ p → p < section_end →
      p - section_curr < fuel → mem p = 0x0B →
      (∀ q, section_curr ≤ q → q < p → mem q ≠ 0x0B) →
      find_terminator mem section_end fuel section_curr = terminator_scan.found p := by
  intro fuel
  induction fuel with
  | zero => intro cur p _ _ h; omega
  | succ fuel ih =>
    intro cur p hle hlt hf hp hno
    rw [find_terminator, if_neg (by omega)]
    by_cases hcp : cur = p
    · subst hcp
      rw [if_pos hp]
    · rw [if_neg (hno cur (le_refl _) (by omega))]
      exact ih (cur + 1) p (by omega) hlt (by omega) hp (fun q h1 h2 => hno q (by omega) h2)

/-! ## The LEB128 reader against the encoding -/

theorem leb128_groups_zero (mem : Memory) (first : Nat) :
    leb128_groups mem first 0 = mem first % 128 := by
  simp [leb128_groups]

theorem leb128_groups_succ (mem : Memory) (first t : Nat) :
    leb128_groups mem first (t + 1) =
      mem first % 128 + 128 * leb128_groups mem (first + 1) t := by
  unfold leb128_groups
  rw [Finset.sum_range_succ', Finset.mul_sum]
  simp only [Nat.add_zero, pow_zero, Nat.mul_one]
  rw [Nat.add_comm]
  congr 1
  apply Finset.sum_congr rfl
  intro i _
  rw [show first + (i + 1) = first + 1 + i by omega, pow_succ]
  ring

theorem leb128_scan_no_terminator (mem : Memory) (last : Nat) :
    ∀ (width pos shift acc : Nat), pos ≤ last →
      (∀ t, t < width → pos + t < last → leb128_continues (mem (pos + t))) →
      (leb128_scan mem last width pos shift acc).code = parse_code.end_of_file := by
  intro width
  induction width with
  | zero => intro pos shift acc _ _; rfl
  | succ width ih =>
    intro pos shift acc hle hall
    rw [leb128_scan]
    by_cases h1 : pos = last
    · rw [if_pos h1]
    · rw [if_neg h1]
      have hc : leb128_continues (mem pos) := by
        simpa using hall 0 (by omega) (by omega)
      unfold leb128_continues at hc
      simp only []
      rw [if_neg (by omega)]
      apply ih (pos + 1) (shift + 7) _ (by omega)
      intro t ht hlt
      have := hall (t + 1) (by omega) (by omega)
      rwa [show pos + (t + 1) = pos + 1 + t by omega] at this

theorem leb128_scan_terminator (mem : Memory) (last : Nat) :
    ∀ (t width pos shift acc : Nat), t < width → pos + t < last →
      (∀ i, i < t → leb128_continues (mem (pos + i))) →
      ¬ leb128_continues (mem (pos + t)) →
      leb128_scan mem last width pos shift acc =
        if acc + leb128_groups mem pos t * 2 ^ shift ≤ wasm_u32_max then
          ⟨pos + t + 1, parse_code.ok, acc + leb128_groups mem pos t * 2 ^ shift⟩
        else ⟨pos + t, parse_code.overflow, 0⟩ := by
  intro t
  induction t with
  | zero =>
    intro width pos shift acc hw hlt _ hterm
    cases width with
    | zero => omega
    | succ width =>
      unfold leb128_continues at hterm
      rw [Nat.add_zero] at hterm
      rw [leb128_scan, if_neg (by omega)]
      simp only []
      rw [if_pos (by omega), leb128_groups_zero]
      rfl
  | succ t ih =>
    intro width pos shift acc hw hlt hall hterm
    cases width with
    | zero => omega
    | succ width =>
      have hc : leb128_continues (mem pos) := by
        simpa using hall 0 (by omega)
      unfold leb128_continues at hc
      rw [leb128_scan, if_neg (by omega)]
      simp only []
      rw [if_neg (by omega)]
      rw [ih width (pos + 1) (shift + 7) _ (by omega) (by omega)
        (fun i hi => by
          have := hall (i + 1) (by omega)
          rwa [show pos + (i + 1) = pos + 1 + i by omega] at this)
        (by rwa [show pos + 1 + t = pos + (t + 1) by omega])]
      have hval : acc + mem pos % 128 * 2 ^ shift +
          leb128_groups mem (pos + 1) t * 2 ^ (shift + 7) =
          acc + leb128_groups mem pos (t + 1) * 2 ^ shift := by
        rw [leb128_groups_succ, pow_add]
        ring
      rw [hval, show pos + 1 + t = pos + (t + 1) by omega]

/-! ## Progress of the loop and positions of its errors -/

theorem read_leb128_u32_advances : reader_advances read_leb128_u32 := by
  intro mem first last hle h
  exact (leb128_scan_in_bounds mem last 5 first 0 0 hle h).1

/-- Each of `k` consecutive entries takes at least one byte. -/
theorem entries_from_length_le (scan : global_type_scanner) (hscan : scanner_in_bounds scan)
    (mem : Memory) (section_end : Nat) (err : error_impl) :
    ∀ (k section_curr : Nat) (es : List final_local_global_type) (last : Nat),
      section_curr ≤ section_end →
      entries_from scan mem section_end err k section_curr = some (es, last) →
      section_curr + k ≤ last ∧ last ≤ section_end := by
  intro k
  induction k with
  | zero =>
    intro cur es last hle h
    simp only [entries_from, Option.some.injEq, Prod.mk.injEq] at h
    omega
  | succ k ih =>
    intro cur es last hle h
    obtain ⟨hce, e, next, rest, he, hr, hes⟩ :=
      entries_from_succ scan mem section_end err k cur es last h
    obtain ⟨g, p1, p2, hs, ht, hedef, hnext⟩ :=
      entry_at_some scan mem section_end err cur e next he
    obtain ⟨hp1, hp1e⟩ := hscan mem cur section_end err g p1 (by omega) hs
    obtain ⟨h1, _, _, _, h5⟩ :=
      find_terminator_found mem section_end (section_end - p1 + 1) p1 p2 ht
    have hp2 := h5 hp1e
    subst hnext
    obtain ⟨a1, a2⟩ := ih (p2 + 1) rest last (by omega) hr
    omega

/-- Where the errors of the loop point: at `section_end` for the count mismatch and
the missing terminator, at a cursor before `section_end` for the exceeded count. -/
theorem global_loop_positions (scan : global_type_scanner) (hcodes : scanner_codes scan)
    (hscan : scanner_in_bounds scan) (mem : Memory) (section_end : Nat)
    (global_count inner : Nat) (importsec : import_section_storage_t) :
    ∀ (fuel section_curr global_counter : Nat) (globalsec : global_section_storage_t)
      (err : error_impl) (code : parse_code), section_curr ≤ section_end →
      (global_loop scan mem section_end global_count inner importsec fuel section_curr
          global_counter globalsec err).out = outcome.thrown code →
      ((global_loop scan mem section_end global_count inner importsec fuel section_curr
          global_counter globalsec err).err.err_code =
            wasm_parse_error_code.global_section_resolved_not_match_the_actual_number →
        (global_loop scan mem section_end global_count inner importsec fuel section_curr
          global_counter globalsec err).err.err_curr = section_end) ∧
      ((global_loop scan mem section_end global_count inner importsec fuel section_curr
          global_counter globalsec err).err.err_code =
            wasm_parse_error_code.global_init_terminator_not_found →
        (global_loop scan mem section_end global_count inner importsec fuel section_curr
          global_counter globalsec err).err.err_curr = section_end) ∧
      ((global_loop scan mem section_end global_count inner importsec fuel section_curr
          global_counter globalsec err).err.err_code =
            wasm_parse_error_code.global_section_resolved_exceeded_the_actual_number →
        section_curr ≤ (global_loop scan mem section_end global_count inner importsec fuel
          section_curr global_counter globalsec err).err.err_curr ∧
        (global_loop scan mem section_end global_count inner importsec fuel section_curr
          global_counter globalsec err).err.err_curr < section_end) := by
  intro fuel
  induction fuel with
  | zero => intro cur counter gs err code _ h; simp [global_loop] at h
  | succ fuel ih =>
    intro cur counter gs err code hle
    rw [global_loop]
    by_cases hce : cur = section_end
    · rw [if_pos hce]
      by_cases hcc : counter ≠ global_count
      · rw [if_pos hcc]
        intro _
        exact ⟨fun _ => hce, fun h => by simp at h, fun h => by simp at h⟩
      · rw [if_neg hcc]
        intro h
        simp at h
    · rw [if_neg hce]
      simp only []
      by_cases hex : (counter + 1) % wasm_u32_size > global_count
      · rw [if_pos hex]
        intro _
        exact ⟨fun h => by simp at h, fun h => by simp at h,
          fun _ => ⟨le_refl _, by simp; omega⟩⟩
      · rw [if_neg hex]
        cases hs : global_section_global_handler scan mem cur section_end err with
        | throws err1 code1 =>
          intro _
          obtain ⟨n, hn⟩ := hcodes mem cur section_end err err1 code1 hs
          simp only [hn]
          exact ⟨fun h => by simp at h, fun h => by simp at h, fun h => by simp at h⟩
        | ok g p1 =>
          simp only []
          obtain ⟨hp1, hp1e⟩ := hscan mem cur section_end err g p1 (by omega) hs
          cases ht : find_terminator mem section_end inner p1 with
          | fuel_exhausted => intro h; simp at h
          | not_found p2 =>
            intro _
            obtain ⟨hp2, _, _⟩ := find_terminator_not_found mem section_end inner p1 p2 ht
            exact ⟨fun h => by simp at h, fun _ => hp2, fun h => by simp at h⟩
          | found p2 =>
            simp only []
            obtain ⟨h1, _, _, _, h5⟩ := find_terminator_found mem section_end inner p1 p2 ht
            have hp2 := h5 hp1e
            intro hout
            obtain ⟨a1, a2, a3⟩ := ih (p2 + 1) ((counter + 1) % wasm_u32_size)
              { gs with local_globals := gs.local_globals ++ [⟨g, ⟨p1, p2 + 1⟩⟩] } err code
              (by omega) hout
            refine ⟨a1, a2, fun h => ?_⟩
            obtain ⟨b1, b2⟩ := a3 h
            exact ⟨by omega, b2⟩

/-- A run of the loop that throws has stored the consecutive entries read from its
starting cursor up to a cursor `last`, and fails at `last` without decoding a
further entry: by the count mismatch if `last` is `section_end`, else by the
exceeded count reported at `last`, by the entry-type decoder throwing at `last`, or
by the entry at `last` having no terminator. -/
theorem global_loop_failure (scan : global_type_scanner) (hscan : scanner_in_bounds scan)
    (mem : Memory) (section_end : Nat) (global_count inner : Nat)
    (importsec : import_section_storage_t) :
    ∀ (fuel section_curr global_counter : Nat) (globalsec : global_section_storage_t)
      (err : error_impl) (code : parse_code), section_curr ≤ section_end →
      section_end - section_curr < inner →
      (global_loop scan mem section_end global_count inner importsec fuel section_curr
        global_counter globalsec err).out = outcome.thrown code →
      ∃ es last,
        entries_from scan mem section_end err es.length section_curr = some (es, last) ∧
        (global_loop scan mem section_end global_count inner importsec fuel section_curr
          global_counter globalsec err).module_storage.globalsec.local_globals =
            globalsec.local_globals ++ es ∧
        ((last = section_end ∧
            (global_loop scan mem section_end global_count inner importsec fuel section_curr
              global_counter globalsec err).err.err_code =
                wasm_parse_error_code.global_section_resolved_not_match_the_actual_number) ∨
          (last ≠ section_end ∧
            (global_loop scan mem section_end global_count inner importsec fuel section_curr
              global_counter globalsec err).err =
                ⟨last, err_selectable_t.u32 global_count,
                  wasm_parse_error_code.global_section_resolved_exceeded_the_actual_number⟩) ∨
          (last ≠ section_end ∧
            global_section_global_handler scan mem last section_end err =
              scan_result.throws
                (global_loop scan mem section_end global_count inner importsec fuel
                  section_curr global_counter globalsec err).err code) ∨
          (last ≠ section_end ∧
            ∃ global_r section_curr1,
              global_section_global_handler scan mem last section_end err =
                scan_result.ok global_r section_curr1 ∧
              (∀ q, section_curr1 ≤ q → q < section_end → mem q ≠ 0x0B) ∧
              (global_loop scan mem section_end global_count inner importsec fuel
                section_curr global_counter globalsec err).err =
                  ⟨section_end, err.err_selectable,
                    wasm_parse_error_code.global_init_terminator_not_found⟩)) := by
  intro fuel
  induction fuel with
  | zero => intro cur counter gs err code _ _ h; simp [global_loop] at h
  | succ fuel ih =>
    intro cur counter gs err code hle hi
    rw [global_loop]
    by_cases hce : cur = section_end
    · rw [if_pos hce]
      by_cases hcc : counter ≠ global_count
      · rw [if_pos hcc]
        intro _
        exact ⟨[], cur, by simp [entries_from], by simp, Or.inl ⟨hce, rfl⟩⟩
      · rw [if_neg hcc]
        intro h
        simp at h
    · rw [if_neg hce]
      simp only []
      by_cases hex : (counter + 1) % wasm_u32_size > global_count
      · rw [if_pos hex]
        intro _
        exact ⟨[], cur, by simp [entries_from], by simp, Or.inr (Or.inl ⟨hce, rfl⟩)⟩
      · rw [if_neg hex]
        cases hs : global_section_global_handler scan mem cur section_end err with
        | throws err1 code1 =>
          simp only []
          intro h
          have hc : code1 = code := by
            simp only [outcome.thrown.injEq] at h
            exact h
          subst hc
          exact ⟨[], cur, by simp [entries_from], by simp,
            Or.inr (Or.inr (Or.inl ⟨hce, hs⟩))⟩
        | ok g p1 =>
          simp only []
          obtain ⟨hp1, hp1e⟩ := hscan mem cur section_end err g p1 (by omega) hs
          cases ht : find_terminator mem section_end inner p1 with
          | fuel_exhausted => intro h; simp at h
          | not_found p2 =>
            simp only []
            intro _
            obtain ⟨hp2, _, hno⟩ := find_terminator_not_found mem section_end inner p1 p2 ht
            subst hp2
            exact ⟨[], cur, by simp [entries_from], by simp,
              Or.inr (Or.inr (Or.inr ⟨hce, g, p1, hs, hno, rfl⟩))⟩
          | found p2 =>
            simp only []
            obtain ⟨h1, _, _, _, h5⟩ := find_terminator_found mem section_end inner p1 p2 ht
            have hp2 := h5 hp1e
            have ht2 : find_terminator mem section_end (section_end - p1 + 1) p1 =
                terminator_scan.found p2 := by
              rw [find_terminator_budget mem section_end (section_end - p1 + 1) inner p1 hp1e
                (by omega) (by omega)]
              exact ht
            have he : entry_at scan mem section_end err cur =
                some (⟨g, ⟨p1, p2 + 1⟩⟩, p2 + 1) := by
              unfold entry_at
              simp only [hs, ht2]
            intro hout
            obtain ⟨es, last, hes, hstore, hfail⟩ := ih (p2 + 1)
              ((counter + 1) % wasm_u32_size)
              { gs with local_globals := gs.local_globals ++ [⟨g, ⟨p1, p2 + 1⟩⟩] } err code
              (by omega) (by omega) hout
            refine ⟨⟨g, ⟨p1, p2 + 1⟩⟩ :: es, last, ?_, by rw [hstore]; simp, hfail⟩
            rw [List.length_cons, entries_from, if_neg hce, he]
            simp only [hes]

/-- The exceeded count is thrown only for a declared count below `0xFFFFFFFF`. -/
theorem global_loop_exceeded_small (scan : global_type_scanner) (hcodes : scanner_codes scan)
    (mem : Memory) (section_end : Nat) (global_count inner : Nat)
    (importsec : import_section_storage_t) :
    ∀ (fuel section_curr global_counter : Nat) (globalsec : global_section_storage_t)
      (err : error_impl) (code : parse_code),
      (global_loop scan mem section_end global_count inner importsec fuel section_curr
        global_counter globalsec err).out = outcome.thrown code →
      (global_loop scan mem section_end global_count inner importsec fuel section_curr
        global_counter globalsec err).err.err_code =
          wasm_parse_error_code.global_section_resolved_exceeded_the_actual_number →
      global_count < wasm_u32_max := by
  intro fuel
  induction fuel with
  | zero => intro cur counter gs err code h; simp [global_loop] at h
  | succ fuel ih =>
    intro cur counter gs err code
    rw [global_loop]
    by_cases hce : cur = section_end
    · rw [if_pos hce]
      by_cases hcc : counter ≠ global_count
      · rw [if_pos hcc]; intro _ h; simp at h
      · rw [if_neg hcc]; intro h; simp at h
    · rw [if_neg hce]
      simp only []
      by_cases hex : (counter + 1) % wasm_u32_size > global_count
      · rw [if_pos hex]
        intro _ _
        have hlt : (counter + 1) % wasm_u32_size < wasm_u32_size :=
          Nat.mod_lt _ (by unfold wasm_u32_size; omega)
        unfold wasm_u32_size at hlt hex
        unfold wasm_u32_max
        omega
      · rw [if_neg hex]
        cases hs : global_section_global_handler scan mem cur section_end err with
        | throws err1 code1 =>
          simp only []
          intro _ h
          obtain ⟨n, hn⟩ := hcodes mem cur section_end err err1 code1 hs
          rw [hn] at h
          simp at h
        | ok g p1 =>
          simp only []
          cases ht : find_terminator mem section_end inner p1 with
          | fuel_exhausted => intro h; simp at h
          | not_found p2 => intro _ h; simp at h
          | found p2 =>
            simp only []
            exact ih (p2 + 1) ((counter + 1) % wasm_u32_size)
              { gs with local_globals := gs.local_globals ++ [⟨g, ⟨p1, p2 + 1⟩⟩] } err code

/-- Where the exceeded count points: at the first surplus byte, the cursor reached
when as many entries as the declared count allows have been decoded and stored, which
is not `section_end`. -/
theorem global_loop_exceeded_at (scan : global_type_scanner) (hcodes : scanner_codes scan)
    (hscan : scanner_in_bounds scan) (mem : Memory) (section_end : Nat)
    (global_count inner : Nat) (importsec : import_section_storage_t)
    (hd : global_count < wasm_u32_max) :
    ∀ (fuel section_curr global_counter : Nat) (globalsec : global_section_storage_t)
      (err : error_impl) (code : parse_code), section_curr ≤ section_end →
      section_end - section_curr < inner → global_counter ≤ global_count →
      (global_loop scan mem section_end global_count inner importsec fuel section_curr
        global_counter globalsec err).out = outcome.thrown code →
      (global_loop scan mem section_end global_count inner importsec fuel section_curr
        global_counter globalsec err).err.err_code =
          wasm_parse_error_code.global_section_resolved_exceeded_the_actual_number →
      ∃ es,
        entries_from scan mem section_end err es.length section_curr =
          some (es, (global_loop scan mem section_end global_count inner importsec fuel
            section_curr global_counter globalsec err).err.err_curr) ∧
        global_counter + es.length = global_count ∧
        (global_loop scan mem section_end global_count inner importsec fuel section_curr
          global_counter globalsec err).err.err_curr ≠ section_end ∧
        (global_loop scan mem section_end global_count inner importsec fuel section_curr
          global_counter globalsec err).module_storage.globalsec.local_globals =
            globalsec.local_globals ++ es := by
  intro fuel
  induction fuel with
  | zero => intro cur counter gs err code _ _ _ h; simp [global_loop] at h
  | succ fuel ih =>
    intro cur counter gs err code hle hi hcnt
    have hmod : (counter + 1) % wasm_u32_size = counter + 1 :=
      Nat.mod_eq_of_lt (by unfold wasm_u32_size; unfold wasm_u32_max at hd; omega)
    rw [global_loop]
    by_cases hce : cur = section_end
    · rw [if_pos hce]
      by_cases hcc : counter ≠ global_count
      · rw [if_pos hcc]; intro _ h; simp at h
      · rw [if_neg hcc]; intro h; simp at h
    · rw [if_neg hce]
      simp only []
      by_cases hex : (counter + 1) % wasm_u32_size > global_count
      · rw [if_pos hex]
        intro _ _
        rw [hmod] at hex
        exact ⟨[], by simp [entries_from], by simp; omega, by simpa using hce, by simp⟩
      · rw [if_neg hex]
        cases hs : global_section_global_handler scan mem cur section_end err with
        | throws err1 code1 =>
          simp only []
          intro _ h
          obtain ⟨n, hn⟩ := hcodes mem cur section_end err err1 code1 hs
          rw [hn] at h
          simp at h
        | ok g p1 =>
          simp only []
          obtain ⟨hp1, hp1e⟩ := hscan mem cur section_end err g p1 (by omega) hs
          cases ht : find_terminator mem section_end inner p1 with
          | fuel_exhausted => intro h; simp at h
          | not_found p2 => intro _ h; simp at h
          | found p2 =>
            simp only []
            obtain ⟨h1, _, _, _, h5⟩ := find_terminator_found mem section_end inner p1 p2 ht
            have hp2 := h5 hp1e
            have ht2 : find_terminator mem section_end (section_end - p1 + 1) p1 =
                terminator_scan.found p2 := by
              rw [find_terminator_budget mem section_end (section_end - p1 + 1) inner p1 hp1e
                (by omega) (by omega)]
              exact ht
            have he : entry_at scan mem section_end err cur =
                some (⟨g, ⟨p1, p2 + 1⟩⟩, p2 + 1) := by
              unfold entry_at
              simp only [hs, ht2]
            intro hout herr
            rw [hmod] at hex
            obtain ⟨es, hes, hlen, hne, hstore⟩ := ih (p2 + 1)
              ((counter + 1) % wasm_u32_size)
              { gs with local_globals := gs.local_globals ++ [⟨g, ⟨p1, p2 + 1⟩⟩] } err code
              (by omega) (by omega) (by rw [hmod]; omega) hout herr
            rw [hmod] at hlen
            refine ⟨⟨g, ⟨p1, p2 + 1⟩⟩ :: es, ?_, by rw [List.length_cons]; omega, hne,
              by rw [hstore]; simp⟩
            rw [List.length_cons, entries_from, if_neg hce, he]
            simp only [hes]

/-! ## The appends of the loop -/

/-- The entries that a run of the loop stores are as many as its appends. -/
theorem global_loop_pushes_length (scan : global_type_scanner) (mem : Memory)
    (section_end : Nat) (global_count inner : Nat) (importsec : import_section_storage_t) :
    ∀ (fuel section_curr global_counter : Nat) (globalsec : global_section_storage_t)
      (err : error_impl),
      (global_loop scan mem section_end global_count inner importsec fuel section_curr
          global_counter globalsec err).module_storage.globalsec.local_globals.length =
        globalsec.local_globals.length +
          (global_loop_pushes scan mem section_end global_count inner fuel section_curr
            global_counter globalsec.local_globals.length err).length := by
  intro fuel
  induction fuel with
  | zero => intro cur counter gs err; simp [global_loop, global_loop_pushes]
  | succ fuel ih =>
    intro cur counter gs err
    rw [global_loop, global_loop_pushes]
    by_cases hce : cur = section_end
    · rw [if_pos hce, if_pos hce]
      by_cases hcc : counter ≠ global_count
      · rw [if_pos hcc]; simp
      · rw [if_neg hcc]; simp
    · rw [if_neg hce, if_neg hce]
      simp only []
      by_cases hex : (counter + 1) % wasm_u32_size > global_count
      · rw [if_pos hex, if_pos hex]; simp
      · rw [if_neg hex, if_neg hex]
        cases hs : global_section_global_handler scan mem cur section_end err with
        | throws err1 code1 => simp
        | ok g p1 =>
          simp only []
          cases ht : find_terminator mem section_end inner p1 with
          | fuel_exhausted => simp
          | not_found p2 => simp
          | found p2 =>
            simp only []
            have := ih (p2 + 1) ((counter + 1) % wasm_u32_size)
              { gs with local_globals := gs.local_globals ++ [⟨g, ⟨p1, p2 + 1⟩⟩] } err
            simp only [List.length_append, List.length_singleton] at this
            rw [this, List.length_cons]
            omega

/-- Appends under a declared count below `0xFFFFFFFF`: the counter does not wrap. -/
theorem global_loop_pushes_small_count (scan : global_type_scanner) (mem : Memory)
    (section_end : Nat) (global_count inner : Nat) (hd : global_count < wasm_u32_max) :
    ∀ (fuel section_curr global_counter stored : Nat) (err : error_impl),
      global_counter ≤ global_count →
      (global_loop_pushes scan mem section_end global_count inner fuel section_curr
          global_counter stored err).length + global_counter ≤ global_count ∧
      ∀ p ∈ global_loop_pushes scan mem section_end global_count inner fuel section_curr
          global_counter stored err,
        1 ≤ p.2 ∧ p.2 ≤ global_count ∧ p.1 + global_counter + 1 = stored + p.2 := by
  intro fuel
  induction fuel with
  | zero => intro cur counter stored err hc; simp [global_loop_pushes, hc]
  | succ fuel ih =>
    intro cur counter stored err hc
    rw [global_loop_pushes]
    by_cases hce : cur = section_end
    · rw [if_pos hce]; simp [hc]
    · rw [if_neg hce]
      simp only []
      have hmod : (counter + 1) % wasm_u32_size = counter + 1 :=
        Nat.mod_eq_of_lt (by unfold wasm_u32_size; unfold wasm_u32_max at hd; omega)
      by_cases hex : (counter + 1) % wasm_u32_size > global_count
      · rw [if_pos hex]; simp [hc]
      · rw [if_neg hex]
        cases hs : global_section_global_handler scan mem cur section_end err with
        | throws err1 code1 => simp [hc]
        | ok g p1 =>
          simp only []
          cases ht : find_terminator mem section_end inner p1 with
          | fuel_exhausted => simp [hc]
          | not_found p2 => simp [hc]
          | found p2 =>
            simp only []
            rw [hmod] at hex ⊢
            obtain ⟨hlen, hall⟩ := ih (p2 + 1) (counter + 1) (stored + 1) err (by omega)
            refine ⟨by rw [List.length_cons]; omega, fun p hp => ?_⟩
            rcases List.mem_cons.mp hp with hp | hp
            · subst hp
              exact ⟨by simp, by simp; omega, by simp; omega⟩
            · obtain ⟨a1, a2, a3⟩ := hall p hp
              exact ⟨a1, a2, by omega⟩

/-- Appends on a slice short enough for the counter not to wrap. -/
theorem global_loop_pushes_short_slice (scan : global_type_scanner)
    (hscan : scanner_in_bounds scan) (mem : Memory) (section_end : Nat)
    (global_count inner : Nat) :
    ∀ (fuel section_curr global_counter stored : Nat) (err : error_impl),
      section_curr ≤ section_end →
      global_counter + (section_end - section_curr) < wasm_u32_size →
      global_counter ≤ global_count →
      (global_loop_pushes scan mem section_end global_count inner fuel section_curr
          global_counter stored err).length + global_counter ≤ global_count ∧
      ∀ p ∈ global_loop_pushes scan mem section_end global_count inner fuel section_curr
          global_counter stored err,
        1 ≤ p.2 ∧ p.2 ≤ global_count ∧ p.1 + global_counter + 1 = stored + p.2 := by
  intro fuel
  induction fuel with
  | zero => intro cur counter stored err _ _ hc; simp [global_loop_pushes, hc]
  | succ fuel ih =>
    intro cur counter stored err hle hno hc
    rw [global_loop_pushes]
    by_cases hce : cur = section_end
    · rw [if_pos hce]; simp [hc]
    · rw [if_neg hce]
      simp only []
      have hmod : (counter + 1) % wasm_u32_size = counter + 1 :=
        Nat.mod_eq_of_lt (by omega)
      by_cases hex : (counter + 1) % wasm_u32_size > global_count
      · rw [if_pos hex]; simp [hc]
      · rw [if_neg hex]
        cases hs : global_section_global_handler scan mem cur section_end err with
        | throws err1 code1 => simp [hc]
        | ok g p1 =>
          simp only []
          obtain ⟨hp1, hp1e⟩ := hscan mem cur section_end err g p1 (by omega) hs
          cases ht : find_terminator mem section_end inner p1 with
          | fuel_exhausted => simp [hc]
          | not_found p2 => simp [hc]
          | found p2 =>
            simp only []
            obtain ⟨h1, _, _, _, h5⟩ := find_terminator_found mem section_end inner p1 p2 ht
            have hp2 := h5 hp1e
            rw [hmod] at hex ⊢
            obtain ⟨hlen, hall⟩ := ih (p2 + 1) (counter + 1) (stored + 1) err (by omega)
              (by omega) (by omega)
            refine ⟨by rw [List.length_cons]; omega, fun p hp => ?_⟩
            rcases List.mem_cons.mp hp with hp | hp
            · subst hp
              exact ⟨by simp, by simp; omega, by simp; omega⟩
            · obtain ⟨a1, a2, a3⟩ := hall p hp
              exact ⟨a1, a2, by omega⟩

/-- The count mismatch is reported with a counter below the declared count. -/
theorem global_loop_mismatch_context (scan : global_type_scanner)
    (hcodes : scanner_codes scan) (mem : Memory) (section_end : Nat)
    (global_count inner : Nat) (importsec : import_section_storage_t) :
    ∀ (fuel section_curr global_counter : Nat) (globalsec : global_section_storage_t)
      (err : error_impl) (code : parse_code), global_counter ≤ global_count →
      (global_loop scan mem section_end global_count inner importsec fuel section_curr
          global_counter globalsec err).out = outcome.thrown code →
      (global_loop scan mem section_end global_count inner importsec fuel section_curr
          global_counter globalsec err).err.err_code =
            wasm_parse_error_code.global_section_resolved_not_match_the_actual_number →
      ∃ resolved, resolved < global_count ∧
        (global_loop scan mem section_end global_count inner importsec fuel section_curr
          global_counter globalsec err).err.err_selectable =
            err_selectable_t.u32arr resolved global_count := by
  intro fuel
  induction fuel with
  | zero => intro cur counter gs err code _ h; simp [global_loop] at h
  | succ fuel ih =>
    intro cur counter gs err code hc
    rw [global_loop]
    by_cases hce : cur = section_end
    · rw [if_pos hce]
      by_cases hcc : counter ≠ global_count
      · rw [if_pos hcc]
        intro _ _
        exact ⟨counter, by omega, rfl⟩
      · rw [if_neg hcc]
        intro h
        simp at h
    · rw [if_neg hce]
      simp only []
      by_cases hex : (counter + 1) % wasm_u32_size > global_count
      · rw [if_pos hex]
        intro _ h
        simp at h
      · rw [if_neg hex]
        cases hs : global_section_global_handler scan mem cur section_end err with
        | throws err1 code1 =>
          intro _ h
          obtain ⟨n, hn⟩ := hcodes mem cur section_end err err1 code1 hs
          simp only [hn] at h
          simp at h
        | ok g p1 =>
          simp only []
          cases ht : find_terminator mem section_end inner p1 with
          | fuel_exhausted => intro h; simp at h
          | not_found p2 => intro _ h; simp at h
          | found p2 =>
            simp only []
            exact ih (p2 + 1) ((counter + 1) % wasm_u32_size) _ err code (by omega)

/-- The entries that a call stores are as many as its appends. -/
theorem global_section_pushes_length (size_t_max : Nat) (parse_leb128 : leb128_reader)
    (scan : global_type_scanner) (mem : Memory) (module_storage : module_storage_t)
    (section_begin section_end : Nat) (err : error_impl) (sec_id_module_ptr : Nat) :
    (handle_binfmt_ver1_extensible_section_define size_t_max parse_leb128 scan mem
        module_storage section_begin section_end err
        sec_id_module_ptr).module_storage.globalsec.local_globals.length =
      module_storage.globalsec.local_globals.length +
        (global_section_pushes size_t_max parse_leb128 scan mem module_storage section_begin
          section_end err).length := by
  by_cases hset : module_storage.globalsec.sec_span.sec_begin ≠ 0
  · rw [handle_span_set _ _ _ _ _ _ _ _ _ hset]
    unfold global_section_pushes
    simp only []
    rw [if_pos hset]
    simp
  · have hspan : module_storage.globalsec.sec_span.sec_begin = 0 := by
      by_contra hne; exact hset hne
    rw [handle_span_unset _ _ _ _ _ _ _ _ _ hspan]
    unfold global_section_pushes
    simp only []
    rw [if_neg hset]
    by_cases h1 : (parse_leb128 mem section_begin section_end).code ≠ parse_code.ok
    · rw [if_pos h1, if_pos h1]
      simp
    · rw [if_neg h1, if_neg h1]
      by_cases h2 : size_t_max < wasm_u32_max ∧
          (parse_leb128 mem section_begin section_end).value > size_t_max
      · rw [if_pos h2, if_pos h2]
        simp
      · rw [if_neg h2, if_neg h2]
        by_cases h3 : (parse_leb128 mem section_begin section_end).value >
            wasm_u32_max - imported_global_size module_storage.importsec
        · rw [if_pos h3, if_pos h3]
          simp
        · rw [if_neg h3, if_neg h3]
          exact global_loop_pushes_length scan mem section_end _ _ _ _ _ _
            ⟨⟨section_begin, section_end⟩, module_storage.globalsec.local_globals⟩ err

/-! ## The claims -/

/-- C1: for the section bytes `01 7F 00 41 05 0B`, zero imported globals and a span
that is not yet set, the decoder returns normally and appends exactly one entry, of
type i32 and immutable, whose `expr` spans the three bytes at section offsets 3 up
to 6; the entry ends at `section_end`, where the loop stops. -/
theorem C1_example_decodes_one_global (size_t_max : Nat) (hplat : 1 ≤ size_t_max)
    (mem : Memory) (module_storage : module_storage_t) (section_begin : Nat)
    (err : error_impl) (sec_id_module_ptr : Nat)
    (hspan : module_storage.globalsec.sec_span.sec_begin = 0)
    (himp : module_storage.importsec.importdesc.getD 3 [] = [])
    (hbytes : holds_bytes mem section_begin [0x01, 0x7F, 0x00, 0x41, 0x05, 0x0B]) :
    handle_binfmt_ver1_extensible_section_define size_t_max read_leb128_u32 scan_global_type
        mem module_storage section_begin (section_begin + 6) err sec_id_module_ptr =
      ⟨⟨module_storage.importsec,
          ⟨⟨section_begin, section_begin + 6⟩,
            module_storage.globalsec.local_globals ++
              [⟨⟨value_type_i32, false⟩, ⟨section_begin + 3, section_begin + 6⟩⟩]⟩⟩,
        err, outcome.returned⟩ := by
  have h0 : mem section_begin = 0x01 := by simpa using hbytes 0 (by simp)
  have h1 : mem (section_begin + 1) = 0x7F := by simpa using hbytes 1 (by simp)
  have h2 : mem (section_begin + 2) = 0x00 := by simpa using hbytes 2 (by simp)
  have h3 : mem (section_begin + 3) = 0x41 := by simpa using hbytes 3 (by simp)
  have h4 : mem (section_begin + 4) = 0x05 := by simpa using hbytes 4 (by simp)
  have h5 : mem (section_begin + 5) = 0x0B := by simpa using hbytes 5 (by simp)
  have hr : read_leb128_u32 mem section_begin (section_begin + 6) =
      ⟨section_begin + 1, parse_code.ok, 1⟩ := by
    simp [read_leb128_u32, leb128_scan, h0, wasm_u32_max]
  have hfuel : section_begin + 6 - section_begin + 1 = 7 := by omega
  simp only [handle_binfmt_ver1_extensible_section_define, hspan, hr, imported_global_size, himp,
    hfuel]
  simp [global_loop, global_section_global_handler, scan_global_type, find_terminator,
    wasm_u32_max, wasm_u32_size, h1, h2, h3, h4, h5, value_type_i32]
  intro _
  omega

/-- Witness of C1: the six bytes at address 100 in a fresh module storage, on a
64-bit target. -/
theorem C1_example_decodes_one_global_witness :
    handle_binfmt_ver1_extensible_section_define 0xFFFFFFFFFFFFFFFF read_leb128_u32
        scan_global_type (memory_of 100 [0x01, 0x7F, 0x00, 0x41, 0x05, 0x0B])
        (module_storage_t.fresh [[], [], [], []]) 100 (100 + 6) error_impl.zero 98 =
      ⟨⟨⟨[[], [], [], []]⟩,
          ⟨⟨100, 100 + 6⟩, [] ++ [⟨⟨value_type_i32, false⟩, ⟨100 + 3, 100 + 6⟩⟩]⟩⟩,
        error_impl.zero, outcome.returned⟩ :=
  C1_example_decodes_one_global 0xFFFFFFFFFFFFFFFF (by decide)
    (memory_of 100 [0x01, 0x7F, 0x00, 0x41, 0x05, 0x0B])
    (module_storage_t.fresh [[], [], [], []]) 100 error_impl.zero 98 rfl rfl
    (holds_bytes_memory_of 100 _)

/-- C2: for every section slice (of at most `0xFFFFFFFF` bytes: a section is cut by
its 32-bit size field, so no longer slice reaches the decoder), every
imported-global count and a storage whose span is not yet set: if the decoder
returns normally, the number of entries it appended to `local_globals`, one per loop
iteration, equals the declared count read from the section; within such a slice the
32-bit counter cannot wrap. The callees are taken to keep the cursor inside the
slice. -/
theorem C2_entries_equal_declared_count (size_t_max : Nat) (parse_leb128 : leb128_reader)
    (scan : global_type_scanner) (hreader : reader_in_bounds parse_leb128)
    (hscan : scanner_in_bounds scan) (mem : Memory) (module_storage : module_storage_t)
    (section_begin section_end : Nat) (err : error_impl) (sec_id_module_ptr : Nat)
    (hspan : module_storage.globalsec.sec_span.sec_begin = 0)
    (hle : section_begin ≤ section_end)
    (hsize : section_end - section_begin ≤ 0xFFFFFFFF)
    (hret : (handle_binfmt_ver1_extensible_section_define size_t_max parse_leb128 scan mem
      module_storage section_begin section_end err sec_id_module_ptr).out =
        outcome.returned) :
    (handle_binfmt_ver1_extensible_section_define size_t_max parse_leb128 scan mem
      module_storage section_begin section_end err
      sec_id_module_ptr).module_storage.globalsec.local_globals.length =
      module_storage.globalsec.local_globals.length +
        (parse_leb128 mem section_begin section_end).value := by
  rw [handle_span_unset _ _ _ _ _ _ _ _ _ hspan] at hret ⊢
  split at hret
  · simp at hret
  · rename_i h1
    have hcode : (parse_leb128 mem section_begin section_end).code = parse_code.ok := by
      by_contra hne; exact h1 hne
    obtain ⟨hi1, hi2, _⟩ := hreader mem section_begin section_end hle hcode
    split at hret
    · simp at hret
    · split at hret
      · simp at hret
      · rename_i h2 h3
        rw [if_neg h1, if_neg h2, if_neg h3]
        have := global_loop_count scan hscan mem section_end
          (parse_leb128 mem section_begin section_end).value
          (section_end - section_begin + 1) module_storage.importsec
          (section_end - section_begin + 1)
          (parse_leb128 mem section_begin section_end).iter 0
          ⟨⟨section_begin, section_end⟩, module_storage.globalsec.local_globals⟩ err hi2
          (by unfold wasm_u32_size; omega) hret
        simpa using this

/-- Witness of C2: the section `01 7F 00 41 05 0B`, of six bytes, declares
and stores one entry. -/
theorem C2_entries_equal_declared_count_witness :
    (handle_binfmt_ver1_extensible_section_define 0xFFFFFFFFFFFFFFFF read_leb128_u32
      scan_global_type (memory_of 100 [0x01, 0x7F, 0x00, 0x41, 0x05, 0x0B])
      (module_storage_t.fresh [[], [], [], []]) 100 106 error_impl.zero
      98).module_storage.globalsec.local_globals.length =
      (module_storage_t.fresh [[], [], [], []]).globalsec.local_globals.length +
        (read_leb128_u32 (memory_of 100 [0x01, 0x7F, 0x00, 0x41, 0x05, 0x0B]) 100 106).value :=
  C2_entries_equal_declared_count 0xFFFFFFFFFFFFFFFF read_leb128_u32 scan_global_type
    read_leb128_u32_in_bounds scan_global_type_in_bounds
    (memory_of 100 [0x01, 0x7F, 0x00, 0x41, 0x05, 0x0B])
    (module_storage_t.fresh [[], [], [], []]) 100 106 error_impl.zero 98
    rfl (by decide) (by decide) (by decide)

/-- C3: when the bytes after the count field decode into exactly `k` complete
entries that end exactly at `section_end`, `k` is smaller than the declared count
and no earlier check fails, the decoder throws with
`global_section_resolved_not_match_the_actual_number`, `err_curr` at `section_end`
and the pair (`k`, declared count) in `u32arr`; the `k` entries stay stored. -/
theorem C3_fewer_entries_than_declared (size_t_max : Nat) (parse_leb128 : leb128_reader)
    (scan : global_type_scanner) (hreader : reader_in_bounds parse_leb128)
    (hscan : scanner_in_bounds scan) (mem : Memory) (module_storage : module_storage_t)
    (section_begin section_end : Nat) (err : error_impl) (sec_id_module_ptr : Nat)
    (k : Nat) (es : List final_local_global_type)
    (hspan : module_storage.globalsec.sec_span.sec_begin = 0)
    (hle : section_begin ≤ section_end)
    (hcode : (parse_leb128 mem section_begin section_end).code = parse_code.ok)
    (hplat : ¬ (size_t_max < wasm_u32_max ∧
      (parse_leb128 mem section_begin section_end).value > size_t_max))
    (himp : ¬ (parse_leb128 mem section_begin section_end).value >
      wasm_u32_max - imported_global_size module_storage.importsec)
    (hentries : entries_from scan mem section_end err k
      (parse_leb128 mem section_begin section_end).iter = some (es, section_end))
    (hk : k < (parse_leb128 mem section_begin section_end).value) :
    handle_binfmt_ver1_extensible_section_define size_t_max parse_leb128 scan mem
        module_storage section_begin section_end err sec_id_module_ptr =
      ⟨⟨module_storage.importsec,
          ⟨⟨section_begin, section_end⟩, module_storage.globalsec.local_globals ++ es⟩⟩,
        ⟨section_end,
          err_selectable_t.u32arr k (parse_leb128 mem section_begin section_end).value,
          wasm_parse_error_code.global_section_resolved_not_match_the_actual_number⟩,
        outcome.thrown parse_code.invalid⟩ := by
  obtain ⟨hi1, hi2, hval⟩ := hreader mem section_begin section_end hle hcode
  rw [handle_span_unset _ _ _ _ _ _ _ _ _ hspan]
  rw [if_neg (by simp [hcode]), if_neg hplat, if_neg himp]
  obtain ⟨fuel1, hf1, _, _, heq⟩ := global_loop_entries scan hscan mem section_end
    (parse_leb128 mem section_begin section_end).value (section_end - section_begin + 1)
    module_storage.importsec err hval k (section_end - section_begin + 1)
    (parse_leb128 mem section_begin section_end).iter 0
    ⟨⟨section_begin, section_end⟩, module_storage.globalsec.local_globals⟩ es section_end
    hi2 (by omega) (by omega) (by omega) hentries
  rw [heq]
  cases fuel1 with
  | zero => omega
  | succ fuel1 =>
    have hne : 0 + k ≠ (parse_leb128 mem section_begin section_end).value := by omega
    rw [global_loop]
    simp only [if_true]
    rw [if_pos hne]
    simp

/-- Witness of C3: the bytes `02 7F 00 41 05 0B` fail at section offset 6 with the
context (1, 2). -/
theorem C3_fewer_entries_than_declared_witness :
    handle_binfmt_ver1_extensible_section_define 0xFFFFFFFFFFFFFFFF read_leb128_u32
        scan_global_type (memory_of 100 [0x02, 0x7F, 0x00, 0x41, 0x05, 0x0B])
        (module_storage_t.fresh [[], [], [], []]) 100 106 error_impl.zero 98 =
      ⟨⟨⟨[[], [], [], []]⟩,
          ⟨⟨100, 106⟩, [] ++ [⟨⟨value_type_i32, false⟩, ⟨103, 106⟩⟩]⟩⟩,
        ⟨106, err_selectable_t.u32arr 1 2,
          wasm_parse_error_code.global_section_resolved_not_match_the_actual_number⟩,
        outcome.thrown parse_code.invalid⟩ :=
  C3_fewer_entries_than_declared 0xFFFFFFFFFFFFFFFF read_leb128_u32 scan_global_type
    read_leb128_u32_in_bounds scan_global_type_in_bounds
    (memory_of 100 [0x02, 0x7F, 0x00, 0x41, 0x05, 0x0B])
    (module_storage_t.fresh [[], [], [], []]) 100 106 error_impl.zero 98 1
    [⟨⟨value_type_i32, false⟩, ⟨103, 106⟩⟩] rfl (by decide) (by decide) (by decide)
    (by decide) (by decide) (by decide)

/-- C4: on every slice of at most `0xFFFFFFFF` bytes (a section is cut by its 32-bit
size field, so no longer slice reaches the decoder): when exactly the declared count
of entries has been decoded and the cursor has not reached `section_end`, the
decoder throws with `global_section_resolved_exceeded_the_actual_number`, `err_curr`
at the first surplus byte and the declared count in `u32`, whatever the surplus
bytes are (no hypothesis is made on them) and also for a declared count of 0. The
callees are taken to keep the cursor inside the slice. -/
theorem C4_surplus_after_declared_count (size_t_max : Nat) (parse_leb128 : leb128_reader)
    (scan : global_type_scanner) (hreader : reader_in_bounds parse_leb128)
    (hscan : scanner_in_bounds scan) (mem : Memory) (module_storage : module_storage_t)
    (section_begin section_end : Nat) (err : error_impl) (sec_id_module_ptr : Nat)
    (es : List final_local_global_type) (surplus : Nat)
    (hspan : module_storage.globalsec.sec_span.sec_begin = 0)
    (hle : section_begin ≤ section_end)
    (hsize : section_end - section_begin ≤ 0xFFFFFFFF)
    (hcode : (parse_leb128 mem section_begin section_end).code = parse_code.ok)
    (hplat : ¬ (size_t_max < wasm_u32_max ∧
      (parse_leb128 mem section_begin section_end).value > size_t_max))
    (himp : ¬ (parse_leb128 mem section_begin section_end).value >
      wasm_u32_max - imported_global_size module_storage.importsec)
    (hentries : entries_from scan mem section_end err
      (parse_leb128 mem section_begin section_end).value
      (parse_leb128 mem section_begin section_end).iter = some (es, surplus))
    (hsurplus : surplus ≠ section_end) :
    handle_binfmt_ver1_extensible_section_define size_t_max parse_leb128 scan mem
        module_storage section_begin section_end err sec_id_module_ptr =
      ⟨⟨module_storage.importsec,
          ⟨⟨section_begin, section_end⟩, module_storage.globalsec.local_globals ++ es⟩⟩,
        ⟨surplus, err_selectable_t.u32 (parse_leb128 mem section_begin section_end).value,
          wasm_parse_error_code.global_section_resolved_exceeded_the_actual_number⟩,
        outcome.thrown parse_code.invalid⟩ := by
  obtain ⟨hi1, hi2, hval⟩ := hreader mem section_begin section_end hle hcode
  obtain ⟨hk1, hk2⟩ := entries_from_length_le scan hscan mem section_end err
    (parse_leb128 mem section_begin section_end).value
    (parse_leb128 mem section_begin section_end).iter es surplus hi2 hentries
  have hd : (parse_leb128 mem section_begin section_end).value < wasm_u32_max := by
    unfold wasm_u32_max
    omega
  rw [handle_span_unset _ _ _ _ _ _ _ _ _ hspan]
  rw [if_neg (by simp [hcode]), if_neg hplat, if_neg himp]
  obtain ⟨fuel1, hf1, _, hs2, heq⟩ := global_loop_entries scan hscan mem section_end
    (parse_leb128 mem section_begin section_end).value (section_end - section_begin + 1)
    module_storage.importsec err hval (parse_leb128 mem section_begin section_end).value
    (section_end - section_begin + 1)
    (parse_leb128 mem section_begin section_end).iter 0
    ⟨⟨section_begin, section_end⟩, module_storage.globalsec.local_globals⟩ es surplus
    hi2 (by omega) (by omega) (by omega) hentries
  rw [heq]
  cases fuel1 with
  | zero => omega
  | succ fuel1 =>
    have hmod : (0 + (parse_leb128 mem section_begin section_end).value + 1) % wasm_u32_size =
        (parse_leb128 mem section_begin section_end).value + 1 := by
      rw [Nat.zero_add]
      exact Nat.mod_eq_of_lt (by unfold wasm_u32_size; unfold wasm_u32_max at hd; omega)
    rw [global_loop]
    rw [if_neg hsurplus]
    simp only [hmod]
    rw [if_pos (by omega)]

/-- Witness of C4: the bytes `00 FF` (declared count 0, then one byte that is no
entry) fail at section offset 1 with the declared count 0 as context. -/
theorem C4_surplus_after_declared_count_witness :
    handle_binfmt_ver1_extensible_section_define 0xFFFFFFFFFFFFFFFF read_leb128_u32
        scan_global_type (memory_of 100 [0x00, 0xFF])
        (module_storage_t.fresh [[], [], [], []]) 100 102 error_impl.zero 98 =
      ⟨⟨⟨[[], [], [], []]⟩, ⟨⟨100, 102⟩, [] ++ []⟩⟩,
        ⟨101, err_selectable_t.u32 0,
          wasm_parse_error_code.global_section_resolved_exceeded_the_actual_number⟩,
        outcome.thrown parse_code.invalid⟩ :=
  C4_surplus_after_declared_count 0xFFFFFFFFFFFFFFFF read_leb128_u32 scan_global_type
    read_leb128_u32_in_bounds scan_global_type_in_bounds (memory_of 100 [0x00, 0xFF])
    (module_storage_t.fresh [[], [], [], []]) 100 102 error_impl.zero 98 [] 101
    rfl (by decide) (by decide) (by decide) (by decide) (by decide) (by decide) (by decide)

/-- Counterexample to C5 as stated: on a target whose `size_t` has 16 bits, the count
0xFFFFFFFF with one imported global (sum above 0xFFFFFFFF, span not yet set) is
rejected by the platform-width check, with
`size_exceeds_the_maximum_value_of_size_t`, not with `imp_def_num_exceed_u32max`. -/
theorem C5_counterexample_narrow_size_t :
    (module_storage_t.fresh [[], [], [], [7]]).globalsec.sec_span.sec_begin = 0 ∧
    (read_leb128_u32 (memory_of 100 [0xFF, 0xFF, 0xFF, 0xFF, 0x0F]) 100 105).code =
      parse_code.ok ∧
    (read_leb128_u32 (memory_of 100 [0xFF, 0xFF, 0xFF, 0xFF, 0x0F]) 100 105).value +
      imported_global_size (module_storage_t.fresh [[], [], [], [7]]).importsec > 0xFFFFFFFF ∧
    handle_binfmt_ver1_extensible_section_define 0xFFFF read_leb128_u32
        scan_global_type (memory_of 100 [0xFF, 0xFF, 0xFF, 0xFF, 0x0F])
        (module_storage_t.fresh [[], [], [], [7]]) 100 105 error_impl.zero 98 =
      ⟨⟨⟨[[], [], [], [7]]⟩, ⟨⟨100, 105⟩, []⟩⟩,
        ⟨100, err_selectable_t.u64 0xFFFFFFFF,
          wasm_parse_error_code.size_exceeds_the_maximum_value_of_size_t⟩,
        outcome.thrown parse_code.invalid⟩ := by
  decide

/-- C5 (amended): for every declared count `d` and imported-global count `i` with
`d + i > 0xFFFFFFFF`, the decoder called on a not-yet-set section throws with
`imp_def_num_exceed_u32max`, provided the platform-width check, which runs first,
does not reject `d`; and the test `d > 0xFFFFFFFF - i` of the code holds exactly when
`d + i > 0xFFFFFFFF` as natural numbers. -/
theorem C5_import_overflow_guard (size_t_max : Nat) (parse_leb128 : leb128_reader)
    (scan : global_type_scanner) (mem : Memory) (module_storage : module_storage_t)
    (section_begin section_end : Nat) (err : error_impl) (sec_id_module_ptr : Nat)
    (hspan : module_storage.globalsec.sec_span.sec_begin = 0)
    (hcode : (parse_leb128 mem section_begin section_end).code = parse_code.ok)
    (hplat : ¬ (size_t_max < wasm_u32_max ∧
      (parse_leb128 mem section_begin section_end).value > size_t_max))
    (hsum : (parse_leb128 mem section_begin section_end).value +
      imported_global_size module_storage.importsec > 0xFFFFFFFF) :
    handle_binfmt_ver1_extensible_section_define size_t_max parse_leb128 scan mem
        module_storage section_begin section_end err sec_id_module_ptr =
      ⟨⟨module_storage.importsec,
          ⟨⟨section_begin, section_end⟩, module_storage.globalsec.local_globals⟩⟩,
        ⟨section_begin,
          err_selectable_t.imp_def_num_exceed_u32max 0x03
            (parse_leb128 mem section_begin section_end).value
            (imported_global_size module_storage.importsec),
          wasm_parse_error_code.imp_def_num_exceed_u32max⟩,
        outcome.thrown parse_code.invalid⟩ ∧
    ((parse_leb128 mem section_begin section_end).value >
        wasm_u32_max - imported_global_size module_storage.importsec ↔
      (parse_leb128 mem section_begin section_end).value +
        imported_global_size module_storage.importsec > 0xFFFFFFFF) := by
  have hi : imported_global_size module_storage.importsec < 0x100000000 := by
    unfold imported_global_size wasm_u32_size
    exact Nat.mod_lt _ (by decide)
  have hiff : ((parse_leb128 mem section_begin section_end).value >
        wasm_u32_max - imported_global_size module_storage.importsec ↔
      (parse_leb128 mem section_begin section_end).value +
        imported_global_size module_storage.importsec > 0xFFFFFFFF) := by
    unfold wasm_u32_max
    omega
  refine ⟨?_, hiff⟩
  rw [handle_span_unset _ _ _ _ _ _ _ _ _ hspan]
  rw [if_neg (by simp [hcode]), if_neg hplat, if_pos (hiff.mpr hsum)]

/-- Witness of C5: the count `FF FF FF FF 0F` (0xFFFFFFFF) with one imported global on
a 64-bit target. -/
theorem C5_import_overflow_guard_witness :
    handle_binfmt_ver1_extensible_section_define 0xFFFFFFFFFFFFFFFF read_leb128_u32
        scan_global_type (memory_of 100 [0xFF, 0xFF, 0xFF, 0xFF, 0x0F])
        (module_storage_t.fresh [[], [], [], [7]]) 100 105 error_impl.zero 98 =
      ⟨⟨⟨[[], [], [], [7]]⟩, ⟨⟨100, 105⟩, []⟩⟩,
        ⟨100, err_selectable_t.imp_def_num_exceed_u32max 0x03 0xFFFFFFFF 1,
          wasm_parse_error_code.imp_def_num_exceed_u32max⟩,
        outcome.thrown parse_code.invalid⟩ :=
  (C5_import_overflow_guard 0xFFFFFFFFFFFFFFFF read_leb128_u32 scan_global_type
    (memory_of 100 [0xFF, 0xFF, 0xFF, 0xFF, 0x0F])
    (module_storage_t.fresh [[], [], [], [7]]) 100 105 error_impl.zero 98
    rfl (by decide) (by decide) (by decide)).1

/-- C6: whenever the decoder throws with `imp_def_num_exceed_u32max`, the context
carries the kind tag `0x03`, as `defined` the declared count read from the section
and as `imported` the size of `importdesc` at index 3 (converted to `wasm_u32`). -/
theorem C6_overflow_context (size_t_max : Nat) (parse_leb128 : leb128_reader)
    (scan : global_type_scanner) (hcodes : scanner_codes scan) (mem : Memory)
    (module_storage : module_storage_t) (section_begin section_end : Nat)
    (err : error_impl) (sec_id_module_ptr : Nat) (code : parse_code)
    (hout : (handle_binfmt_ver1_extensible_section_define size_t_max parse_leb128 scan mem
      module_storage section_begin section_end err sec_id_module_ptr).out =
        outcome.thrown code)
    (herr : (handle_binfmt_ver1_extensible_section_define size_t_max parse_leb128 scan mem
      module_storage section_begin section_end err sec_id_module_ptr).err.err_code =
        wasm_parse_error_code.imp_def_num_exceed_u32max) :
    (handle_binfmt_ver1_extensible_section_define size_t_max parse_leb128 scan mem
      module_storage section_begin section_end err sec_id_module_ptr).err.err_selectable =
      err_selectable_t.imp_def_num_exceed_u32max 0x03
        (parse_leb128 mem section_begin section_end).value
        ((module_storage.importsec.importdesc.getD 3 []).length % wasm_u32_size) := by
  by_cases hset : module_storage.globalsec.sec_span.sec_begin ≠ 0
  · rw [handle_span_set _ _ _ _ _ _ _ _ _ hset] at herr
    simp at herr
  · have hspan : module_storage.globalsec.sec_span.sec_begin = 0 := by
      by_contra hne; exact hset hne
    rw [handle_span_unset _ _ _ _ _ _ _ _ _ hspan] at herr hout ⊢
    split at herr
    · simp at herr
    · split at herr
      · simp at herr
      · split at herr
        · rename_i h1 h2 h3
          rw [if_neg h1, if_neg h2, if_pos h3]
          rfl
        · rename_i h1 h2 h3
          rw [if_neg h1, if_neg h2, if_neg h3] at hout
          have hl := global_loop_codes scan hcodes mem section_end _ _ _ _ _ _ _ err code hout
          rw [herr] at hl
          rcases hl with hl | hl | hl | ⟨n, hl⟩ <;> simp at hl

/-- Witness of C6: the count 0xFFFFFFFF with one imported global. -/
theorem C6_overflow_context_witness :
    (handle_binfmt_ver1_extensible_section_define 0xFFFFFFFFFFFFFFFF read_leb128_u32
      scan_global_type (memory_of 100 [0xFF, 0xFF, 0xFF, 0xFF, 0x0F])
      (module_storage_t.fresh [[], [], [], [7]]) 100 105 error_impl.zero 98).err.err_selectable =
      err_selectable_t.imp_def_num_exceed_u32max 0x03
        (read_leb128_u32 (memory_of 100 [0xFF, 0xFF, 0xFF, 0xFF, 0x0F]) 100 105).value
        (((module_storage_t.fresh [[], [], [], [7]]).importsec.importdesc.getD 3 []).length %
          wasm_u32_size) :=
  C6_overflow_context 0xFFFFFFFFFFFFFFFF read_leb128_u32 scan_global_type
    scan_global_type_codes (memory_of 100 [0xFF, 0xFF, 0xFF, 0xFF, 0x0F])
    (module_storage_t.fresh [[], [], [], [7]]) 100 105 error_impl.zero 98 parse_code.invalid
    (by decide) (by decide)

/-- C7: when the span of the global section is already set, the call throws with
`duplicate_section`, `err_curr` at the section-id byte handed in and the id of the
global section in `u8`, whatever the slice, the buffer and the imports are; the
result depends on nothing else, no other check having run. -/
theorem C7_duplicate_section (size_t_max : Nat) (parse_leb128 : leb128_reader)
    (scan : global_type_scanner) (mem : Memory) (module_storage : module_storage_t)
    (section_begin section_end : Nat) (err : error_impl) (sec_id_module_ptr : Nat)
    (hset : module_storage.globalsec.sec_span.sec_begin ≠ 0) :
    handle_binfmt_ver1_extensible_section_define size_t_max parse_leb128 scan mem
        module_storage section_begin section_end err sec_id_module_ptr =
      ⟨module_storage,
        ⟨sec_id_module_ptr, err_selectable_t.u8 global_section_id,
          wasm_parse_error_code.duplicate_section⟩,
        outcome.thrown parse_code.invalid⟩ :=
  handle_span_set size_t_max parse_leb128 scan mem module_storage section_begin section_end
    err sec_id_module_ptr hset

/-- Witness of C7: an empty slice given to a storage whose span is set. -/
theorem C7_duplicate_section_witness :
    handle_binfmt_ver1_extensible_section_define 0xFFFFFFFFFFFFFFFF read_leb128_u32
        scan_global_type (memory_of 100 []) ⟨⟨[[], [], [], []]⟩, ⟨⟨50, 60⟩, []⟩⟩ 100 100
        error_impl.zero 98 =
      ⟨⟨⟨[[], [], [], []]⟩, ⟨⟨50, 60⟩, []⟩⟩,
        ⟨98, err_selectable_t.u8 global_section_id, wasm_parse_error_code.duplicate_section⟩,
        outcome.thrown parse_code.invalid⟩ :=
  C7_duplicate_section 0xFFFFFFFFFFFFFFFF read_leb128_u32 scan_global_type (memory_of 100 [])
    ⟨⟨[[], [], [], []]⟩, ⟨⟨50, 60⟩, []⟩⟩ 100 100 error_impl.zero 98 (by decide)

/-- C8: a call that throws with `duplicate_section` found the span already set and
leaves the module storage as it was: the span recorded by the earlier call and the
entries stored by it are unchanged (the span is written only by a call that finds it
unset). -/
theorem C8_duplicate_leaves_storage (size_t_max : Nat) (parse_leb128 : leb128_reader)
    (scan : global_type_scanner) (hcodes : scanner_codes scan) (mem : Memory)
    (module_storage : module_storage_t) (section_begin section_end : Nat)
    (err : error_impl) (sec_id_module_ptr : Nat) (code : parse_code)
    (hout : (handle_binfmt_ver1_extensible_section_define size_t_max parse_leb128 scan mem
      module_storage section_begin section_end err sec_id_module_ptr).out =
        outcome.thrown code)
    (herr : (handle_binfmt_ver1_extensible_section_define size_t_max parse_leb128 scan mem
      module_storage section_begin section_end err sec_id_module_ptr).err.err_code =
        wasm_parse_error_code.duplicate_section) :
    module_storage.globalsec.sec_span.sec_begin ≠ 0 ∧
    (handle_binfmt_ver1_extensible_section_define size_t_max parse_leb128 scan mem
      module_storage section_begin section_end err sec_id_module_ptr).module_storage =
        module_storage := by
  by_cases hset : module_storage.globalsec.sec_span.sec_begin ≠ 0
  · refine ⟨hset, ?_⟩
    rw [handle_span_set _ _ _ _ _ _ _ _ _ hset]
  · have hspan : module_storage.globalsec.sec_span.sec_begin = 0 := by
      by_contra hne; exact hset hne
    exfalso
    rw [handle_span_unset _ _ _ _ _ _ _ _ _ hspan] at herr hout
    split at herr
    · simp at herr
    · split at herr
      · simp at herr
      · split at herr
        · simp at herr
        · rename_i h1 h2 h3
          rw [if_neg h1, if_neg h2, if_neg h3] at hout
          have hl := global_loop_codes scan hcodes mem section_end _ _ _ _ _ _ _ err code hout
          rw [herr] at hl
          rcases hl with hl | hl | hl | ⟨n, hl⟩ <;> simp at hl

/-- Witness of C8: a second call on a storage that holds one decoded entry. -/
theorem C8_duplicate_leaves_storage_witness :
    (⟨⟨[[], [], [], []]⟩, ⟨⟨100, 106⟩, [⟨⟨0x7F, false⟩, ⟨103, 106⟩⟩]⟩⟩ :
      module_storage_t).globalsec.sec_span.sec_begin ≠ 0 ∧
    (handle_binfmt_ver1_extensible_section_define 0xFFFFFFFFFFFFFFFF read_leb128_u32
      scan_global_type (memory_of 100 [0x01, 0x7F, 0x00, 0x41, 0x05, 0x0B])
      ⟨⟨[[], [], [], []]⟩, ⟨⟨100, 106⟩, [⟨⟨0x7F, false⟩, ⟨103, 106⟩⟩]⟩⟩ 100 106
      error_impl.zero 98).module_storage =
        ⟨⟨[[], [], [], []]⟩, ⟨⟨100, 106⟩, [⟨⟨0x7F, false⟩, ⟨103, 106⟩⟩]⟩⟩ :=
  C8_duplicate_leaves_storage 0xFFFFFFFFFFFFFFFF read_leb128_u32 scan_global_type
    scan_global_type_codes (memory_of 100 [0x01, 0x7F, 0x00, 0x41, 0x05, 0x0B])
    ⟨⟨[[], [], [], []]⟩, ⟨⟨100, 106⟩, [⟨⟨0x7F, false⟩, ⟨103, 106⟩⟩]⟩⟩ 100 106
    error_impl.zero 98 parse_code.invalid (by decide) (by decide)

/-- C9: of two consecutive calls on the same module storage, the first given a
non-null `section_begin`, the second throws with `duplicate_section` and leaves the
storage as the first call left it, however the first call ended (normal return or
any error, under any callees and on any bytes) and whatever the second call is
given. -/
theorem C9_second_call_is_duplicate (size_t_max1 size_t_max2 : Nat)
    (parse_leb128_1 parse_leb128_2 : leb128_reader) (scan1 scan2 : global_type_scanner)
    (mem1 mem2 : Memory) (module_storage : module_storage_t)
    (section_begin1 section_end1 section_begin2 section_end2 : Nat)
    (err1 err2 : error_impl) (sec_id_module_ptr1 sec_id_module_ptr2 : Nat)
    (hnonnull : section_begin1 ≠ 0) :
    handle_binfmt_ver1_extensible_section_define size_t_max2 parse_leb128_2 scan2 mem2
        (handle_binfmt_ver1_extensible_section_define size_t_max1 parse_leb128_1 scan1 mem1
          module_storage section_begin1 section_end1 err1 sec_id_module_ptr1).module_storage
        section_begin2 section_end2 err2 sec_id_module_ptr2 =
      ⟨(handle_binfmt_ver1_extensible_section_define size_t_max1 parse_leb128_1 scan1 mem1
          module_storage section_begin1 section_end1 err1 sec_id_module_ptr1).module_storage,
        ⟨sec_id_module_ptr2, err_selectable_t.u8 global_section_id,
          wasm_parse_error_code.duplicate_section⟩,
        outcome.thrown parse_code.invalid⟩ :=
  handle_span_set size_t_max2 parse_leb128_2 scan2 mem2 _ section_begin2 section_end2 err2
    sec_id_module_ptr2
    (span_set_after_call size_t_max1 parse_leb128_1 scan1 mem1 module_storage section_begin1
      section_end1 err1 sec_id_module_ptr1 (Or.inr hnonnull))

/-- Witness of C9: a first call that fails at the count (empty slice at address
100), then a call on a well-formed section at address 200. -/
theorem C9_second_call_is_duplicate_witness :
    handle_binfmt_ver1_extensible_section_define 0xFFFFFFFFFFFFFFFF read_leb128_u32
        scan_global_type (memory_of 200 [0x01, 0x7F, 0x00, 0x41, 0x05, 0x0B])
        (handle_binfmt_ver1_extensible_section_define 0xFFFFFFFFFFFFFFFF read_leb128_u32
          scan_global_type (memory_of 100 []) (module_storage_t.fresh [[], [], [], []])
          100 100 error_impl.zero 98).module_storage
        200 206 error_impl.zero 198 =
      ⟨(handle_binfmt_ver1_extensible_section_define 0xFFFFFFFFFFFFFFFF read_leb128_u32
          scan_global_type (memory_of 100 []) (module_storage_t.fresh [[], [], [], []])
          100 100 error_impl.zero 98).module_storage,
        ⟨198, err_selectable_t.u8 global_section_id,
          wasm_parse_error_code.duplicate_section⟩,
        outcome.thrown parse_code.invalid⟩ :=
  C9_second_call_is_duplicate 0xFFFFFFFFFFFFFFFF 0xFFFFFFFFFFFFFFFF read_leb128_u32
    read_leb128_u32 scan_global_type scan_global_type (memory_of 100 [])
    (memory_of 200 [0x01, 0x7F, 0x00, 0x41, 0x05, 0x0B])
    (module_storage_t.fresh [[], [], [], []]) 100 100 200 206 error_impl.zero error_impl.zero
    98 198 (by decide)

/-- C10: when the count checks pass and, for an entry that the loop reaches within
the declared count, no byte equal to `0x0B` lies between the end of its type
descriptor and `section_end` (the descriptor may end exactly at `section_end`), the
decoder throws with `global_init_terminator_not_found` and `err_curr` at
`section_end`. -/
theorem C10_terminator_not_found (size_t_max : Nat) (parse_leb128 : leb128_reader)
    (scan : global_type_scanner) (hreader : reader_in_bounds parse_leb128)
    (hscan : scanner_in_bounds scan) (mem : Memory) (module_storage : module_storage_t)
    (section_begin section_end : Nat) (err : error_impl) (sec_id_module_ptr : Nat)
    (k : Nat) (es : List final_local_global_type) (entry_begin : Nat)
    (global_r : global_type) (type_end : Nat)
    (hspan : module_storage.globalsec.sec_span.sec_begin = 0)
    (hle : section_begin ≤ section_end)
    (hcode : (parse_leb128 mem section_begin section_end).code = parse_code.ok)
    (hplat : ¬ (size_t_max < wasm_u32_max ∧
      (parse_leb128 mem section_begin section_end).value > size_t_max))
    (himp : ¬ (parse_leb128 mem section_begin section_end).value >
      wasm_u32_max - imported_global_size module_storage.importsec)
    (hentries : entries_from scan mem section_end err k
      (parse_leb128 mem section_begin section_end).iter = some (es, entry_begin))
    (hk : k < (parse_leb128 mem section_begin section_end).value)
    (hmore : entry_begin ≠ section_end)
    (htype : global_section_global_handler scan mem entry_begin section_end err =
      scan_result.ok global_r type_end)
    (hno : ∀ q, type_end ≤ q → q < section_end → mem q ≠ 0x0B) :
    handle_binfmt_ver1_extensible_section_define size_t_max parse_leb128 scan mem
        module_storage section_begin section_end err sec_id_module_ptr =
      ⟨⟨module_storage.importsec,
          ⟨⟨section_begin, section_end⟩, module_storage.globalsec.local_globals ++ es⟩⟩,
        ⟨section_end, err.err_selectable,
          wasm_parse_error_code.global_init_terminator_not_found⟩,
        outcome.thrown parse_code.invalid⟩ := by
  obtain ⟨hi1, hi2, hval⟩ := hreader mem section_begin section_end hle hcode
  rw [handle_span_unset _ _ _ _ _ _ _ _ _ hspan]
  rw [if_neg (by simp [hcode]), if_neg hplat, if_neg himp]
  obtain ⟨fuel1, hf1, hs1, hs2, heq⟩ := global_loop_entries scan hscan mem section_end
    (parse_leb128 mem section_begin section_end).value (section_end - section_begin + 1)
    module_storage.importsec err hval k (section_end - section_begin + 1)
    (parse_leb128 mem section_begin section_end).iter 0
    ⟨⟨section_begin, section_end⟩, module_storage.globalsec.local_globals⟩ es entry_begin
    hi2 (by omega) (by omega) (by omega) hentries
  rw [heq]
  obtain ⟨ht1, ht2⟩ := hscan mem entry_begin section_end err global_r type_end (by omega) htype
  have hterm := find_terminator_absent mem section_end (section_end - section_begin + 1)
    type_end ht2 (by omega) hno
  cases fuel1 with
  | zero => omega
  | succ fuel1 =>
    have hmod : (0 + k + 1) % wasm_u32_size = k + 1 := by
      rw [Nat.zero_add]
      exact Nat.mod_eq_of_lt (by unfold wasm_u32_size; unfold wasm_u32_max at hval; omega)
    rw [global_loop]
    rw [if_neg hmore]
    simp only [hmod]
    rw [if_neg (by omega)]
    simp only [htype, hterm]

/-- Witness of C10: the bytes `01 7F 00 41 05` (no `0x0B` after the type descriptor)
fail at section offset 5. -/
theorem C10_terminator_not_found_witness :
    handle_binfmt_ver1_extensible_section_define 0xFFFFFFFFFFFFFFFF read_leb128_u32
        scan_global_type (memory_of 100 [0x01, 0x7F, 0x00, 0x41, 0x05])
        (module_storage_t.fresh [[], [], [], []]) 100 105 error_impl.zero 98 =
      ⟨⟨⟨[[], [], [], []]⟩, ⟨⟨100, 105⟩, [] ++ []⟩⟩,
        ⟨105, err_selectable_t.unset,
          wasm_parse_error_code.global_init_terminator_not_found⟩,
        outcome.thrown parse_code.invalid⟩ :=
  C10_terminator_not_found 0xFFFFFFFFFFFFFFFF read_leb128_u32 scan_global_type
    read_leb128_u32_in_bounds scan_global_type_in_bounds
    (memory_of 100 [0x01, 0x7F, 0x00, 0x41, 0x05])
    (module_storage_t.fresh [[], [], [], []]) 100 105 error_impl.zero 98 0 [] 101
    ⟨0x7F, false⟩ 103 rfl (by decide) (by decide) (by decide) (by decide) (by decide)
    (by decide) (by decide) (by decide)
    (by
      intro q h1 h2
      have hq : q = 103 ∨ q = 104 := by omega
      rcases hq with hq | hq <;> subst hq <;> decide)

/-- C11: the outcome of the decoder depends on the buffer only through the bytes of
[`section_begin`, `section_end`): two calls on buffers that agree there (and may
differ anywhere else), on storages with the same imported-global count, the same
span state and the same stored entries, end the same way, leave the same `err`
(code, position and context) and the same entries with the same spans; and every
entry stored by a call that found the span unset ends at or before `section_end`
with the byte `0x0B` as its last byte, so no `0x0B` at or after `section_end`
terminates an initializer expression. The callees are taken to read only inside
the range they are given and to keep the cursor inside it. -/
theorem C11_bytes_outside_slice_irrelevant (size_t_max : Nat) (parse_leb128 : leb128_reader)
    (scan : global_type_scanner) (hreader : reader_in_bounds parse_leb128)
    (hscan : scanner_in_bounds scan) (hrlocal : reader_local parse_leb128)
    (hslocal : scanner_local scan) (mem1 mem2 : Memory)
    (module_storage1 module_storage2 : module_storage_t)
    (section_begin section_end : Nat) (err : error_impl) (sec_id_module_ptr : Nat)
    (hle : section_begin ≤ section_end)
    (hagree : agree_on mem1 mem2 section_begin section_end)
    (himp : imported_global_size module_storage1.importsec =
      imported_global_size module_storage2.importsec)
    (hset : module_storage1.globalsec.sec_span.sec_begin = 0 ↔
      module_storage2.globalsec.sec_span.sec_begin = 0)
    (hentries : module_storage1.globalsec.local_globals =
      module_storage2.globalsec.local_globals) :
    (handle_binfmt_ver1_extensible_section_define size_t_max parse_leb128 scan mem1
        module_storage1 section_begin section_end err sec_id_module_ptr).out =
      (handle_binfmt_ver1_extensible_section_define size_t_max parse_leb128 scan mem2
        module_storage2 section_begin section_end err sec_id_module_ptr).out ∧
    (handle_binfmt_ver1_extensible_section_define size_t_max parse_leb128 scan mem1
        module_storage1 section_begin section_end err sec_id_module_ptr).err =
      (handle_binfmt_ver1_extensible_section_define size_t_max parse_leb128 scan mem2
        module_storage2 section_begin section_end err sec_id_module_ptr).err ∧
    (handle_binfmt_ver1_extensible_section_define size_t_max parse_leb128 scan mem1
        module_storage1 section_begin section_end err
        sec_id_module_ptr).module_storage.globalsec.local_globals =
      (handle_binfmt_ver1_extensible_section_define size_t_max parse_leb128 scan mem2
        module_storage2 section_begin section_end err
        sec_id_module_ptr).module_storage.globalsec.local_globals ∧
    (module_storage1.globalsec.sec_span.sec_begin = 0 →
      ∃ es, (handle_binfmt_ver1_extensible_section_define size_t_max parse_leb128 scan mem1
          module_storage1 section_begin section_end err
          sec_id_module_ptr).module_storage.globalsec.local_globals =
            module_storage1.globalsec.local_globals ++ es ∧
        ∀ x ∈ es, section_begin ≤ x.expr.begin ∧ x.expr.begin < x.expr.end_ ∧
          x.expr.end_ ≤ section_end ∧ mem1 (x.expr.end_ - 1) = 0x0B) := by
  by_cases hs1 : module_storage1.globalsec.sec_span.sec_begin = 0
  · have hs2 := hset.mp hs1
    rw [handle_span_unset _ _ _ _ _ _ _ _ _ hs1, handle_span_unset _ _ _ _ _ _ _ _ _ hs2]
    rw [← hrlocal mem1 mem2 section_begin section_end hle hagree, ← himp, ← hentries]
    by_cases h1 : (parse_leb128 mem1 section_begin section_end).code ≠ parse_code.ok
    · rw [if_pos h1, if_pos h1]
      exact ⟨rfl, rfl, rfl, fun _ => ⟨[], by simp, by simp⟩⟩
    · rw [if_neg h1, if_neg h1]
      have hcode : (parse_leb128 mem1 section_begin section_end).code = parse_code.ok := by
        by_contra hne; exact h1 hne
      obtain ⟨hi1, hi2, _⟩ := hreader mem1 section_begin section_end hle hcode
      by_cases h2 : size_t_max < wasm_u32_max ∧
          (parse_leb128 mem1 section_begin section_end).value > size_t_max
      · rw [if_pos h2, if_pos h2]
        exact ⟨rfl, rfl, rfl, fun _ => ⟨[], by simp, by simp⟩⟩
      · rw [if_neg h2, if_neg h2]
        by_cases h3 : (parse_leb128 mem1 section_begin section_end).value >
            wasm_u32_max - imported_global_size module_storage1.importsec
        · rw [if_pos h3, if_pos h3]
          exact ⟨rfl, rfl, rfl, fun _ => ⟨[], by simp, by simp⟩⟩
        · rw [if_neg h3, if_neg h3]
          obtain ⟨a1, a2, a3⟩ := global_loop_agree scan hscan hslocal mem1 mem2 section_end
            (parse_leb128 mem1 section_begin section_end).value
            (section_end - section_begin + 1) module_storage1.importsec
            module_storage2.importsec (section_end - section_begin + 1)
            (parse_leb128 mem1 section_begin section_end).iter 0
            ⟨⟨section_begin, section_end⟩, module_storage1.globalsec.local_globals⟩
            ⟨⟨section_begin, section_end⟩, module_storage1.globalsec.local_globals⟩ err hi2
            (agree_on_sub mem1 mem2 section_begin _ section_end hagree hi1) rfl
          refine ⟨a1, a2, a3, fun _ => ?_⟩
          obtain ⟨es, hes, hall⟩ := global_loop_stored_in_bounds scan hscan mem1 section_end
            (parse_leb128 mem1 section_begin section_end).value
            (section_end - section_begin + 1) module_storage1.importsec
            (section_end - section_begin + 1)
            (parse_leb128 mem1 section_begin section_end).iter 0
            ⟨⟨section_begin, section_end⟩, module_storage1.globalsec.local_globals⟩ err hi2
          refine ⟨es, hes, fun x hx => ?_⟩
          obtain ⟨b1, b2, b3, b4⟩ := hall x hx
          exact ⟨by omega, b2, b3, b4⟩
  · have hs2 : ¬ module_storage2.globalsec.sec_span.sec_begin = 0 := fun h => hs1 (hset.mpr h)
    rw [handle_span_set _ _ _ _ _ _ _ _ _ hs1, handle_span_set _ _ _ _ _ _ _ _ _ hs2]
    exact ⟨rfl, rfl, hentries, fun h => absurd h hs1⟩

/-- Witness of C11: the section `01 7F 00 41 0B` at address 100, once followed by
`0B 0B` and once by `FF FF`, decodes to the same result. -/
theorem C11_bytes_outside_slice_irrelevant_witness :
    (handle_binfmt_ver1_extensible_section_define 0xFFFFFFFFFFFFFFFF read_leb128_u32
        scan_global_type (memory_of 100 [0x01, 0x7F, 0x00, 0x41, 0x0B, 0x0B, 0x0B])
        (module_storage_t.fresh [[], [], [], []]) 100 105 error_impl.zero 98).module_storage.globalsec.local_globals =
      (handle_binfmt_ver1_extensible_section_define 0xFFFFFFFFFFFFFFFF read_leb128_u32
        scan_global_type (memory_of 100 [0x01, 0x7F, 0x00, 0x41, 0x0B, 0xFF, 0xFF])
        (module_storage_t.fresh [[], [], [], []]) 100 105 error_impl.zero 98).module_storage.globalsec.local_globals :=
  (C11_bytes_outside_slice_irrelevant 0xFFFFFFFFFFFFFFFF read_leb128_u32 scan_global_type
    read_leb128_u32_in_bounds scan_global_type_in_bounds read_leb128_u32_local
    scan_global_type_local (memory_of 100 [0x01, 0x7F, 0x00, 0x41, 0x0B, 0x0B, 0x0B])
    (memory_of 100 [0x01, 0x7F, 0x00, 0x41, 0x0B, 0xFF, 0xFF])
    (module_storage_t.fresh [[], [], [], []]) (module_storage_t.fresh [[], [], [], []])
    100 105 error_impl.zero 98 (by decide)
    (by
      intro a h1 h2
      have ha : a = 100 ∨ a = 101 ∨ a = 102 ∨ a = 103 ∨ a = 104 := by omega
      rcases ha with ha | ha | ha | ha | ha <;> subst ha <;> decide)
    rfl Iff.rfl rfl).2.2.1

/-- C12: every entry that a call stores (whether the call then returns or throws)
has the `expr` span [after-type-descriptor, terminator + 1): `expr.begin` is the
position that the entry-type decoder returned for that entry, `expr.end_` is one
past the first byte `0x0B` at or after it, which ended the scan before
`section_end`; so the span is not empty and its last byte is `0x0B`. -/
theorem C12_expr_span_of_stored_entries (size_t_max : Nat) (parse_leb128 : leb128_reader)
    (scan : global_type_scanner) (mem : Memory) (module_storage : module_storage_t)
    (section_begin section_end : Nat) (err : error_impl) (sec_id_module_ptr : Nat) :
    ∃ es, (handle_binfmt_ver1_extensible_section_define size_t_max parse_leb128 scan mem
        module_storage section_begin section_end err
        sec_id_module_ptr).module_storage.globalsec.local_globals =
          module_storage.globalsec.local_globals ++ es ∧
      ∀ x ∈ es,
        (∃ entry_begin, entry_begin ≠ section_end ∧
          global_section_global_handler scan mem entry_begin section_end err =
            scan_result.ok x.global x.expr.begin) ∧
        x.expr.begin < x.expr.end_ ∧ mem (x.expr.end_ - 1) = 0x0B ∧
        x.expr.end_ - 1 ≠ section_end ∧
        (∀ q, x.expr.begin ≤ q → q < x.expr.end_ - 1 → mem q ≠ 0x0B) := by
  unfold handle_binfmt_ver1_extensible_section_define
  simp only []
  split
  · exact ⟨[], by simp, by simp⟩
  · split
    · exact ⟨[], by simp, by simp⟩
    · split
      · exact ⟨[], by simp, by simp⟩
      · split
        · exact ⟨[], by simp, by simp⟩
        · obtain ⟨es, hes, hall⟩ := global_loop_stored scan mem section_end
            (parse_leb128 mem section_begin section_end).value
            (section_end - section_begin + 1) module_storage.importsec
            (section_end - section_begin + 1)
            (parse_leb128 mem section_begin section_end).iter 0
            ⟨⟨section_begin, section_end⟩, module_storage.globalsec.local_globals⟩ err
          refine ⟨es, hes, fun x hx => ?_⟩
          obtain ⟨s, t, h1, h2, h3, h4, h5, h6, h7⟩ := hall x hx
          rw [h7]
          exact ⟨⟨s, h1, h2⟩, by omega, by simpa using h4, by simpa using h5,
            fun q hq1 hq2 => h6 q hq1 (by simpa using hq2)⟩

/-- C13: after a call that returns normally on the slice (`section_begin`,
`section_end`), the recorded `sec_span` is exactly that pair. -/
theorem C13_span_recorded_on_success (size_t_max : Nat) (parse_leb128 : leb128_reader)
    (scan : global_type_scanner) (mem : Memory) (module_storage : module_storage_t)
    (section_begin section_end : Nat) (err : error_impl) (sec_id_module_ptr : Nat)
    (hret : (handle_binfmt_ver1_extensible_section_define size_t_max parse_leb128 scan mem
      module_storage section_begin section_end err sec_id_module_ptr).out =
        outcome.returned) :
    (handle_binfmt_ver1_extensible_section_define size_t_max parse_leb128 scan mem
      module_storage section_begin section_end err
      sec_id_module_ptr).module_storage.globalsec.sec_span = ⟨section_begin, section_end⟩ := by
  by_cases hset : module_storage.globalsec.sec_span.sec_begin ≠ 0
  · rw [handle_span_set _ _ _ _ _ _ _ _ _ hset] at hret
    simp at hret
  · have hspan : module_storage.globalsec.sec_span.sec_begin = 0 := by
      by_contra hne; exact hset hne
    rw [handle_span_unset _ _ _ _ _ _ _ _ _ hspan] at hret ⊢
    split
    · rfl
    · split
      · rfl
      · split
        · rfl
        · exact (global_loop_frame scan mem section_end _ _ _ _ _ _ _ err).2.1

/-- Witness of C13: the section `01 7F 00 41 05 0B` at address 100. -/
theorem C13_span_recorded_on_success_witness :
    (handle_binfmt_ver1_extensible_section_define 0xFFFFFFFFFFFFFFFF read_leb128_u32
      scan_global_type (memory_of 100 [0x01, 0x7F, 0x00, 0x41, 0x05, 0x0B])
      (module_storage_t.fresh [[], [], [], []]) 100 106 error_impl.zero
      98).module_storage.globalsec.sec_span = ⟨100, 106⟩ :=
  C13_span_recorded_on_success 0xFFFFFFFFFFFFFFFF read_leb128_u32 scan_global_type
    (memory_of 100 [0x01, 0x7F, 0x00, 0x41, 0x05, 0x0B])
    (module_storage_t.fresh [[], [], [], []]) 100 106 error_impl.zero 98 (by decide)

/-- C14: on a section whose span is not yet set, whenever the LEB128 read of the
entry count does not yield `parse_code::ok`, whatever the code, the decoder throws
that code with `invalid_global_count` and `err_curr` at `section_begin` (the span
being recorded, no entry stored, the context untouched); and on an empty slice
(`section_begin` equal to `section_end`) the reader fails with `end_of_file`, so
the call fails this way instead of returning with zero entries. -/
theorem C14_count_decode_failure (size_t_max : Nat) (parse_leb128 : leb128_reader)
    (scan : global_type_scanner) (mem : Memory) (module_storage : module_storage_t)
    (section_begin section_end : Nat) (err : error_impl) (sec_id_module_ptr : Nat)
    (hspan : module_storage.globalsec.sec_span.sec_begin = 0)
    (hfail : (parse_leb128 mem section_begin section_end).code ≠ parse_code.ok) :
    handle_binfmt_ver1_extensible_section_define size_t_max parse_leb128 scan mem
        module_storage section_begin section_end err sec_id_module_ptr =
      ⟨⟨module_storage.importsec,
          ⟨⟨section_begin, section_end⟩, module_storage.globalsec.local_globals⟩⟩,
        ⟨section_begin, err.err_selectable, wasm_parse_error_code.invalid_global_count⟩,
        outcome.thrown (parse_leb128 mem section_begin section_end).code⟩ ∧
    handle_binfmt_ver1_extensible_section_define size_t_max read_leb128_u32 scan mem
        module_storage section_begin section_begin err sec_id_module_ptr =
      ⟨⟨module_storage.importsec,
          ⟨⟨section_begin, section_begin⟩, module_storage.globalsec.local_globals⟩⟩,
        ⟨section_begin, err.err_selectable, wasm_parse_error_code.invalid_global_count⟩,
        outcome.thrown parse_code.end_of_file⟩ := by
  constructor
  · rw [handle_span_unset _ _ _ _ _ _ _ _ _ hspan, if_pos hfail]
  · have hr : read_leb128_u32 mem section_begin section_begin =
        ⟨section_begin, parse_code.end_of_file, 0⟩ := by
      simp [read_leb128_u32, leb128_scan]
    rw [handle_span_unset _ _ _ _ _ _ _ _ _ hspan, hr, if_pos (by simp)]

/-- Witness of C14: the count field `80` (continuation bit set, then the slice
ends) at address 100. -/
theorem C14_count_decode_failure_witness :
    handle_binfmt_ver1_extensible_section_define 0xFFFFFFFFFFFFFFFF read_leb128_u32
        scan_global_type (memory_of 100 [0x80]) (module_storage_t.fresh [[], [], [], []])
        100 101 error_impl.zero 98 =
      ⟨⟨⟨[[], [], [], []]⟩, ⟨⟨100, 101⟩, []⟩⟩,
        ⟨100, err_selectable_t.unset, wasm_parse_error_code.invalid_global_count⟩,
        outcome.thrown (read_leb128_u32 (memory_of 100 [0x80]) 100 101).code⟩ :=
  (C14_count_decode_failure 0xFFFFFFFFFFFFFFFF read_leb128_u32 scan_global_type
    (memory_of 100 [0x80]) (module_storage_t.fresh [[], [], [], []]) 100 101
    error_impl.zero 98 rfl (by decide)).1

/-- C15: on a target whose `size_t` is narrower than 32 bits, a declared count above
the maximum `size_t` value makes the decoder throw with
`size_exceeds_the_maximum_value_of_size_t`, `err_curr` at `section_begin` and the
count in `u64`, whatever the imported-global count is (the import check has not
run) and with no entry stored; on a target whose `size_t` has at least 32 bits no
throwing call reports this code. -/
theorem C15_platform_width_check (size_t_max : Nat) (parse_leb128 : leb128_reader)
    (scan : global_type_scanner) (hcodes : scanner_codes scan) (mem : Memory)
    (module_storage : module_storage_t) (section_begin section_end : Nat)
    (err : error_impl) (sec_id_module_ptr : Nat) :
    (size_t_max < wasm_u32_max → module_storage.globalsec.sec_span.sec_begin = 0 →
      (parse_leb128 mem section_begin section_end).code = parse_code.ok →
      (parse_leb128 mem section_begin section_end).value > size_t_max →
      handle_binfmt_ver1_extensible_section_define size_t_max parse_leb128 scan mem
          module_storage section_begin section_end err sec_id_module_ptr =
        ⟨⟨module_storage.importsec,
            ⟨⟨section_begin, section_end⟩, module_storage.globalsec.local_globals⟩⟩,
          ⟨section_begin,
            err_selectable_t.u64 (parse_leb128 mem section_begin section_end).value,
            wasm_parse_error_code.size_exceeds_the_maximum_value_of_size_t⟩,
          outcome.thrown parse_code.invalid⟩) ∧
    (wasm_u32_max ≤ size_t_max → ∀ code,
      (handle_binfmt_ver1_extensible_section_define size_t_max parse_leb128 scan mem
        module_storage section_begin section_end err sec_id_module_ptr).out =
          outcome.thrown code →
      (handle_binfmt_ver1_extensible_section_define size_t_max parse_leb128 scan mem
        module_storage section_begin section_end err sec_id_module_ptr).err.err_code ≠
          wasm_parse_error_code.size_exceeds_the_maximum_value_of_size_t) := by
  constructor
  · intro hnarrow hspan hcode hbig
    rw [handle_span_unset _ _ _ _ _ _ _ _ _ hspan, if_neg (by simp [hcode]),
      if_pos ⟨hnarrow, hbig⟩]
  · intro hwide code hout herr
    by_cases hset : module_storage.globalsec.sec_span.sec_begin ≠ 0
    · rw [handle_span_set _ _ _ _ _ _ _ _ _ hset] at herr
      simp at herr
    · have hspan : module_storage.globalsec.sec_span.sec_begin = 0 := by
        by_contra hne; exact hset hne
      rw [handle_span_unset _ _ _ _ _ _ _ _ _ hspan] at herr hout
      split at herr
      · simp at herr
      · split at herr
        · rename_i h1 h2
          omega
        · split at herr
          · simp at herr
          · rename_i h1 h2 h3
            rw [if_neg h1, if_neg h2, if_neg h3] at hout
            have hl := global_loop_codes scan hcodes mem section_end _ _ _ _ _ _ _ err code hout
            rw [herr] at hl
            rcases hl with hl | hl | hl | ⟨n, hl⟩ <;> simp at hl

/-- Witness of C15: the count 0xFFFFFFFF with one imported global on a target whose
`size_t` has 16 bits, and the same call on a 64-bit target, which reports another
code. -/
theorem C15_platform_width_check_witness :
    handle_binfmt_ver1_extensible_section_define 0xFFFF read_leb128_u32 scan_global_type
        (memory_of 100 [0xFF, 0xFF, 0xFF, 0xFF, 0x0F])
        (module_storage_t.fresh [[], [], [], [7]]) 100 105 error_impl.zero 98 =
      ⟨⟨⟨[[], [], [], [7]]⟩, ⟨⟨100, 105⟩, []⟩⟩,
        ⟨100,
          err_selectable_t.u64
            (read_leb128_u32 (memory_of 100 [0xFF, 0xFF, 0xFF, 0xFF, 0x0F]) 100 105).value,
          wasm_parse_error_code.size_exceeds_the_maximum_value_of_size_t⟩,
        outcome.thrown parse_code.invalid⟩ ∧
    (handle_binfmt_ver1_extensible_section_define 0xFFFFFFFFFFFFFFFF read_leb128_u32
        scan_global_type (memory_of 100 [0xFF, 0xFF, 0xFF, 0xFF, 0x0F])
        (module_storage_t.fresh [[], [], [], [7]]) 100 105 error_impl.zero 98).err.err_code ≠
      wasm_parse_error_code.size_exceeds_the_maximum_value_of_size_t :=
  ⟨(C15_platform_width_check 0xFFFF read_leb128_u32 scan_global_type scan_global_type_codes
      (memory_of 100 [0xFF, 0xFF, 0xFF, 0xFF, 0x0F])
      (module_storage_t.fresh [[], [], [], [7]]) 100 105 error_impl.zero 98).1
      (by decide) rfl (by decide) (by decide),
    (C15_platform_width_check 0xFFFFFFFFFFFFFFFF read_leb128_u32 scan_global_type
      scan_global_type_codes (memory_of 100 [0xFF, 0xFF, 0xFF, 0xFF, 0x0F])
      (module_storage_t.fresh [[], [], [], [7]]) 100 105 error_impl.zero 98).2
      (by decide) parse_code.invalid (by decide)⟩

/-- C16: on a slice of at most `0xFFFFFFFF` bytes (a section is cut by its 32-bit
size field, so no longer slice reaches the decoder), when the call returns normally
the slice has been consumed exactly: the count field is followed by the
declared number of entries, each a type descriptor immediately followed by its
`expr` span and each beginning where the one before ends (`entries_from`), the last
ending at `section_end`; these are the entries stored, and when at least one is
stored the `expr` span of the last one ends at `section_end`. The callees are taken
to keep the cursor inside the slice. -/
theorem C16_slice_consumed_exactly (size_t_max : Nat) (parse_leb128 : leb128_reader)
    (scan : global_type_scanner) (hreader : reader_in_bounds parse_leb128)
    (hscan : scanner_in_bounds scan) (mem : Memory) (module_storage : module_storage_t)
    (section_begin section_end : Nat) (err : error_impl) (sec_id_module_ptr : Nat)
    (hspan : module_storage.globalsec.sec_span.sec_begin = 0)
    (hle : section_begin ≤ section_end)
    (hsize : section_end - section_begin ≤ 0xFFFFFFFF)
    (hret : (handle_binfmt_ver1_extensible_section_define size_t_max parse_leb128 scan mem
      module_storage section_begin section_end err sec_id_module_ptr).out =
        outcome.returned) :
    ∃ es, (handle_binfmt_ver1_extensible_section_define size_t_max parse_leb128 scan mem
        module_storage section_begin section_end err
        sec_id_module_ptr).module_storage.globalsec.local_globals =
          module_storage.globalsec.local_globals ++ es ∧
      section_begin ≤ (parse_leb128 mem section_begin section_end).iter ∧
      entries_from scan mem section_end err (parse_leb128 mem section_begin section_end).value
        (parse_leb128 mem section_begin section_end).iter = some (es, section_end) ∧
      es.length = (parse_leb128 mem section_begin section_end).value ∧
      (es ≠ [] → (es.getLast?).map (fun x => x.expr.end_) = some section_end) := by
  rw [handle_span_unset _ _ _ _ _ _ _ _ _ hspan] at hret ⊢
  split at hret
  · simp at hret
  · rename_i h1
    have hcode : (parse_leb128 mem section_begin section_end).code = parse_code.ok := by
      by_contra hne; exact h1 hne
    obtain ⟨hi1, hi2, _⟩ := hreader mem section_begin section_end hle hcode
    split at hret
    · simp at hret
    · split at hret
      · simp at hret
      · rename_i h2 h3
        rw [if_neg h1, if_neg h2, if_neg h3]
        obtain ⟨es, last, hes, hstore, hlast⟩ := global_loop_decoded scan hscan mem section_end
          (parse_leb128 mem section_begin section_end).value
          (section_end - section_begin + 1) module_storage.importsec
          (section_end - section_begin + 1)
          (parse_leb128 mem section_begin section_end).iter 0
          ⟨⟨section_begin, section_end⟩, module_storage.globalsec.local_globals⟩ err hi2
          (by omega)
        have hcnt := global_loop_count scan hscan mem section_end
          (parse_leb128 mem section_begin section_end).value
          (section_end - section_begin + 1) module_storage.importsec
          (section_end - section_begin + 1)
          (parse_leb128 mem section_begin section_end).iter 0
          ⟨⟨section_begin, section_end⟩, module_storage.globalsec.local_globals⟩ err hi2
          (by unfold wasm_u32_size; omega) hret
        rw [hstore] at hcnt
        have hlen : es.length = (parse_leb128 mem section_begin section_end).value := by
          simpa using hcnt
        have hl := hlast hret
        subst hl
        rw [hlen] at hes
        obtain ⟨_, _, _, _, _, a6⟩ := entries_from_ordered scan hscan mem last err _ _ es last
          hi2 hes
        exact ⟨es, hstore, hi1, hes, hlen, a6⟩

/-- Witness of C16: the section `01 7F 00 41 05 0B` at address 100. -/
theorem C16_slice_consumed_exactly_witness :
    ∃ es, (handle_binfmt_ver1_extensible_section_define 0xFFFFFFFFFFFFFFFF read_leb128_u32
        scan_global_type (memory_of 100 [0x01, 0x7F, 0x00, 0x41, 0x05, 0x0B])
        (module_storage_t.fresh [[], [], [], []]) 100 106 error_impl.zero
        98).module_storage.globalsec.local_globals =
          (module_storage_t.fresh [[], [], [], []]).globalsec.local_globals ++ es ∧
      100 ≤ (read_leb128_u32 (memory_of 100 [0x01, 0x7F, 0x00, 0x41, 0x05, 0x0B]) 100 106).iter ∧
      entries_from scan_global_type (memory_of 100 [0x01, 0x7F, 0x00, 0x41, 0x05, 0x0B]) 106
        error_impl.zero
        (read_leb128_u32 (memory_of 100 [0x01, 0x7F, 0x00, 0x41, 0x05, 0x0B]) 100 106).value
        (read_leb128_u32 (memory_of 100 [0x01, 0x7F, 0x00, 0x41, 0x05, 0x0B]) 100 106).iter =
          some (es, 106) ∧
      es.length =
        (read_leb128_u32 (memory_of 100 [0x01, 0x7F, 0x00, 0x41, 0x05, 0x0B]) 100 106).value ∧
      (es ≠ [] → (es.getLast?).map (fun x => x.expr.end_) = some 106) :=
  C16_slice_consumed_exactly 0xFFFFFFFFFFFFFFFF read_leb128_u32 scan_global_type
    read_leb128_u32_in_bounds scan_global_type_in_bounds
    (memory_of 100 [0x01, 0x7F, 0x00, 0x41, 0x05, 0x0B])
    (module_storage_t.fresh [[], [], [], []]) 100 106 error_impl.zero 98
    rfl (by decide) (by decide) (by decide)

/-- Counterexample to C17 as stated: the call on `02 7F 00 41 05 0B` (two entries
declared, one present) throws, and afterwards the global section of the storage
holds the span (100, 106) and one entry, where before the call the span was unset
and the entry list empty. -/
theorem C17_counterexample_partial_result :
    (handle_binfmt_ver1_extensible_section_define 0xFFFFFFFFFFFFFFFF read_leb128_u32
      scan_global_type (memory_of 100 [0x02, 0x7F, 0x00, 0x41, 0x05, 0x0B])
      (module_storage_t.fresh [[], [], [], []]) 100 106 error_impl.zero 98).out =
        outcome.thrown parse_code.invalid ∧
    (module_storage_t.fresh [[], [], [], []]).globalsec = ⟨⟨0, 0⟩, []⟩ ∧
    (handle_binfmt_ver1_extensible_section_define 0xFFFFFFFFFFFFFFFF read_leb128_u32
      scan_global_type (memory_of 100 [0x02, 0x7F, 0x00, 0x41, 0x05, 0x0B])
      (module_storage_t.fresh [[], [], [], []]) 100 106 error_impl.zero
      98).module_storage.globalsec = ⟨⟨100, 106⟩, [⟨⟨0x7F, false⟩, ⟨103, 106⟩⟩]⟩ := by
  decide

/-- C17 (amended): a failing call does not undo what it has written. The import
section is never touched; a call that finds the span already set (it fails with
`duplicate_section`) leaves the global section as it was; a failing call that finds
the span unset leaves the span of its own slice recorded and the entry list equal to
the list before the call followed by the entries decoded before the failure. These
are none when the call fails before the loop (count decode, platform limit, import
overflow); otherwise they are the consecutive complete entries read from the end of
the count field up to a cursor `last` (`entries_from`), where the loop fails without
decoding a further entry: `last` is `section_end` and the failure is the count
mismatch, or `last` is before `section_end` and either the exceeded count is
reported at `last`, or the entry-type decoder throws at `last`, or the entry read at
`last` has no terminator before `section_end`. The callees are taken to keep the
cursor inside the slice. -/
theorem C17_state_after_failure (size_t_max : Nat) (parse_leb128 : leb128_reader)
    (scan : global_type_scanner) (hreader : reader_in_bounds parse_leb128)
    (hscan : scanner_in_bounds scan) (mem : Memory) (module_storage : module_storage_t)
    (section_begin section_end : Nat) (err : error_impl) (sec_id_module_ptr : Nat)
    (code : parse_code) (hle : section_begin ≤ section_end)
    (hout : (handle_binfmt_ver1_extensible_section_define size_t_max parse_leb128 scan mem
      module_storage section_begin section_end err sec_id_module_ptr).out =
        outcome.thrown code) :
    (handle_binfmt_ver1_extensible_section_define size_t_max parse_leb128 scan mem
      module_storage section_begin section_end err
      sec_id_module_ptr).module_storage.importsec = module_storage.importsec ∧
    (module_storage.globalsec.sec_span.sec_begin ≠ 0 →
      (handle_binfmt_ver1_extensible_section_define size_t_max parse_leb128 scan mem
        module_storage section_begin section_end err
        sec_id_module_ptr).module_storage.globalsec = module_storage.globalsec) ∧
    (module_storage.globalsec.sec_span.sec_begin = 0 →
      (handle_binfmt_ver1_extensible_section_define size_t_max parse_leb128 scan mem
        module_storage section_begin section_end err
        sec_id_module_ptr).module_storage.globalsec.sec_span = ⟨section_begin, section_end⟩ ∧
      ∃ es,
        (handle_binfmt_ver1_extensible_section_define size_t_max parse_leb128 scan mem
          module_storage section_begin section_end err
          sec_id_module_ptr).module_storage.globalsec.local_globals =
            module_storage.globalsec.local_globals ++ es ∧
        ((es = [] ∧
            ((parse_leb128 mem section_begin section_end).code ≠ parse_code.ok ∨
              (size_t_max < wasm_u32_max ∧
                (parse_leb128 mem section_begin section_end).value > size_t_max) ∨
              (parse_leb128 mem section_begin section_end).value >
                wasm_u32_max - imported_global_size module_storage.importsec)) ∨
          ((parse_leb128 mem section_begin section_end).code = parse_code.ok ∧
            ¬ (size_t_max < wasm_u32_max ∧
              (parse_leb128 mem section_begin section_end).value > size_t_max) ∧
            ¬ (parse_leb128 mem section_begin section_end).value >
              wasm_u32_max - imported_global_size module_storage.importsec ∧
            ∃ last,
              entries_from scan mem section_end err es.length
                (parse_leb128 mem section_begin section_end).iter = some (es, last) ∧
              ((last = section_end ∧
                  (handle_binfmt_ver1_extensible_section_define size_t_max parse_leb128 scan
                    mem module_storage section_begin section_end err
                    sec_id_module_ptr).err.err_code =
                      wasm_parse_error_code.global_section_resolved_not_match_the_actual_number) ∨
                (last ≠ section_end ∧
                  (handle_binfmt_ver1_extensible_section_define size_t_max parse_leb128 scan
                    mem module_storage section_begin section_end err sec_id_module_ptr).err =
                      ⟨last,
                        err_selectable_t.u32 (parse_leb128 mem section_begin section_end).value,
                        wasm_parse_error_code.global_section_resolved_exceeded_the_actual_number⟩) ∨
                (last ≠ section_end ∧
                  global_section_global_handler scan mem last section_end err =
                    scan_result.throws
                      (handle_binfmt_ver1_extensible_section_define size_t_max parse_leb128
                        scan mem module_storage section_begin section_end err
                        sec_id_module_ptr).err code) ∨
                (last ≠ section_end ∧
                  ∃ global_r section_curr1,
                    global_section_global_handler scan mem last section_end err =
                      scan_result.ok global_r section_curr1 ∧
                    (∀ q, section_curr1 ≤ q → q < section_end → mem q ≠ 0x0B) ∧
                    (handle_binfmt_ver1_extensible_section_define size_t_max parse_leb128
                      scan mem module_storage section_begin section_end err
                      sec_id_module_ptr).err =
                        ⟨section_end, err.err_selectable,
                          wasm_parse_error_code.global_init_terminator_not_found⟩))))) := by
  by_cases hset : module_storage.globalsec.sec_span.sec_begin ≠ 0
  · rw [handle_span_set _ _ _ _ _ _ _ _ _ hset]
    exact ⟨rfl, fun _ => rfl, fun h => absurd h hset⟩
  · have hspan : module_storage.globalsec.sec_span.sec_begin = 0 := by
      by_contra hne; exact hset hne
    rw [handle_span_unset _ _ _ _ _ _ _ _ _ hspan] at hout ⊢
    by_cases h1 : (parse_leb128 mem section_begin section_end).code ≠ parse_code.ok
    · rw [if_pos h1]
      exact ⟨rfl, fun h => absurd hspan h,
        fun _ => ⟨rfl, [], by simp, Or.inl ⟨rfl, Or.inl h1⟩⟩⟩
    · rw [if_neg h1] at hout ⊢
      have hcode : (parse_leb128 mem section_begin section_end).code = parse_code.ok := by
        by_contra hne; exact h1 hne
      obtain ⟨hi1, hi2, _⟩ := hreader mem section_begin section_end hle hcode
      by_cases h2 : size_t_max < wasm_u32_max ∧
          (parse_leb128 mem section_begin section_end).value > size_t_max
      · rw [if_pos h2]
        exact ⟨rfl, fun h => absurd hspan h,
          fun _ => ⟨rfl, [], by simp, Or.inl ⟨rfl, Or.inr (Or.inl h2)⟩⟩⟩
      · rw [if_neg h2] at hout ⊢
        by_cases h3 : (parse_leb128 mem section_begin section_end).value >
            wasm_u32_max - imported_global_size module_storage.importsec
        · rw [if_pos h3]
          exact ⟨rfl, fun h => absurd hspan h,
            fun _ => ⟨rfl, [], by simp, Or.inl ⟨rfl, Or.inr (Or.inr h3)⟩⟩⟩
        · rw [if_neg h3] at hout ⊢
          obtain ⟨a1, a2, _⟩ := global_loop_frame scan mem section_end
            (parse_leb128 mem section_begin section_end).value
            (section_end - section_begin + 1) module_storage.importsec
            (section_end - section_begin + 1)
            (parse_leb128 mem section_begin section_end).iter 0
            ⟨⟨section_begin, section_end⟩, module_storage.globalsec.local_globals⟩ err
          obtain ⟨es, last, hes, hstore, hfail⟩ := global_loop_failure scan hscan mem
            section_end _ _ _ _ _ _ _ err code hi2 (by omega) hout
          exact ⟨a1, fun h => absurd hspan h,
            fun _ => ⟨a2, es, hstore, Or.inr ⟨hcode, h2, h3, last, hes, hfail⟩⟩⟩

/-- Witness of C17 (amended): for the failing call on `02 7F 00 41 05 0B` at address
100 (two entries declared, one present), whose span was unset: the span recorded is
(100, 106) and the entries appended are the consecutive complete entries read from
the end of the count field up to the cursor where the loop fails. -/
theorem C17_state_after_failure_witness :
    (handle_binfmt_ver1_extensible_section_define 0xFFFFFFFFFFFFFFFF read_leb128_u32
      scan_global_type (memory_of 100 [0x02, 0x7F, 0x00, 0x41, 0x05, 0x0B])
      (module_storage_t.fresh [[], [], [], []]) 100 106 error_impl.zero
      98).module_storage.globalsec.sec_span = ⟨100, 106⟩ ∧
    ∃ es,
      (handle_binfmt_ver1_extensible_section_define 0xFFFFFFFFFFFFFFFF read_leb128_u32
        scan_global_type (memory_of 100 [0x02, 0x7F, 0x00, 0x41, 0x05, 0x0B])
        (module_storage_t.fresh [[], [], [], []]) 100 106 error_impl.zero
        98).module_storage.globalsec.local_globals =
          (module_storage_t.fresh [[], [], [], []]).globalsec.local_globals ++ es ∧
      ((es = [] ∧
          ((read_leb128_u32 (memory_of 100 [0x02, 0x7F, 0x00, 0x41, 0x05, 0x0B]) 100
              106).code ≠ parse_code.ok ∨
            (0xFFFFFFFFFFFFFFFF < wasm_u32_max ∧
              (read_leb128_u32 (memory_of 100 [0x02, 0x7F, 0x00, 0x41, 0x05, 0x0B]) 100
                106).value > 0xFFFFFFFFFFFFFFFF) ∨
            (read_leb128_u32 (memory_of 100 [0x02, 0x7F, 0x00, 0x41, 0x05, 0x0B]) 100
                106).value >
              wasm_u32_max -
                imported_global_size (module_storage_t.fresh [[], [], [], []]).importsec)) ∨
        ((read_leb128_u32 (memory_of 100 [0x02, 0x7F, 0x00, 0x41, 0x05, 0x0B]) 100
            106).code = parse_code.ok ∧
          ¬ (0xFFFFFFFFFFFFFFFF < wasm_u32_max ∧
            (read_leb128_u32 (memory_of 100 [0x02, 0x7F, 0x00, 0x41, 0x05, 0x0B]) 100
              106).value > 0xFFFFFFFFFFFFFFFF) ∧
          ¬ (read_leb128_u32 (memory_of 100 [0x02, 0x7F, 0x00, 0x41, 0x05, 0x0B]) 100
              106).value >
            wasm_u32_max -
              imported_global_size (module_storage_t.fresh [[], [], [], []]).importsec ∧
          ∃ last,
            entries_from scan_global_type
              (memory_of 100 [0x02, 0x7F, 0x00, 0x41, 0x05, 0x0B]) 106 error_impl.zero
              es.length
              (read_leb128_u32 (memory_of 100 [0x02, 0x7F, 0x00, 0x41, 0x05, 0x0B]) 100
                106).iter = some (es, last) ∧
            ((last = 106 ∧
                (handle_binfmt_ver1_extensible_section_define 0xFFFFFFFFFFFFFFFF
                  read_leb128_u32 scan_global_type
                  (memory_of 100 [0x02, 0x7F, 0x00, 0x41, 0x05, 0x0B])
                  (module_storage_t.fresh [[], [], [], []]) 100 106 error_impl.zero
                  98).err.err_code =
                    wasm_parse_error_code.global_section_resolved_not_match_the_actual_number) ∨
              (last ≠ 106 ∧
                (handle_binfmt_ver1_extensible_section_define 0xFFFFFFFFFFFFFFFF
                  read_leb128_u32 scan_global_type
                  (memory_of 100 [0x02, 0x7F, 0x00, 0x41, 0x05, 0x0B])
                  (module_storage_t.fresh [[], [], [], []]) 100 106 error_impl.zero
                  98).err =
                    ⟨last,
                      err_selectable_t.u32
                        (read_leb128_u32 (memory_of 100 [0x02, 0x7F, 0x00, 0x41, 0x05, 0x0B])
                          100 106).value,
                      wasm_parse_error_code.global_section_resolved_exceeded_the_actual_number⟩) ∨
              (last ≠ 106 ∧
                global_section_global_handler scan_global_type
                  (memory_of 100 [0x02, 0x7F, 0x00, 0x41, 0x05, 0x0B]) last 106
                  error_impl.zero =
                    scan_result.throws
                      (handle_binfmt_ver1_extensible_section_define 0xFFFFFFFFFFFFFFFF
                        read_leb128_u32 scan_global_type
                        (memory_of 100 [0x02, 0x7F, 0x00, 0x41, 0x05, 0x0B])
                        (module_storage_t.fresh [[], [], [], []]) 100 106 error_impl.zero
                        98).err parse_code.invalid) ∨
              (last ≠ 106 ∧
                ∃ global_r section_curr1,
                  global_section_global_handler scan_global_type
                    (memory_of 100 [0x02, 0x7F, 0x00, 0x41, 0x05, 0x0B]) last 106
                    error_impl.zero = scan_result.ok global_r section_curr1 ∧
                  (∀ q, section_curr1 ≤ q → q < 106 →
                    memory_of 100 [0x02, 0x7F, 0x00, 0x41, 0x05, 0x0B] q ≠ 0x0B) ∧
                  (handle_binfmt_ver1_extensible_section_define 0xFFFFFFFFFFFFFFFF
                    read_leb128_u32 scan_global_type
                    (memory_of 100 [0x02, 0x7F, 0x00, 0x41, 0x05, 0x0B])
                    (module_storage_t.fresh [[], [], [], []]) 100 106 error_impl.zero
                    98).err =
                      ⟨106, error_impl.zero.err_selectable,
                        wasm_parse_error_code.global_init_terminator_not_found⟩)))) :=
  (C17_state_after_failure 0xFFFFFFFFFFFFFFFF read_leb128_u32 scan_global_type
    read_leb128_u32_in_bounds scan_global_type_in_bounds
    (memory_of 100 [0x02, 0x7F, 0x00, 0x41, 0x05, 0x0B])
    (module_storage_t.fresh [[], [], [], []]) 100 106 error_impl.zero 98 parse_code.invalid
    (by decide) (by decide)).2.2 rfl

/-- C18: after a call that returns normally the stored entries are in the order of
their encoding: the list appended to `local_globals` is the list of consecutive
entries read from the end of the count field up to `section_end` (the k-th stored
entry is the k-th encoded one), and for every two of them the `expr` span of the
earlier one ends at or before the beginning of the `expr` span of the later one.
The callees are taken to keep the cursor inside the slice. -/
theorem C18_declaration_order (size_t_max : Nat) (parse_leb128 : leb128_reader)
    (scan : global_type_scanner) (hreader : reader_in_bounds parse_leb128)
    (hscan : scanner_in_bounds scan) (mem : Memory) (module_storage : module_storage_t)
    (section_begin section_end : Nat) (err : error_impl) (sec_id_module_ptr : Nat)
    (hle : section_begin ≤ section_end)
    (hret : (handle_binfmt_ver1_extensible_section_define size_t_max parse_leb128 scan mem
      module_storage section_begin section_end err sec_id_module_ptr).out =
        outcome.returned) :
    ∃ es, (handle_binfmt_ver1_extensible_section_define size_t_max parse_leb128 scan mem
        module_storage section_begin section_end err
        sec_id_module_ptr).module_storage.globalsec.local_globals =
          module_storage.globalsec.local_globals ++ es ∧
      entries_from scan mem section_end err es.length
        (parse_leb128 mem section_begin section_end).iter = some (es, section_end) ∧
      es.Pairwise (fun x y => x.expr.end_ ≤ y.expr.begin) ∧
      ∀ i j (hi : i < j) (hj : j < es.length),
        (es.get ⟨i, Nat.lt_trans hi hj⟩).expr.end_ ≤ (es.get ⟨j, hj⟩).expr.begin := by
  by_cases hset : module_storage.globalsec.sec_span.sec_begin ≠ 0
  · rw [handle_span_set _ _ _ _ _ _ _ _ _ hset] at hret
    simp at hret
  · have hspan : module_storage.globalsec.sec_span.sec_begin = 0 := by
      by_contra hne; exact hset hne
    rw [handle_span_unset _ _ _ _ _ _ _ _ _ hspan] at hret ⊢
    split at hret
    · simp at hret
    · rename_i h1
      have hcode : (parse_leb128 mem section_begin section_end).code = parse_code.ok := by
        by_contra hne; exact h1 hne
      obtain ⟨hi1, hi2, _⟩ := hreader mem section_begin section_end hle hcode
      split at hret
      · simp at hret
      · split at hret
        · simp at hret
        · rename_i h2 h3
          rw [if_neg h1, if_neg h2, if_neg h3]
          obtain ⟨es, last, hes, hstore, hlast⟩ := global_loop_decoded scan hscan mem
            section_end (parse_leb128 mem section_begin section_end).value
            (section_end - section_begin + 1) module_storage.importsec
            (section_end - section_begin + 1)
            (parse_leb128 mem section_begin section_end).iter 0
            ⟨⟨section_begin, section_end⟩, module_storage.globalsec.local_globals⟩ err hi2
            (by omega)
          have hl := hlast hret
          subst hl
          obtain ⟨_, _, _, _, a5, _⟩ := entries_from_ordered scan hscan mem last err _ _ es
            last hi2 hes
          refine ⟨es, hstore, hes, a5, ?_⟩
          intro i j hi hj
          exact List.pairwise_iff_get.mp a5 ⟨i, Nat.lt_trans hi hj⟩ ⟨j, hj⟩ hi

/-- Witness of C18: the section `02 7F 00 0B 7E 01 0B` (two entries) at address 100. -/
theorem C18_declaration_order_witness :
    ∃ es, (handle_binfmt_ver1_extensible_section_define 0xFFFFFFFFFFFFFFFF read_leb128_u32
        scan_global_type (memory_of 100 [0x02, 0x7F, 0x00, 0x0B, 0x7E, 0x01, 0x0B])
        (module_storage_t.fresh [[], [], [], []]) 100 107 error_impl.zero
        98).module_storage.globalsec.local_globals =
          (module_storage_t.fresh [[], [], [], []]).globalsec.local_globals ++ es ∧
      entries_from scan_global_type (memory_of 100 [0x02, 0x7F, 0x00, 0x0B, 0x7E, 0x01, 0x0B])
        107 error_impl.zero es.length
        (read_leb128_u32 (memory_of 100 [0x02, 0x7F, 0x00, 0x0B, 0x7E, 0x01, 0x0B]) 100
          107).iter = some (es, 107) ∧
      es.Pairwise (fun x y => x.expr.end_ ≤ y.expr.begin) ∧
      ∀ i j (hi : i < j) (hj : j < es.length),
        (es.get ⟨i, Nat.lt_trans hi hj⟩).expr.end_ ≤ (es.get ⟨j, hj⟩).expr.begin :=
  C18_declaration_order 0xFFFFFFFFFFFFFFFF read_leb128_u32 scan_global_type
    read_leb128_u32_in_bounds scan_global_type_in_bounds
    (memory_of 100 [0x02, 0x7F, 0x00, 0x0B, 0x7E, 0x01, 0x0B])
    (module_storage_t.fresh [[], [], [], []]) 100 107 error_impl.zero 98
    (by decide) (by decide)

/-- C19: the decoder does not evaluate or validate the initializer expression: for
every byte sequence `e` without a byte `0x0B` (the empty sequence and bytes that
are no opcode included), the section `01 7F 00`, `e`, `0B`, with no imported global
and an unset span, decodes successfully into one entry, of type i32 and immutable,
whose `expr` span is exactly the bytes of `e` followed by `0B`. -/
theorem C19_expression_not_evaluated (size_t_max : Nat) (hplat : 1 ≤ size_t_max)
    (mem : Memory) (module_storage : module_storage_t) (section_begin : Nat)
    (err : error_impl) (sec_id_module_ptr : Nat) (e : List Nat)
    (hspan : module_storage.globalsec.sec_span.sec_begin = 0)
    (himp : module_storage.importsec.importdesc.getD 3 [] = [])
    (hno : ∀ x ∈ e, x ≠ 0x0B)
    (hbytes : holds_bytes mem section_begin ([0x01, 0x7F, 0x00] ++ e ++ [0x0B])) :
    handle_binfmt_ver1_extensible_section_define size_t_max read_leb128_u32 scan_global_type
        mem module_storage section_begin (section_begin + (3 + e.length + 1)) err
        sec_id_module_ptr =
      ⟨⟨module_storage.importsec,
          ⟨⟨section_begin, section_begin + (3 + e.length + 1)⟩,
            module_storage.globalsec.local_globals ++
              [⟨⟨value_type_i32, false⟩,
                ⟨section_begin + 3, section_begin + (3 + e.length + 1)⟩⟩]⟩⟩,
        err, outcome.returned⟩ ∧
    holds_bytes mem (section_begin + 3) (e ++ [0x0B]) := by
  have hlen : ([0x01, 0x7F, 0x00] ++ e ++ [0x0B]).length = 3 + e.length + 1 := by
    simp; omega
  have h0 : mem section_begin = 0x01 := by simpa using hbytes 0 (by rw [hlen]; omega)
  have h1 : mem (section_begin + 1) = 0x7F := by simpa using hbytes 1 (by rw [hlen]; omega)
  have h2 : mem (section_begin + 2) = 0x00 := by simpa using hbytes 2 (by rw [hlen]; omega)
  have hexpr : holds_bytes mem (section_begin + 3) (e ++ [0x0B]) := by
    intro i hi
    have hi2 : i < e.length + 1 := by simpa using hi
    have := hbytes (3 + i) (by rw [hlen]; omega)
    rw [← Nat.add_assoc] at this
    rw [this, List.append_assoc, List.getD_append_right _ _ _ _ (by simp)]
    simp
  have hterm : mem (section_begin + 3 + e.length) = 0x0B := by
    have := hexpr e.length (by simp)
    rw [this, List.getD_append_right _ _ _ _ (le_refl _)]
    simp
  have hbody : ∀ q, section_begin + 3 ≤ q → q < section_begin + 3 + e.length →
      mem q ≠ 0x0B := by
    intro q hq1 hq2
    have hi : q - (section_begin + 3) < e.length := by omega
    have := hexpr (q - (section_begin + 3)) (by simp; omega)
    rw [show section_begin + 3 + (q - (section_begin + 3)) = q by omega] at this
    rw [this, List.getD_append _ _ _ _ hi, List.getD_eq_getElem _ _ hi]
    exact hno _ (List.getElem_mem _)
  refine ⟨?_, hexpr⟩
  have hr : read_leb128_u32 mem section_begin (section_begin + (3 + e.length + 1)) =
      ⟨section_begin + 1, parse_code.ok, 1⟩ := by
    simp [read_leb128_u32, leb128_scan, h0, wasm_u32_max]
  have hs : global_section_global_handler scan_global_type mem (section_begin + 1)
      (section_begin + (3 + e.length + 1)) err =
        scan_result.ok ⟨value_type_i32, false⟩ (section_begin + 3) := by
    unfold global_section_global_handler scan_global_type
    rw [if_neg (by omega), if_neg (by omega), h1, h2]
    simp [value_type_i32]
  have hfuel : section_begin + (3 + e.length + 1) - section_begin + 1 =
      (e.length + 3 + 1) + 1 := by omega
  have ht : find_terminator mem (section_begin + (3 + e.length + 1)) ((e.length + 3 + 1) + 1)
      (section_begin + 3) = terminator_scan.found (section_begin + 3 + e.length) :=
    find_terminator_first mem _ _ _ _ (by omega) (by omega) (by omega) hterm hbody
  have himp0 : imported_global_size module_storage.importsec = 0 := by
    unfold imported_global_size
    rw [himp]
    rfl
  rw [handle_span_unset _ _ _ _ _ _ _ _ _ hspan, hr]
  rw [if_neg (by simp), if_neg (by simp only [wasm_u32_max]; omega),
    if_neg (by rw [himp0]; simp [wasm_u32_max])]
  simp only [hfuel]
  rw [global_loop, if_neg (by omega)]
  simp only []
  rw [if_neg (by simp [wasm_u32_size]), hs]
  simp only [ht]
  rw [show section_begin + 3 + e.length + 1 = section_begin + (3 + e.length + 1) by omega]
  rw [global_loop_at_end, if_neg (by simp [wasm_u32_size])]

/-- Witness of C19: the expression bytes `FF 00 FF`, no opcodes of a constant
expression, at address 103. -/
theorem C19_expression_not_evaluated_witness :
    handle_binfmt_ver1_extensible_section_define 0xFFFFFFFFFFFFFFFF read_leb128_u32
        scan_global_type (memory_of 100 ([0x01, 0x7F, 0x00] ++ [0xFF, 0x00, 0xFF] ++ [0x0B]))
        (module_storage_t.fresh [[], [], [], []]) 100
        (100 + (3 + [0xFF, 0x00, 0xFF].length + 1)) error_impl.zero 98 =
      ⟨⟨(module_storage_t.fresh [[], [], [], []]).importsec,
          ⟨⟨100, 100 + (3 + [0xFF, 0x00, 0xFF].length + 1)⟩,
            (module_storage_t.fresh [[], [], [], []]).globalsec.local_globals ++
              [⟨⟨value_type_i32, false⟩,
                ⟨100 + 3, 100 + (3 + [0xFF, 0x00, 0xFF].length + 1)⟩⟩]⟩⟩,
        error_impl.zero, outcome.returned⟩ :=
  (C19_expression_not_evaluated 0xFFFFFFFFFFFFFFFF (by decide)
    (memory_of 100 ([0x01, 0x7F, 0x00] ++ [0xFF, 0x00, 0xFF] ++ [0x0B]))
    (module_storage_t.fresh [[], [], [], []]) 100 error_impl.zero 98 [0xFF, 0x00, 0xFF]
    rfl rfl (by decide) (holds_bytes_memory_of 100 _)).1

/-- C20: the LEB128 read of the 32-bit entry count over (`first`, `last`) fails with
`end_of_file` (UnexpectedEndOfInput) when every byte among the at most five bytes
available before `last` has its continuation bit set; when the first byte with a
clear continuation bit is the one at `first + t`, within five bytes and before
`last`, it fails with `overflow` (IntegerTooLarge) if the value of the seven-bit
groups up to that byte exceeds `0xFFFFFFFF`, and otherwise it yields that value
and the position one past that byte. -/
theorem C20_leb128_read_contract (mem : Memory) (first last : Nat) (hle : first ≤ last) :
    ((∀ t, t < 5 → first + t < last → leb128_continues (mem (first + t))) →
      (read_leb128_u32 mem first last).code = parse_code.end_of_file) ∧
    (∀ t, t < 5 → first + t < last →
      (∀ i, i < t → leb128_continues (mem (first + i))) →
      ¬ leb128_continues (mem (first + t)) →
      (wasm_u32_max < leb128_groups mem first t →
        (read_leb128_u32 mem first last).code = parse_code.overflow) ∧
      (leb128_groups mem first t ≤ wasm_u32_max →
        read_leb128_u32 mem first last =
          ⟨first + t + 1, parse_code.ok, leb128_groups mem first t⟩)) := by
  constructor
  · intro hall
    exact leb128_scan_no_terminator mem last 5 first 0 0 hle hall
  · intro t ht hlt hall hterm
    have h := leb128_scan_terminator mem last t 5 first 0 0 ht hlt hall hterm
    simp only [pow_zero, Nat.mul_one, Nat.zero_add] at h
    constructor
    · intro hbig
      unfold read_leb128_u32
      rw [h, if_neg (by omega)]
    · intro hfit
      unfold read_leb128_u32
      rw [h, if_pos hfit]

/-- Witness of C20: `80` alone has no terminating byte; `E5 8E 26` encodes 624485 in
three bytes; `FF FF FF FF 1F` encodes a value above `0xFFFFFFFF`. -/
theorem C20_leb128_read_contract_witness :
    (read_leb128_u32 (memory_of 100 [0x80]) 100 101).code = parse_code.end_of_file ∧
    read_leb128_u32 (memory_of 100 [0xE5, 0x8E, 0x26]) 100 103 =
      ⟨100 + 2 + 1, parse_code.ok, leb128_groups (memory_of 100 [0xE5, 0x8E, 0x26]) 100 2⟩ ∧
    leb128_groups (memory_of 100 [0xE5, 0x8E, 0x26]) 100 2 = 624485 ∧
    (read_leb128_u32 (memory_of 100 [0xFF, 0xFF, 0xFF, 0xFF, 0x1F]) 100 105).code =
      parse_code.overflow :=
  ⟨(C20_leb128_read_contract (memory_of 100 [0x80]) 100 101 (by decide)).1
      (by
        intro t _ h2
        have ht : t = 0 := by omega
        subst ht
        decide),
    ((C20_leb128_read_contract (memory_of 100 [0xE5, 0x8E, 0x26]) 100 103 (by decide)).2 2
      (by decide) (by decide)
      (by
        intro i hi
        have hi2 : i = 0 ∨ i = 1 := by omega
        rcases hi2 with hi2 | hi2 <;> subst hi2 <;> decide)
      (by decide)).2 (by decide),
    by decide,
    ((C20_leb128_read_contract (memory_of 100 [0xFF, 0xFF, 0xFF, 0xFF, 0x1F]) 100 105
      (by decide)).2 4 (by decide) (by decide)
      (by
        intro i hi
        have hi2 : i = 0 ∨ i = 1 ∨ i = 2 ∨ i = 3 := by omega
        rcases hi2 with hi2 | hi2 | hi2 | hi2 <;> subst hi2 <;> decide)
      (by decide)).1 (by decide)⟩

/-- C21: the LEB128 read of the entry count never advances past the end: whenever it
succeeds on (`section_begin`, `section_end`), the position it returns, from which
the entry loop starts, lies after `section_begin` and at or before `section_end`. -/
theorem C21_leb128_read_in_bounds (mem : Memory) (section_begin section_end : Nat)
    (hle : section_begin ≤ section_end)
    (hok : (read_leb128_u32 mem section_begin section_end).code = parse_code.ok) :
    section_begin < (read_leb128_u32 mem section_begin section_end).iter ∧
    (read_leb128_u32 mem section_begin section_end).iter ≤ section_end := by
  obtain ⟨a, b, _⟩ := leb128_scan_in_bounds mem section_end 5 section_begin 0 0 hle hok
  exact ⟨a, b⟩

/-- Witness of C21: the count field `E5 8E 26` at address 100 in a slice that ends
at address 103. -/
theorem C21_leb128_read_in_bounds_witness :
    100 < (read_leb128_u32 (memory_of 100 [0xE5, 0x8E, 0x26]) 100 103).iter ∧
    (read_leb128_u32 (memory_of 100 [0xE5, 0x8E, 0x26]) 100 103).iter ≤ 103 :=
  C21_leb128_read_in_bounds (memory_of 100 [0xE5, 0x8E, 0x26]) 100 103 (by decide)
    (by decide)

/-- C22: `global_section_global_handler` returns exactly what `scan_global_type`
returns, and when it throws on an entry that the loop reaches within the declared
count, the decoder ends at once with that same `err` and thrown code: the entries
decoded before stay stored, the failing entry is not stored, and the result does
not depend on any byte after the failing type descriptor (no terminator scan, no
later entry). -/
theorem C22_entry_type_error_propagates (size_t_max : Nat) (parse_leb128 : leb128_reader)
    (scan : global_type_scanner) (hreader : reader_in_bounds parse_leb128)
    (hscan : scanner_in_bounds scan) (mem : Memory) (module_storage : module_storage_t)
    (section_begin section_end : Nat) (err : error_impl) (sec_id_module_ptr : Nat)
    (k : Nat) (es : List final_local_global_type) (entry_begin : Nat)
    (err1 : error_impl) (code : parse_code)
    (hspan : module_storage.globalsec.sec_span.sec_begin = 0)
    (hle : section_begin ≤ section_end)
    (hcode : (parse_leb128 mem section_begin section_end).code = parse_code.ok)
    (hplat : ¬ (size_t_max < wasm_u32_max ∧
      (parse_leb128 mem section_begin section_end).value > size_t_max))
    (himp : ¬ (parse_leb128 mem section_begin section_end).value >
      wasm_u32_max - imported_global_size module_storage.importsec)
    (hentries : entries_from scan mem section_end err k
      (parse_leb128 mem section_begin section_end).iter = some (es, entry_begin))
    (hk : k < (parse_leb128 mem section_begin section_end).value)
    (hmore : entry_begin ≠ section_end)
    (hthrow : scan mem entry_begin section_end err = scan_result.throws err1 code) :
    global_section_global_handler scan = scan ∧
    handle_binfmt_ver1_extensible_section_define size_t_max parse_leb128 scan mem
        module_storage section_begin section_end err sec_id_module_ptr =
      ⟨⟨module_storage.importsec,
          ⟨⟨section_begin, section_end⟩, module_storage.globalsec.local_globals ++ es⟩⟩,
        err1, outcome.thrown code⟩ := by
  refine ⟨rfl, ?_⟩
  obtain ⟨hi1, hi2, hval⟩ := hreader mem section_begin section_end hle hcode
  rw [handle_span_unset _ _ _ _ _ _ _ _ _ hspan]
  rw [if_neg (by simp [hcode]), if_neg hplat, if_neg himp]
  obtain ⟨fuel1, hf1, hs1, hs2, heq⟩ := global_loop_entries scan hscan mem section_end
    (parse_leb128 mem section_begin section_end).value (section_end - section_begin + 1)
    module_storage.importsec err hval k (section_end - section_begin + 1)
    (parse_leb128 mem section_begin section_end).iter 0
    ⟨⟨section_begin, section_end⟩, module_storage.globalsec.local_globals⟩ es entry_begin
    hi2 (by omega) (by omega) (by omega) hentries
  rw [heq]
  have hthrow2 : global_section_global_handler scan mem entry_begin section_end err =
      scan_result.throws err1 code := hthrow
  cases fuel1 with
  | zero => omega
  | succ fuel1 =>
    have hmod : (0 + k + 1) % wasm_u32_size = k + 1 := by
      rw [Nat.zero_add]
      exact Nat.mod_eq_of_lt (by unfold wasm_u32_size; unfold wasm_u32_max at hval; omega)
    rw [global_loop]
    rw [if_neg hmore]
    simp only [hmod]
    rw [if_neg (by omega)]
    simp only [hthrow2]

/-- Witness of C22: in `02 7F 00 0B 7E` the second entry has its type descriptor cut
by the end of the slice; the first entry stays stored and the error of the
entry-type decoder is the result. -/
theorem C22_entry_type_error_propagates_witness :
    global_section_global_handler scan_global_type = scan_global_type ∧
    handle_binfmt_ver1_extensible_section_define 0xFFFFFFFFFFFFFFFF read_leb128_u32
        scan_global_type (memory_of 100 [0x02, 0x7F, 0x00, 0x0B, 0x7E])
        (module_storage_t.fresh [[], [], [], []]) 100 105 error_impl.zero 98 =
      ⟨⟨(module_storage_t.fresh [[], [], [], []]).importsec,
          ⟨⟨100, 105⟩, (module_storage_t.fresh [[], [], [], []]).globalsec.local_globals ++
            [⟨⟨0x7F, false⟩, ⟨103, 104⟩⟩]⟩⟩,
        ⟨105, err_selectable_t.unset, wasm_parse_error_code.callee 0⟩,
        outcome.thrown parse_code.end_of_file⟩ :=
  C22_entry_type_error_propagates 0xFFFFFFFFFFFFFFFF read_leb128_u32 scan_global_type
    read_leb128_u32_in_bounds scan_global_type_in_bounds
    (memory_of 100 [0x02, 0x7F, 0x00, 0x0B, 0x7E])
    (module_storage_t.fresh [[], [], [], []]) 100 105 error_impl.zero 98 1
    [⟨⟨0x7F, false⟩, ⟨103, 104⟩⟩] 104
    ⟨105, err_selectable_t.unset, wasm_parse_error_code.callee 0⟩ parse_code.end_of_file
    rfl (by decide) (by decide) (by decide) (by decide) (by decide) (by decide) (by decide)
    (by decide)

/-- C23: the terminator scan is not opcode-aware. For every call, each stored entry
has an `expr` span in which the only byte equal to `0x0B` is the last one: the span
ends at the first `0x0B` at or after the end of the type descriptor, whatever that
byte means. And the section `01 7F 00 41 0B 0B` (one i32 global initialised by
`i32.const 11`) does not decode into one entry with the expression `41 0B 0B`: the
entry is stored with the two-byte span `41 0B` and the call throws with
`global_section_resolved_exceeded_the_actual_number` at section offset 5. -/
theorem C23_scan_not_opcode_aware (size_t_max : Nat) (hplat : 1 ≤ size_t_max)
    (parse_leb128 : leb128_reader) (scan : global_type_scanner) (mem : Memory)
    (module_storage : module_storage_t) (section_begin section_end : Nat)
    (err : error_impl) (sec_id_module_ptr : Nat)
    (mem1 : Memory) (module_storage1 : module_storage_t) (section_begin1 : Nat)
    (hspan : module_storage1.globalsec.sec_span.sec_begin = 0)
    (himp : module_storage1.importsec.importdesc.getD 3 [] = [])
    (hbytes : holds_bytes mem1 section_begin1 [0x01, 0x7F, 0x00, 0x41, 0x0B, 0x0B]) :
    (∃ es, (handle_binfmt_ver1_extensible_section_define size_t_max parse_leb128 scan mem
        module_storage section_begin section_end err
        sec_id_module_ptr).module_storage.globalsec.local_globals =
          module_storage.globalsec.local_globals ++ es ∧
      ∀ x ∈ es, x.expr.begin < x.expr.end_ ∧
        ∀ q, x.expr.begin ≤ q → q < x.expr.end_ → (mem q = 0x0B ↔ q = x.expr.end_ - 1)) ∧
    handle_binfmt_ver1_extensible_section_define size_t_max read_leb128_u32 scan_global_type
        mem1 module_storage1 section_begin1 (section_begin1 + 6) err sec_id_module_ptr =
      ⟨⟨module_storage1.importsec,
          ⟨⟨section_begin1, section_begin1 + 6⟩,
            module_storage1.globalsec.local_globals ++
              [⟨⟨value_type_i32, false⟩, ⟨section_begin1 + 3, section_begin1 + 5⟩⟩]⟩⟩,
        ⟨section_begin1 + 5, err_selectable_t.u32 1,
          wasm_parse_error_code.global_section_resolved_exceeded_the_actual_number⟩,
        outcome.thrown parse_code.invalid⟩ := by
  constructor
  · unfold handle_binfmt_ver1_extensible_section_define
    simp only []
    split
    · exact ⟨[], by simp, by simp⟩
    · split
      · exact ⟨[], by simp, by simp⟩
      · split
        · exact ⟨[], by simp, by simp⟩
        · split
          · exact ⟨[], by simp, by simp⟩
          · obtain ⟨es, hes, hall⟩ := global_loop_stored scan mem section_end
              (parse_leb128 mem section_begin section_end).value
              (section_end - section_begin + 1) module_storage.importsec
              (section_end - section_begin + 1)
              (parse_leb128 mem section_begin section_end).iter 0
              ⟨⟨section_begin, section_end⟩, module_storage.globalsec.local_globals⟩ err
            refine ⟨es, hes, fun x hx => ?_⟩
            obtain ⟨s, t, h1, h2, h3, h4, h5, h6, h7⟩ := hall x hx
            rw [h7]
            refine ⟨by omega, fun q hq1 hq2 => ?_⟩
            constructor
            · intro hq
              by_contra hne
              exact h6 q hq1 (by omega) hq
            · intro hq
              rw [hq]
              simpa using h4
  · have h0 : mem1 section_begin1 = 0x01 := by simpa using hbytes 0 (by simp)
    have h1 : mem1 (section_begin1 + 1) = 0x7F := by simpa using hbytes 1 (by simp)
    have h2 : mem1 (section_begin1 + 2) = 0x00 := by simpa using hbytes 2 (by simp)
    have h3 : mem1 (section_begin1 + 3) = 0x41 := by simpa using hbytes 3 (by simp)
    have h4 : mem1 (section_begin1 + 4) = 0x0B := by simpa using hbytes 4 (by simp)
    have hr : read_leb128_u32 mem1 section_begin1 (section_begin1 + 6) =
        ⟨section_begin1 + 1, parse_code.ok, 1⟩ := by
      simp [read_leb128_u32, leb128_scan, h0, wasm_u32_max]
    have hfuel : section_begin1 + 6 - section_begin1 + 1 = 7 := by omega
    simp only [handle_binfmt_ver1_extensible_section_define, hspan, hr, imported_global_size,
      himp, hfuel]
    simp [global_loop, global_section_global_handler, scan_global_type, find_terminator,
      wasm_u32_max, wasm_u32_size, h1, h2, h3, h4, value_type_i32]
    intro _
    omega

/-- Witness of C23: the section `01 7F 00 41 0B 0B` at address 100. -/
theorem C23_scan_not_opcode_aware_witness :
    handle_binfmt_ver1_extensible_section_define 0xFFFFFFFFFFFFFFFF read_leb128_u32
        scan_global_type (memory_of 100 [0x01, 0x7F, 0x00, 0x41, 0x0B, 0x0B])
        (module_storage_t.fresh [[], [], [], []]) 100 (100 + 6) error_impl.zero 98 =
      ⟨⟨(module_storage_t.fresh [[], [], [], []]).importsec,
          ⟨⟨100, 100 + 6⟩,
            (module_storage_t.fresh [[], [], [], []]).globalsec.local_globals ++
              [⟨⟨value_type_i32, false⟩, ⟨100 + 3, 100 + 5⟩⟩]⟩⟩,
        ⟨100 + 5, err_selectable_t.u32 1,
          wasm_parse_error_code.global_section_resolved_exceeded_the_actual_number⟩,
        outcome.thrown parse_code.invalid⟩ :=
  (C23_scan_not_opcode_aware 0xFFFFFFFFFFFFFFFF (by decide) read_leb128_u32 scan_global_type
    (memory_of 100 [0x01, 0x7F, 0x00, 0x41, 0x0B, 0x0B])
    (module_storage_t.fresh [[], [], [], []]) 100 106 error_impl.zero 98
    (memory_of 100 [0x01, 0x7F, 0x00, 0x41, 0x0B, 0x0B])
    (module_storage_t.fresh [[], [], [], []]) 100 rfl rfl (holds_bytes_memory_of 100 _)).2

/-- C24: the import-overflow check has no false positive: when the declared count
`d` and the imported-global count `i` satisfy `d + i ≤ 0xFFFFFFFF`, no throwing call
reports `imp_def_num_exceed_u32max`; and among the calls that reach the check (span
not yet set, count read, platform-width check passed) the call throws with this
code exactly when `d + i > 0xFFFFFFFF`. -/
theorem C24_import_overflow_exact (size_t_max : Nat) (parse_leb128 : leb128_reader)
    (scan : global_type_scanner) (hcodes : scanner_codes scan) (mem : Memory)
    (module_storage : module_storage_t) (section_begin section_end : Nat)
    (err : error_impl) (sec_id_module_ptr : Nat) :
    ((parse_leb128 mem section_begin section_end).value +
        imported_global_size module_storage.importsec ≤ 0xFFFFFFFF →
      ∀ code,
        (handle_binfmt_ver1_extensible_section_define size_t_max parse_leb128 scan mem
          module_storage section_begin section_end err sec_id_module_ptr).out =
            outcome.thrown code →
        (handle_binfmt_ver1_extensible_section_define size_t_max parse_leb128 scan mem
          module_storage section_begin section_end err sec_id_module_ptr).err.err_code ≠
            wasm_parse_error_code.imp_def_num_exceed_u32max) ∧
    (module_storage.globalsec.sec_span.sec_begin = 0 →
      (parse_leb128 mem section_begin section_end).code = parse_code.ok →
      ¬ (size_t_max < wasm_u32_max ∧
        (parse_leb128 mem section_begin section_end).value > size_t_max) →
      ((∃ code,
          (handle_binfmt_ver1_extensible_section_define size_t_max parse_leb128 scan mem
            module_storage section_begin section_end err sec_id_module_ptr).out =
              outcome.thrown code ∧
          (handle_binfmt_ver1_extensible_section_define size_t_max parse_leb128 scan mem
            module_storage section_begin section_end err sec_id_module_ptr).err.err_code =
              wasm_parse_error_code.imp_def_num_exceed_u32max) ↔
        (parse_leb128 mem section_begin section_end).value +
          imported_global_size module_storage.importsec > 0xFFFFFFFF)) := by
  have hi : imported_global_size module_storage.importsec < 0x100000000 := by
    unfold imported_global_size wasm_u32_size
    exact Nat.mod_lt _ (by decide)
  have hiff : ((parse_leb128 mem section_begin section_end).value >
        wasm_u32_max - imported_global_size module_storage.importsec ↔
      (parse_leb128 mem section_begin section_end).value +
        imported_global_size module_storage.importsec > 0xFFFFFFFF) := by
    unfold wasm_u32_max
    omega
  have hno : ¬ (parse_leb128 mem section_begin section_end).value >
        wasm_u32_max - imported_global_size module_storage.importsec →
      ∀ code,
        (handle_binfmt_ver1_extensible_section_define size_t_max parse_leb128 scan mem
          module_storage section_begin section_end err sec_id_module_ptr).out =
            outcome.thrown code →
        (handle_binfmt_ver1_extensible_section_define size_t_max parse_leb128 scan mem
          module_storage section_begin section_end err sec_id_module_ptr).err.err_code ≠
            wasm_parse_error_code.imp_def_num_exceed_u32max := by
    intro hsmall code hout herr
    by_cases hset : module_storage.globalsec.sec_span.sec_begin ≠ 0
    · rw [handle_span_set _ _ _ _ _ _ _ _ _ hset] at herr
      simp at herr
    · have hspan : module_storage.globalsec.sec_span.sec_begin = 0 := by
        by_contra hne; exact hset hne
      rw [handle_span_unset _ _ _ _ _ _ _ _ _ hspan] at herr hout
      split at herr
      · simp at herr
      · split at herr
        · simp at herr
        · rename_i h1 h2
          rw [if_neg h1, if_neg h2, if_neg hsmall] at hout
          have hl := global_loop_codes scan hcodes mem section_end _ _ _ _ _ _ _ err code hout
          rw [herr] at hl
          rcases hl with hl | hl | hl | ⟨n, hl⟩ <;> simp at hl
  constructor
  · intro hsum
    exact hno (fun h => by have := hiff.mp h; omega)
  · intro hspan hcode hplat
    constructor
    · rintro ⟨code, hout, herr⟩
      by_contra hsum
      exact hno (fun h => hsum (hiff.mp h)) code hout herr
    · intro hsum
      rw [handle_span_unset _ _ _ _ _ _ _ _ _ hspan]
      rw [if_neg (by simp [hcode]), if_neg hplat, if_pos (hiff.mpr hsum)]
      exact ⟨parse_code.invalid, rfl, rfl⟩

/-- Witness of C24: the count 0xFFFFFFFF with no imported global (sum exactly
`0xFFFFFFFF`) followed by nothing fails, but not with `imp_def_num_exceed_u32max`. -/
theorem C24_import_overflow_exact_witness :
    (handle_binfmt_ver1_extensible_section_define 0xFFFFFFFFFFFFFFFF read_leb128_u32
      scan_global_type (memory_of 100 [0xFF, 0xFF, 0xFF, 0xFF, 0x0F])
      (module_storage_t.fresh [[], [], [], []]) 100 105 error_impl.zero 98).err.err_code ≠
        wasm_parse_error_code.imp_def_num_exceed_u32max :=
  (C24_import_overflow_exact 0xFFFFFFFFFFFFFFFF read_leb128_u32 scan_global_type
    scan_global_type_codes (memory_of 100 [0xFF, 0xFF, 0xFF, 0xFF, 0x0F])
    (module_storage_t.fresh [[], [], [], []]) 100 105 error_impl.zero 98).1
    (by decide) parse_code.invalid (by decide)

/-- C26: the decoder terminates on every slice when the callees keep the cursor
inside it: the call returns or throws (the step budget is never exhausted); any
budget above the number of bytes after the count field gives the loops the same
result, so the outer loop makes at most that many iterations and the terminator
scan, one byte per step, ends within the bytes left; each stored entry moved the
cursor forward by at least one byte and not past `section_end`, and the number of
stored entries is at most the number of bytes after the count field. -/
theorem C26_termination (size_t_max : Nat) (parse_leb128 : leb128_reader)
    (scan : global_type_scanner) (hreader : reader_in_bounds parse_leb128)
    (hscan : scanner_in_bounds scan) (mem : Memory) (module_storage : module_storage_t)
    (section_begin section_end : Nat) (err : error_impl) (sec_id_module_ptr : Nat)
    (hle : section_begin ≤ section_end) :
    (handle_binfmt_ver1_extensible_section_define size_t_max parse_leb128 scan mem
      module_storage section_begin section_end err sec_id_module_ptr).out ≠
        outcome.fuel_exhausted ∧
    (∀ fuel inner,
      section_end - (parse_leb128 mem section_begin section_end).iter < fuel →
      section_end - (parse_leb128 mem section_begin section_end).iter < inner →
      module_storage.globalsec.sec_span.sec_begin = 0 →
      (parse_leb128 mem section_begin section_end).code = parse_code.ok →
      ¬ (size_t_max < wasm_u32_max ∧
        (parse_leb128 mem section_begin section_end).value > size_t_max) →
      ¬ (parse_leb128 mem section_begin section_end).value >
        wasm_u32_max - imported_global_size module_storage.importsec →
      handle_binfmt_ver1_extensible_section_define size_t_max parse_leb128 scan mem
          module_storage section_begin section_end err sec_id_module_ptr =
        global_loop scan mem section_end (parse_leb128 mem section_begin section_end).value
          inner module_storage.importsec fuel
          (parse_leb128 mem section_begin section_end).iter 0
          ⟨⟨section_begin, section_end⟩, module_storage.globalsec.local_globals⟩ err) ∧
    (∀ p fuel, p ≤ section_end → section_end - p < fuel →
      find_terminator mem section_end fuel p ≠ terminator_scan.fuel_exhausted) ∧
    (∃ es, (handle_binfmt_ver1_extensible_section_define size_t_max parse_leb128 scan mem
        module_storage section_begin section_end err
        sec_id_module_ptr).module_storage.globalsec.local_globals =
          module_storage.globalsec.local_globals ++ es ∧
      es.length ≤ section_end - (parse_leb128 mem section_begin section_end).iter ∧
      es.Pairwise (fun x y => x.expr.end_ ≤ y.expr.begin) ∧
      ∀ x ∈ es, x.expr.begin < x.expr.end_ ∧ x.expr.end_ ≤ section_end) := by
  refine ⟨handle_budget_suffices size_t_max parse_leb128 scan hreader hscan mem module_storage
    section_begin section_end err sec_id_module_ptr hle, ?_,
    fun p fuel hp hf => find_terminator_fuel mem section_end fuel p hp hf, ?_⟩
  · intro fuel inner hf hi hspan hcode hplat himp
    obtain ⟨hi1, hi2, _⟩ := hreader mem section_begin section_end hle hcode
    rw [handle_span_unset _ _ _ _ _ _ _ _ _ hspan]
    rw [if_neg (by simp [hcode]), if_neg hplat, if_neg himp]
    exact global_loop_budget scan hscan mem section_end _ _ _ _ _ _ _ _ _ err hi2
      (by omega) hf (by omega) hi
  · by_cases hset : module_storage.globalsec.sec_span.sec_begin ≠ 0
    · rw [handle_span_set _ _ _ _ _ _ _ _ _ hset]
      exact ⟨[], by simp, by simp, List.Pairwise.nil, by simp⟩
    · have hspan : module_storage.globalsec.sec_span.sec_begin = 0 := by
        by_contra hne; exact hset hne
      rw [handle_span_unset _ _ _ _ _ _ _ _ _ hspan]
      split
      · exact ⟨[], by simp, by simp, List.Pairwise.nil, by simp⟩
      · rename_i h1
        have hcode : (parse_leb128 mem section_begin section_end).code = parse_code.ok := by
          by_contra hne; exact h1 hne
        obtain ⟨hi1, hi2, _⟩ := hreader mem section_begin section_end hle hcode
        split
        · exact ⟨[], by simp, by simp, List.Pairwise.nil, by simp⟩
        · split
          · exact ⟨[], by simp, by simp, List.Pairwise.nil, by simp⟩
          · obtain ⟨es, last, hes, hstore, _⟩ := global_loop_decoded scan hscan mem section_end
              (parse_leb128 mem section_begin section_end).value
              (section_end - section_begin + 1) module_storage.importsec
              (section_end - section_begin + 1)
              (parse_leb128 mem section_begin section_end).iter 0
              ⟨⟨section_begin, section_end⟩, module_storage.globalsec.local_globals⟩ err hi2
              (by omega)
            obtain ⟨b1, b2⟩ := entries_from_length_le scan hscan mem section_end err _ _ es
              last hi2 hes
            obtain ⟨_, _, _, a4, a5, _⟩ := entries_from_ordered scan hscan mem section_end err
              _ _ es last hi2 hes
            refine ⟨es, hstore, by omega, a5, fun x hx => ?_⟩
            obtain ⟨c1, c2, c3⟩ := a4 x hx
            exact ⟨c2, by omega⟩

/-- Witness of C26: the section `02 7F 00 0B 7E 01 0B` at address 100 ends with a
normal return. -/
theorem C26_termination_witness :
    (handle_binfmt_ver1_extensible_section_define 0xFFFFFFFFFFFFFFFF read_leb128_u32
      scan_global_type (memory_of 100 [0x02, 0x7F, 0x00, 0x0B, 0x7E, 0x01, 0x0B])
      (module_storage_t.fresh [[], [], [], []]) 100 107 error_impl.zero 98).out ≠
        outcome.fuel_exhausted :=
  (C26_termination 0xFFFFFFFFFFFFFFFF read_leb128_u32 scan_global_type
    read_leb128_u32_in_bounds scan_global_type_in_bounds
    (memory_of 100 [0x02, 0x7F, 0x00, 0x0B, 0x7E, 0x01, 0x0B])
    (module_storage_t.fresh [[], [], [], []]) 100 107 error_impl.zero 98 (by decide)).1

/-- C27: every error that the decoder raises itself carries a code and a position:
`err_curr` is the section-id byte for `duplicate_section`, `section_begin` for the
count-decode, platform-limit and import-overflow errors, the first surplus byte for
the exceeded count (the cursor reached when the declared number of entries has been
decoded from the end of the count field and stored, a cursor in
[`section_begin`, `section_end`)), and `section_end` for the missing terminator and
the count mismatch; a throwing call reports one of these seven codes or a code of
the entry-type decoder. -/
theorem C27_error_positions (size_t_max : Nat) (parse_leb128 : leb128_reader)
    (scan : global_type_scanner) (hreader : reader_in_bounds parse_leb128)
    (hscan : scanner_in_bounds scan) (hcodes : scanner_codes scan) (mem : Memory)
    (module_storage : module_storage_t) (section_begin section_end : Nat)
    (err : error_impl) (sec_id_module_ptr : Nat) (code : parse_code)
    (hle : section_begin ≤ section_end)
    (hout : (handle_binfmt_ver1_extensible_section_define size_t_max parse_leb128 scan mem
      module_storage section_begin section_end err sec_id_module_ptr).out =
        outcome.thrown code) :
    ((handle_binfmt_ver1_extensible_section_define size_t_max parse_leb128 scan mem
        module_storage section_begin section_end err sec_id_module_ptr).err.err_code =
          wasm_parse_error_code.duplicate_section →
      (handle_binfmt_ver1_extensible_section_define size_t_max parse_leb128 scan mem
        module_storage section_begin section_end err sec_id_module_ptr).err.err_curr =
          sec_id_module_ptr) ∧
    ((handle_binfmt_ver1_extensible_section_define size_t_max parse_leb128 scan mem
        module_storage section_begin section_end err sec_id_module_ptr).err.err_code =
          wasm_parse_error_code.invalid_global_count ∨
      (handle_binfmt_ver1_extensible_section_define size_t_max parse_leb128 scan mem
        module_storage section_begin section_end err sec_id_module_ptr).err.err_code =
          wasm_parse_error_code.size_exceeds_the_maximum_value_of_size_t ∨
      (handle_binfmt_ver1_extensible_section_define size_t_max parse_leb128 scan mem
        module_storage section_begin section_end err sec_id_module_ptr).err.err_code =
          wasm_parse_error_code.imp_def_num_exceed_u32max →
      (handle_binfmt_ver1_extensible_section_define size_t_max parse_leb128 scan mem
        module_storage section_begin section_end err sec_id_module_ptr).err.err_curr =
          section_begin) ∧
    ((handle_binfmt_ver1_extensible_section_define size_t_max parse_leb128 scan mem
        module_storage section_begin section_end err sec_id_module_ptr).err.err_code =
          wasm_parse_error_code.global_section_resolved_exceeded_the_actual_number →
      section_begin ≤ (handle_binfmt_ver1_extensible_section_define size_t_max parse_leb128
        scan mem module_storage section_begin section_end err sec_id_module_ptr).err.err_curr ∧
      (handle_binfmt_ver1_extensible_section_define size_t_max parse_leb128 scan mem
        module_storage section_begin section_end err sec_id_module_ptr).err.err_curr <
          section_end ∧
      ∃ es,
        entries_from scan mem section_end err
          (parse_leb128 mem section_begin section_end).value
          (parse_leb128 mem section_begin section_end).iter =
            some (es, (handle_binfmt_ver1_extensible_section_define size_t_max parse_leb128
              scan mem module_storage section_begin section_end err
              sec_id_module_ptr).err.err_curr) ∧
        (handle_binfmt_ver1_extensible_section_define size_t_max parse_leb128 scan mem
          module_storage section_begin section_end err
          sec_id_module_ptr).module_storage.globalsec.local_globals =
            module_storage.globalsec.local_globals ++ es) ∧
    ((handle_binfmt_ver1_extensible_section_define size_t_max parse_leb128 scan mem
        module_storage section_begin section_end err sec_id_module_ptr).err.err_code =
          wasm_parse_error_code.global_init_terminator_not_found ∨
      (handle_binfmt_ver1_extensible_section_define size_t_max parse_leb128 scan mem
        module_storage section_begin section_end err sec_id_module_ptr).err.err_code =
          wasm_parse_error_code.global_section_resolved_not_match_the_actual_number →
      (handle_binfmt_ver1_extensible_section_define size_t_max parse_leb128 scan mem
        module_storage section_begin section_end err sec_id_module_ptr).err.err_curr =
          section_end) ∧
    ((handle_binfmt_ver1_extensible_section_define size_t_max parse_leb128 scan mem
        module_storage section_begin section_end err sec_id_module_ptr).err.err_code =
          wasm_parse_error_code.duplicate_section ∨
      (handle_binfmt_ver1_extensible_section_define size_t_max parse_leb128 scan mem
        module_storage section_begin section_end err sec_id_module_ptr).err.err_code =
          wasm_parse_error_code.invalid_global_count ∨
      (handle_binfmt_ver1_extensible_section_define size_t_max parse_leb128 scan mem
        module_storage section_begin section_end err sec_id_module_ptr).err.err_code =
          wasm_parse_error_code.size_exceeds_the_maximum_value_of_size_t ∨
      (handle_binfmt_ver1_extensible_section_define size_t_max parse_leb128 scan mem
        module_storage section_begin section_end err sec_id_module_ptr).err.err_code =
          wasm_parse_error_code.imp_def_num_exceed_u32max ∨
      loop_code (handle_binfmt_ver1_extensible_section_define size_t_max parse_leb128 scan mem
        module_storage section_begin section_end err sec_id_module_ptr).err.err_code) := by
  by_cases hset : module_storage.globalsec.sec_span.sec_begin ≠ 0
  · rw [handle_span_set _ _ _ _ _ _ _ _ _ hset]
    simp
  · have hspan : module_storage.globalsec.sec_span.sec_begin = 0 := by
      by_contra hne; exact hset hne
    rw [handle_span_unset _ _ _ _ _ _ _ _ _ hspan] at hout ⊢
    by_cases h1 : (parse_leb128 mem section_begin section_end).code ≠ parse_code.ok
    · rw [if_pos h1]
      simp
    · rw [if_neg h1] at hout ⊢
      have hcode : (parse_leb128 mem section_begin section_end).code = parse_code.ok := by
        by_contra hne; exact h1 hne
      obtain ⟨hi1, hi2, _⟩ := hreader mem section_begin section_end hle hcode
      by_cases h2 : size_t_max < wasm_u32_max ∧
          (parse_leb128 mem section_begin section_end).value > size_t_max
      · rw [if_pos h2]
        simp
      · rw [if_neg h2] at hout ⊢
        by_cases h3 : (parse_leb128 mem section_begin section_end).value >
            wasm_u32_max - imported_global_size module_storage.importsec
        · rw [if_pos h3]
          simp
        · rw [if_neg h3] at hout ⊢
          have hl := global_loop_codes scan hcodes mem section_end _ _ _ _ _ _ _ err code hout
          obtain ⟨a1, a2, a3⟩ := global_loop_positions scan hcodes hscan mem section_end _ _ _
            _ _ _ _ err code hi2 hout
          refine ⟨?_, ?_, ?_, ?_, Or.inr (Or.inr (Or.inr (Or.inr hl)))⟩
          · intro h
            rw [h] at hl
            rcases hl with hl | hl | hl | ⟨n, hl⟩ <;> simp at hl
          · intro h
            rcases h with h | h | h <;> rw [h] at hl <;>
              rcases hl with hl | hl | hl | ⟨n, hl⟩ <;> simp at hl
          · intro h
            obtain ⟨b1, b2⟩ := a3 h
            have hd := global_loop_exceeded_small scan hcodes mem section_end _ _ _ _ _ _ _
              err code hout h
            obtain ⟨es, hes, hlen, _, hstore⟩ := global_loop_exceeded_at scan hcodes hscan mem
              section_end _ _ _ hd _ _ _ _ err code hi2 (by omega) (Nat.zero_le _) hout h
            have hk : es.length = (parse_leb128 mem section_begin section_end).value := by
              omega
            rw [hk] at hes
            exact ⟨by omega, b2, es, hes, hstore⟩
          · intro h
            rcases h with h | h
            · exact a2 h
            · exact a1 h

/-- Witness of C27: the call on `01 7F 00 0B FF` (one entry declared, one byte after
it) throws the exceeded count with `err_curr` at the first surplus byte, address
104: the cursor after the one declared entry. -/
theorem C27_error_positions_witness :
    100 ≤ (handle_binfmt_ver1_extensible_section_define 0xFFFFFFFFFFFFFFFF read_leb128_u32
      scan_global_type (memory_of 100 [0x01, 0x7F, 0x00, 0x0B, 0xFF])
      (module_storage_t.fresh [[], [], [], []]) 100 105 error_impl.zero 98).err.err_curr ∧
    (handle_binfmt_ver1_extensible_section_define 0xFFFFFFFFFFFFFFFF read_leb128_u32
      scan_global_type (memory_of 100 [0x01, 0x7F, 0x00, 0x0B, 0xFF])
      (module_storage_t.fresh [[], [], [], []]) 100 105 error_impl.zero 98).err.err_curr <
        105 ∧
    ∃ es,
      entries_from scan_global_type (memory_of 100 [0x01, 0x7F, 0x00, 0x0B, 0xFF]) 105
        error_impl.zero
        (read_leb128_u32 (memory_of 100 [0x01, 0x7F, 0x00, 0x0B, 0xFF]) 100 105).value
        (read_leb128_u32 (memory_of 100 [0x01, 0x7F, 0x00, 0x0B, 0xFF]) 100 105).iter =
          some (es, (handle_binfmt_ver1_extensible_section_define 0xFFFFFFFFFFFFFFFF
            read_leb128_u32 scan_global_type (memory_of 100 [0x01, 0x7F, 0x00, 0x0B, 0xFF])
            (module_storage_t.fresh [[], [], [], []]) 100 105 error_impl.zero
            98).err.err_curr) ∧
      (handle_binfmt_ver1_extensible_section_define 0xFFFFFFFFFFFFFFFF read_leb128_u32
        scan_global_type (memory_of 100 [0x01, 0x7F, 0x00, 0x0B, 0xFF])
        (module_storage_t.fresh [[], [], [], []]) 100 105 error_impl.zero
        98).module_storage.globalsec.local_globals =
          (module_storage_t.fresh [[], [], [], []]).globalsec.local_globals ++ es :=
  (C27_error_positions 0xFFFFFFFFFFFFFFFF read_leb128_u32 scan_global_type
    read_leb128_u32_in_bounds scan_global_type_in_bounds scan_global_type_codes
    (memory_of 100 [0x01, 0x7F, 0x00, 0x0B, 0xFF])
    (module_storage_t.fresh [[], [], [], []]) 100 105 error_impl.zero 98 parse_code.invalid
    (by decide) (by decide)).2.2.1 (by decide)

/-- C28: every `expr` span that a call stores, whether the call then returns or
throws, lies inside the slice and after the count field:
`section_begin < expr.begin < expr.end_ ≤ section_end`, the callees keeping the
cursor inside the slice and the count field taking at least one byte. -/
theorem C28_stored_spans_inside_section (size_t_max : Nat) (parse_leb128 : leb128_reader)
    (scan : global_type_scanner) (hreader : reader_in_bounds parse_leb128)
    (hadvance : reader_advances parse_leb128) (hscan : scanner_in_bounds scan)
    (mem : Memory) (module_storage : module_storage_t)
    (section_begin section_end : Nat) (err : error_impl) (sec_id_module_ptr : Nat)
    (hle : section_begin ≤ section_end) :
    ∃ es, (handle_binfmt_ver1_extensible_section_define size_t_max parse_leb128 scan mem
        module_storage section_begin section_end err
        sec_id_module_ptr).module_storage.globalsec.local_globals =
          module_storage.globalsec.local_globals ++ es ∧
      ∀ x ∈ es, section_begin < x.expr.begin ∧ x.expr.begin < x.expr.end_ ∧
        x.expr.end_ ≤ section_end := by
  by_cases hset : module_storage.globalsec.sec_span.sec_begin ≠ 0
  · rw [handle_span_set _ _ _ _ _ _ _ _ _ hset]
    exact ⟨[], by simp, by simp⟩
  · have hspan : module_storage.globalsec.sec_span.sec_begin = 0 := by
      by_contra hne; exact hset hne
    rw [handle_span_unset _ _ _ _ _ _ _ _ _ hspan]
    split
    · exact ⟨[], by simp, by simp⟩
    · rename_i h1
      have hcode : (parse_leb128 mem section_begin section_end).code = parse_code.ok := by
        by_contra hne; exact h1 hne
      obtain ⟨_, hi2, _⟩ := hreader mem section_begin section_end hle hcode
      have hi1 := hadvance mem section_begin section_end hle hcode
      split
      · exact ⟨[], by simp, by simp⟩
      · split
        · exact ⟨[], by simp, by simp⟩
        · obtain ⟨es, hes, hall⟩ := global_loop_stored_in_bounds scan hscan mem section_end
            (parse_leb128 mem section_begin section_end).value
            (section_end - section_begin + 1) module_storage.importsec
            (section_end - section_begin + 1)
            (parse_leb128 mem section_begin section_end).iter 0
            ⟨⟨section_begin, section_end⟩, module_storage.globalsec.local_globals⟩ err hi2
          refine ⟨es, hes, fun x hx => ?_⟩
          obtain ⟨b1, b2, b3, _⟩ := hall x hx
          exact ⟨by omega, b2, b3⟩

/-- Witness of C28: the failing call on `02 7F 00 41 05 0B`, which has stored one
entry. -/
theorem C28_stored_spans_inside_section_witness :
    ∃ es, (handle_binfmt_ver1_extensible_section_define 0xFFFFFFFFFFFFFFFF read_leb128_u32
        scan_global_type (memory_of 100 [0x02, 0x7F, 0x00, 0x41, 0x05, 0x0B])
        (module_storage_t.fresh [[], [], [], []]) 100 106 error_impl.zero
        98).module_storage.globalsec.local_globals =
          (module_storage_t.fresh [[], [], [], []]).globalsec.local_globals ++ es ∧
      ∀ x ∈ es, 100 < x.expr.begin ∧ x.expr.begin < x.expr.end_ ∧ x.expr.end_ ≤ 106 :=
  C28_stored_spans_inside_section 0xFFFFFFFFFFFFFFFF read_leb128_u32 scan_global_type
    read_leb128_u32_in_bounds read_leb128_u32_advances scan_global_type_in_bounds
    (memory_of 100 [0x02, 0x7F, 0x00, 0x41, 0x05, 0x0B])
    (module_storage_t.fresh [[], [], [], []]) 100 106 error_impl.zero 98 (by decide)

/-- C25: on every slice of at most `0xFFFFFFFF` bytes (a section is cut by its
32-bit size field, so no longer slice reaches the decoder), the callees keeping the
cursor inside it, and likewise on any slice whose declared count is below
`0xFFFFFFFF`: at each append (`push_back_unchecked`) of the call the number of
entries stored by the call so far equals the running counter minus one and is
smaller than the declared count; the entries stored by the call, as many as its
appends, never exceed the declared count. And a count mismatch is reported with a
resolved number strictly smaller than the declared one. -/
theorem C25_appends_within_declared_count (size_t_max : Nat) (parse_leb128 : leb128_reader)
    (scan : global_type_scanner) (hcodes : scanner_codes scan) (mem : Memory)
    (module_storage : module_storage_t) (section_begin section_end : Nat)
    (err : error_impl) (sec_id_module_ptr : Nat)
    (hbound : (parse_leb128 mem section_begin section_end).value < wasm_u32_max ∨
      (reader_in_bounds parse_leb128 ∧ scanner_in_bounds scan ∧
        section_begin ≤ section_end ∧ section_end - section_begin ≤ 0xFFFFFFFF)) :
    (handle_binfmt_ver1_extensible_section_define size_t_max parse_leb128 scan mem
        module_storage section_begin section_end err
        sec_id_module_ptr).module_storage.globalsec.local_globals.length =
      module_storage.globalsec.local_globals.length +
        (global_section_pushes size_t_max parse_leb128 scan mem module_storage section_begin
          section_end err).length ∧
    (∀ p ∈ global_section_pushes size_t_max parse_leb128 scan mem module_storage
        section_begin section_end err,
      1 ≤ p.2 ∧ p.1 = module_storage.globalsec.local_globals.length + (p.2 - 1) ∧
        p.1 < module_storage.globalsec.local_globals.length +
          (parse_leb128 mem section_begin section_end).value) ∧
    (global_section_pushes size_t_max parse_leb128 scan mem module_storage section_begin
        section_end err).length ≤ (parse_leb128 mem section_begin section_end).value ∧
    (∀ code,
      (handle_binfmt_ver1_extensible_section_define size_t_max parse_leb128 scan mem
        module_storage section_begin section_end err sec_id_module_ptr).out =
          outcome.thrown code →
      (handle_binfmt_ver1_extensible_section_define size_t_max parse_leb128 scan mem
        module_storage section_begin section_end err sec_id_module_ptr).err.err_code =
          wasm_parse_error_code.global_section_resolved_not_match_the_actual_number →
      ∃ resolved, resolved < (parse_leb128 mem section_begin section_end).value ∧
        (handle_binfmt_ver1_extensible_section_define size_t_max parse_leb128 scan mem
          module_storage section_begin section_end err sec_id_module_ptr).err.err_selectable =
            err_selectable_t.u32arr resolved
              (parse_leb128 mem section_begin section_end).value) := by
  by_cases hset : module_storage.globalsec.sec_span.sec_begin ≠ 0
  · rw [handle_span_set _ _ _ _ _ _ _ _ _ hset]
    unfold global_section_pushes
    simp only []
    rw [if_pos hset]
    simp
  · have hspan : module_storage.globalsec.sec_span.sec_begin = 0 := by
      by_contra hne; exact hset hne
    rw [handle_span_unset _ _ _ _ _ _ _ _ _ hspan]
    unfold global_section_pushes
    simp only []
    rw [if_neg hset]
    by_cases h1 : (parse_leb128 mem section_begin section_end).code ≠ parse_code.ok
    · rw [if_pos h1, if_pos h1]
      simp
    · rw [if_neg h1, if_neg h1]
      by_cases h2 : size_t_max < wasm_u32_max ∧
          (parse_leb128 mem section_begin section_end).value > size_t_max
      · rw [if_pos h2, if_pos h2]
        simp
      · rw [if_neg h2, if_neg h2]
        by_cases h3 : (parse_leb128 mem section_begin section_end).value >
            wasm_u32_max - imported_global_size module_storage.importsec
        · rw [if_pos h3, if_pos h3]
          simp
        · rw [if_neg h3, if_neg h3]
          have hpushes : (global_loop_pushes scan mem section_end
                (parse_leb128 mem section_begin section_end).value
                (section_end - section_begin + 1) (section_end - section_begin + 1)
                (parse_leb128 mem section_begin section_end).iter 0
                module_storage.globalsec.local_globals.length err).length + 0 ≤
                (parse_leb128 mem section_begin section_end).value ∧
              ∀ p ∈ global_loop_pushes scan mem section_end
                (parse_leb128 mem section_begin section_end).value
                (section_end - section_begin + 1) (section_end - section_begin + 1)
                (parse_leb128 mem section_begin section_end).iter 0
                module_storage.globalsec.local_globals.length err,
                1 ≤ p.2 ∧ p.2 ≤ (parse_leb128 mem section_begin section_end).value ∧
                  p.1 + 0 + 1 = module_storage.globalsec.local_globals.length + p.2 := by
            rcases hbound with hd | ⟨hreader, hscan, hle, hsize⟩
            · exact global_loop_pushes_small_count scan mem section_end _ _ hd _ _ 0 _ err
                (Nat.zero_le _)
            · have hcode : (parse_leb128 mem section_begin section_end).code =
                  parse_code.ok := by
                by_contra hne; exact h1 hne
              obtain ⟨hi1, hi2, _⟩ := hreader mem section_begin section_end hle hcode
              exact global_loop_pushes_short_slice scan hscan mem section_end _ _ _ _ 0 _ err
                hi2 (by unfold wasm_u32_size; omega) (Nat.zero_le _)
          obtain ⟨hlen, hall⟩ := hpushes
          refine ⟨?_, ?_, by omega, ?_⟩
          · exact global_loop_pushes_length scan mem section_end _ _ _ _ _ _
              ⟨⟨section_begin, section_end⟩, module_storage.globalsec.local_globals⟩ err
          · intro p hp
            obtain ⟨a1, a2, a3⟩ := hall p hp
            exact ⟨a1, by omega, by omega⟩
          · intro code hout herr
            exact global_loop_mismatch_context scan hcodes mem section_end _ _ _ _ _ _ _ err
              code (Nat.zero_le _) hout herr

/-- Witness of C25: the call on the six-byte slice `02 7F 00 41 05 0B` reports the
mismatch with the resolved number 1, below the declared 2. -/
theorem C25_appends_within_declared_count_witness :
    ∃ resolved,
      resolved < (read_leb128_u32 (memory_of 100 [0x02, 0x7F, 0x00, 0x41, 0x05, 0x0B]) 100
        106).value ∧
      (handle_binfmt_ver1_extensible_section_define 0xFFFFFFFFFFFFFFFF read_leb128_u32
        scan_global_type (memory_of 100 [0x02, 0x7F, 0x00, 0x41, 0x05, 0x0B])
        (module_storage_t.fresh [[], [], [], []]) 100 106 error_impl.zero
        98).err.err_selectable =
          err_selectable_t.u32arr resolved
            (read_leb128_u32 (memory_of 100 [0x02, 0x7F, 0x00, 0x41, 0x05, 0x0B]) 100
              106).value :=
  (C25_appends_within_declared_count 0xFFFFFFFFFFFFFFFF read_leb128_u32 scan_global_type
    scan_global_type_codes (memory_of 100 [0x02, 0x7F, 0x00, 0x41, 0x05, 0x0B])
    (module_storage_t.fresh [[], [], [], []]) 100 106 error_impl.zero 98
    (Or.inr ⟨read_leb128_u32_in_bounds, scan_global_type_in_bounds, by decide,
      by decide⟩)).2.2.2 parse_code.invalid (by decide) (by decide)

end uwvm2

namespace boost

/-- The text that `snprintf` formats for a 32-bit argument fits the 16-character
buffer. -/
theorem BOOST_ASSERT_SNPRINTF_fits (arg : Nat) (harg : arg < 2 ^ 32) :
    BOOST_ASSERT_SNPRINTF arg = ':' :: decimal arg := by
  have hlen : (Nat.repr arg).length ≤ 10 :=
    Nat.repr_length arg 10 (by decide) (Nat.lt_trans harg (by decide))
  have hlen2 : (decimal arg).length ≤ 10 := by
    simpa [Nat.repr, decimal] using hlen
  unfold BOOST_ASSERT_SNPRINTF
  exact List.take_of_length_le (by simp; omega)

/-- C29: `to_string` returns "(unknown source location)" whenever `line()` is 0,
whatever the file, the function and the column are; otherwise, for every 32-bit
line and column, it returns the file name, then `:` and the decimal line, then `:`
and the decimal column only if the column is not 0, then " in function '", the
function name and "'" only if the function name is not empty; the 16-character
buffer truncates neither number. -/
theorem C29_source_location_to_string (loc : source_location)
    (hline : loc.line_ < 2 ^ 32) (hcolumn : loc.column_ < 2 ^ 32) :
    loc.to_string =
      if loc.line_ = 0 then "(unknown source location)".toList
      else
        loc.file_ ++ (':' :: decimal loc.line_) ++
          (if loc.column_ ≠ 0 then ':' :: decimal loc.column_ else []) ++
          (if loc.function_ ≠ [] then
            " in function ".toList ++ [apostrophe] ++ loc.function_ ++ [apostrophe]
          else []) := by
  unfold source_location.to_string source_location.line source_location.column
    source_location.file_name source_location.function_name
  simp only []
  by_cases h0 : loc.line_ = 0
  · rw [if_pos h0, if_pos h0]
  · rw [if_neg h0, if_neg h0, BOOST_ASSERT_SNPRINTF_fits _ hline,
      BOOST_ASSERT_SNPRINTF_fits _ hcolumn]
    by_cases hc : loc.column_ ≠ 0
    · rw [if_pos hc, if_pos hc]
      by_cases hf : loc.function_ ≠ []
      · rw [if_pos hf, if_pos hf]
        simp only [List.append_assoc]
      · rw [if_neg hf, if_neg hf]
        simp only [List.append_nil]
    · rw [if_neg hc, if_neg hc]
      by_cases hf : loc.function_ ≠ []
      · rw [if_pos hf, if_pos hf]
        simp only [List.append_assoc, List.append_nil, List.nil_append]
      · rw [if_neg hf, if_neg hf]
        simp only [List.append_nil]

/-- Witness of C29: file `a.cpp`, line 4294967295, column 7, function `f`. -/
theorem C29_source_location_to_string_witness :
    (⟨"a.cpp".toList, "f".toList, 4294967295, 7⟩ : source_location).to_string =
      "a.cpp".toList ++ (':' :: "4294967295".toList) ++ (':' :: "7".toList) ++
        (" in function ".toList ++ [apostrophe] ++ "f".toList ++ [apostrophe]) :=
  (C29_source_location_to_string ⟨"a.cpp".toList, "f".toList, 4294967295, 7⟩
    (by decide) (by decide)).trans (by decide)

end boost
